import Mathlib

/-! finance-assistant: document ingestion pipeline

A shallow embedding of the document entity (`internal/domain/entity/document.go`),
the Kafka producer (`internal/infrastructure/kafka/producer.go`) with the wire
format of its message, the Postgres repositories
(`internal/infrastructure/repository`) and the document service
(`internal/domain/service/document_service.go`), whose operations also form a step
relation on the store; then the user entity and service
(`internal/domain/entity/user.go`, `internal/domain/service/user_service.go`), the
response DTOs with `encoding/base64` (`internal/interface/api/dto`) and the HTTP
handlers of users and documents (`internal/interface/api/handler`).

Conventions of the embedding

* A Go `error` is a value of `GoError`; the `error` result of a function is an
  `Option GoError` (`none` is Go's `nil`).
* A Go pointer result `*T` is an `Option T` (`none` is `nil`); a pair `(*T, error)`
  is `Option T × Option GoError`, both components as the Go function returns them.
* A Go slice `[]string` is an `Option (List String)` (`none` is the nil slice).
* `int64` and `int` values are `Int`.
* Code against an interface (the repositories) is a function of a record of the
  interface's methods, each method a state transformer on an arbitrary world `σ`.
* Every call the service makes to a collaborator is appended to a trace of `Call`s.
-/

namespace FinanceAssistant

/-! ## Errors -/

/-- A Go error value: `errors.New msg` (also `fmt.Errorf` without `%w`), or
`fmt.Errorf (pre ++ "%w") cause`, which wraps `cause`. -/
inductive GoError where
  | new (msg : String)
  | wrap (pre : String) (cause : GoError)
  deriving DecidableEq, Repr

namespace GoError

/-- The method `Error()`: the message of the error. -/
def Error : GoError → String
  | new msg => msg
  | wrap pre cause => pre ++ cause.Error

/-- The function `errors.Unwrap`. -/
def Unwrap : GoError → Option GoError
  | new _ => none
  | wrap _ cause => some cause

/-- The function `errors.Is e target`: `target` occurs in the chain of `e`. -/
def Is : GoError → GoError → Bool
  | new msg, target => decide (new msg = target)
  | wrap pre cause, target => decide (wrap pre cause = target) || cause.Is target

end GoError

/-- The outcome of running Go code: it returns a value or it panics. -/
inductive Ret (α : Type) where
  | returned (a : α)
  | panicked (msg : String)
  deriving DecidableEq, Repr

/-! ## Entity (`internal/domain/entity`) -/

/-- A `uuid.UUID`, as its 128-bit value. -/
structure UUID where
  val : Nat
  deriving DecidableEq, Repr

/-- A `time.Time`, as an instant on an integer time line. -/
abbrev Time := Int

/-- The Go type `DocumentStatus`, a string type. -/
abbrev DocumentStatus := String

def DocumentStatusPending : DocumentStatus := "pending"
def DocumentStatusProcessing : DocumentStatus := "processing"
def DocumentStatusProcessed : DocumentStatus := "processed"
def DocumentStatusFailed : DocumentStatus := "failed"

def ErrInvalidDocumentType : GoError := .new "Tipo de documento inválido"
def ErrInvalidDocumentContent : GoError := .new "Conteúdo do documento inválido"
def ErrInvalidDocumentUserID : GoError := .new "ID de usuário inválido"
def ErrInvalidDocumentFilename : GoError := .new "Nome de arquivo inválido"

/-- The struct `entity.Document`. -/
structure Document where
  ID : Int
  ExternalID : UUID
  UserID : Int
  DocumentType : String
  Filename : String
  ContentType : String
  FileContent : String
  Categories : Option (List String)
  Status : DocumentStatus
  CreatedAt : Time
  UpdatedAt : Time
  deriving DecidableEq, Repr

/-- The struct `entity.User`. -/
structure User where
  ID : Int
  ExternalID : UUID
  Name : String
  Email : String
  Phone : String
  CreatedAt : Time
  UpdatedAt : Time
  deriving DecidableEq, Repr

/-- The ambient library functions the code calls, as transformers of the world:
`time.Now()` and `uuid.New()`. -/
structure Runtime (σ : Type) where
  timeNow : σ → Time × σ
  uuidNew : σ → UUID × σ

/-- The function `entity.NewDocument`. The four checks come first, in the order of
the source; `time.Now()` and then `uuid.New()` are only reached when all pass. -/
def NewDocument {σ : Type} (rt : Runtime σ) (userID : Int)
    (documentType filename contentType fileContent : String)
    (categories : Option (List String)) (w : σ) :
    (Option Document × Option GoError) × σ :=
  if userID ≤ 0 then
    ((none, some ErrInvalidDocumentUserID), w)
  else if documentType = "" then
    ((none, some ErrInvalidDocumentType), w)
  else if filename = "" then
    ((none, some ErrInvalidDocumentFilename), w)
  else if fileContent = "" then
    ((none, some ErrInvalidDocumentContent), w)
  else
    let categories := match categories with
      | none => some []
      | some c => some c
    let (now, w1) := rt.timeNow w
    let (ext, w2) := rt.uuidNew w1
    ((some { ID := 0
             ExternalID := ext
             UserID := userID
             DocumentType := documentType
             Filename := filename
             ContentType := contentType
             FileContent := fileContent
             Categories := categories
             Status := DocumentStatusPending
             CreatedAt := now
             UpdatedAt := now }, none), w2)

/-- The method `Document.Validate`. -/
def Document.Validate (d : Document) : Option GoError :=
  if d.UserID ≤ 0 then some ErrInvalidDocumentUserID
  else if d.DocumentType = "" then some ErrInvalidDocumentType
  else if d.Filename = "" then some ErrInvalidDocumentFilename
  else if d.FileContent = "" then some ErrInvalidDocumentContent
  else none

/-- The method `Document.UpdateStatus`. -/
def Document.UpdateStatus {σ : Type} (rt : Runtime σ) (d : Document)
    (status : DocumentStatus) (w : σ) : Document × σ :=
  let (now, w1) := rt.timeNow w
  ({ d with Status := status, UpdatedAt := now }, w1)

/-- The method `Document.UpdateCategories`. -/
def Document.UpdateCategories {σ : Type} (rt : Runtime σ) (d : Document)
    (categories : Option (List String)) (w : σ) : Document × σ :=
  let (now, w1) := rt.timeNow w
  ({ d with Categories := categories, UpdatedAt := now }, w1)

/-! ## Collaborator interfaces (`internal/domain/repository`) -/

/-- The interface `repository.DocumentRepository`. `Create` and `Update` receive a
pointer: they return, next to the error, the document as the call leaves it. -/
structure DocumentRepository (σ : Type) where
  Create : Document → σ → (Document × Option GoError) × σ
  FindByID : Int → σ → (Option Document × Option GoError) × σ
  FindByExternalID : UUID → σ → (Option Document × Option GoError) × σ
  FindByUserID : Int → Int → Int → σ → (Option (List Document) × Option GoError) × σ
  Update : Document → σ → (Document × Option GoError) × σ
  UpdateStatus : Int → DocumentStatus → σ → Option GoError × σ
  Delete : Int → σ → Option GoError × σ
  List : Int → Int → σ → (Option (List Document) × Option GoError) × σ
  CountByUserID : Int → σ → (Int × Option GoError) × σ

/-- The interface `repository.UserRepository`. -/
structure UserRepository (σ : Type) where
  Create : User → σ → (User × Option GoError) × σ
  FindByID : Int → σ → (Option User × Option GoError) × σ
  FindByExternalID : UUID → σ → (Option User × Option GoError) × σ
  FindByEmail : String → σ → (Option User × Option GoError) × σ
  Update : User → σ → (User × Option GoError) × σ
  Delete : Int → σ → Option GoError × σ
  List : Int → Int → σ → (Option (List User) × Option GoError) × σ

/-! ## Kafka producer (`internal/infrastructure/kafka/producer.go`) -/

/-- The struct `kafka.DocumentMessage`. -/
structure DocumentMessage where
  ID : String
  ExternalID : String
  UserID : String
  DocumentType : String
  Filename : String
  ContentType : String
  FileContent : String
  Categories : Option (List String)
  CreatedAt : Time
  UpdatedAt : Time
  deriving DecidableEq, Repr

/-- A header of a broker message. -/
structure Header where
  Key : String
  Value : String
  deriving DecidableEq, Repr

/-- The constant `kafka.PartitionAny` of the client library. -/
def PartitionAny : Int := -1

/-- The broker message handed to `Produce`. -/
structure Message where
  Topic : String
  Partition : Int
  Value : String
  Key : String
  Headers : List Header
  deriving DecidableEq, Repr

/-- What the `select` after `Produce` observes: an event on the delivery channel,
carrying `m.TopicPartition.Error`, or the five-second timer firing first. -/
inductive DeliveryOutcome where
  | report (err : Option GoError)
  | timeout
  deriving DecidableEq, Repr

/-- The broker client (`*kafka.Producer` of confluent-kafka-go), by the outcomes of
the two interactions `SendDocument` has with it. -/
structure KafkaClient (σ : Type) where
  Produce : Message → σ → Option GoError × σ
  Delivery : Message → σ → DeliveryOutcome × σ

/-- The struct `kafka.Producer` of this repository. -/
structure Producer (σ : Type) where
  producer : KafkaClient σ
  topic : String

/-- The function `json.Marshal` on a `DocumentMessage`, given by the library. -/
structure Encoding where
  jsonMarshal : DocumentMessage → Except GoError String

def hexDigit (n : Nat) : Char :=
  if n < 10 then Char.ofNat (48 + n) else Char.ofNat (87 + n)

/-- The 32 hexadecimal digits of a 128-bit value, most significant first. -/
def hexDigits (n : Nat) : List Char :=
  (List.range 32).map (fun i => hexDigit (n / 16 ^ (31 - i) % 16))

/-- The method `uuid.UUID.String`: the form 8-4-4-4-12 in lower-case hexadecimal. -/
def UUID.String (u : UUID) : String :=
  let h := hexDigits u.val
  String.mk (h.take 8 ++ ['-'] ++ (h.drop 8).take 4 ++ ['-'] ++ (h.drop 12).take 4
    ++ ['-'] ++ (h.drop 16).take 4 ++ ['-'] ++ h.drop 20)

/-- The call `fmt.Sprintf("%d", i)`. -/
def sprintfD (i : Int) : String := toString i

/-! ## Trace of collaborator calls -/

/-- A call made to a collaborator, with its arguments and (for the calls that are
atomic in the model) what it returned. `SendDocument` is recorded when it is
invoked and `SendDocumentReturn` when it returns. -/
inductive Call where
  | UserFindByExternalID (externalID : UUID) (user : Option User) (err : Option GoError)
  | RepoCreate (document : Document) (err : Option GoError)
  | RepoFindByExternalID (externalID : UUID) (document : Option Document)
      (err : Option GoError)
  | RepoFindByUserID (userID limit offset : Int) (err : Option GoError)
  | RepoCountByUserID (userID : Int) (err : Option GoError)
  | RepoUpdate (document : Document) (err : Option GoError)
  | RepoUpdateStatus (id : Int) (status : DocumentStatus) (err : Option GoError)
  | RepoDelete (id : Int) (err : Option GoError)
  | RepoList (limit offset : Int) (err : Option GoError)
  | SendDocument (document : Document)
  | SendDocumentReturn (err : Option GoError)
  | Produce (msg : Message) (err : Option GoError)
  | UserFindByEmail (email : String) (user : Option User) (err : Option GoError)
  | UserCreate (user : User) (err : Option GoError)
  | UserUpdate (user : User) (err : Option GoError)
  deriving DecidableEq, Repr

/-- The world together with the calls made so far, oldest first. -/
structure Sys (σ : Type) where
  world : σ
  trace : List Call

/-- Record a call. -/
def Sys.log {σ : Type} (s : Sys σ) (c : Call) : Sys σ :=
  { s with trace := s.trace ++ [c] }

/-- The message of the run-time panic on `p.producer` with `p == nil`. -/
def nilDereference : String :=
  "runtime error: invalid memory address or nil pointer dereference"

/-- The `DocumentMessage` built from a document (producer.go, lines 85 to 96). -/
def toDocumentMessage (document : Document) : DocumentMessage :=
  { ID := sprintfD document.ID
    ExternalID := document.ExternalID.String
    UserID := sprintfD document.UserID
    DocumentType := document.DocumentType
    Filename := document.Filename
    ContentType := document.ContentType
    FileContent := document.FileContent
    Categories := document.Categories
    CreatedAt := document.CreatedAt
    UpdatedAt := document.UpdatedAt }

/-- The `kafka.Message` built around the body (producer.go, lines 132 to 149). -/
def brokerMessage (topic messageJSON : String) (document : Document) : Message :=
  { Topic := topic
    Partition := PartitionAny
    Value := messageJSON
    Key := document.ExternalID.String
    Headers := [⟨"content_type", "application/json"⟩, ⟨"source", "finance-assistant"⟩] }

/-- The method `(*Producer).SendDocument`. The receiver is a pointer: `none` is the
nil `*Producer`, on which the method runs until it reads `p.producer`. -/
def Producer.SendDocument {σ : Type} (enc : Encoding) (p : Option (Producer σ))
    (document : Document) (s : Sys σ) : Ret (Option GoError) × Sys σ :=
  match enc.jsonMarshal (toDocumentMessage document) with
  | .error err => (.returned (some (.wrap "erro ao serializar mensagem: " err)), s)
  | .ok messageJSON =>
    match p with
    | none => (.panicked nilDereference, s)
    | some p =>
      match p.producer.Produce (brokerMessage p.topic messageJSON document) s.world with
      | (some err, w1) =>
        (.returned (some (.wrap "erro ao produzir mensagem: " err)),
          (Sys.mk w1 s.trace).log
            (.Produce (brokerMessage p.topic messageJSON document) (some err)))
      | (none, w1) =>
        match p.producer.Delivery (brokerMessage p.topic messageJSON document) w1 with
        | (.report (some derr), w2) =>
          (.returned (some (.wrap "erro ao entregar mensagem: " derr)),
            (Sys.mk w2 s.trace).log
              (.Produce (brokerMessage p.topic messageJSON document) none))
        | (.report none, w2) =>
          (.returned none,
            (Sys.mk w2 s.trace).log
              (.Produce (brokerMessage p.topic messageJSON document) none))
        | (.timeout, w2) =>
          (.returned (some (.new "timeout ao aguardar confirmação de entrega")),
            (Sys.mk w2 s.trace).log
              (.Produce (brokerMessage p.topic messageJSON document) none))

/-! ## Document service (`internal/domain/service/document_service.go`) -/

def ErrDocumentNotFound : GoError := .new "Documento não encontrado"
def ErrUserNotFoundForDocument : GoError :=
  .new "Usuário não encontrado para este documento"

/-- The struct `service.DocumentService`, with the library functions it runs on.
`kafkaProducer` is a `*kafka.Producer`: `none` is the nil pointer. -/
structure DocumentService (σ : Type) where
  rt : Runtime σ
  enc : Encoding
  repo : DocumentRepository σ
  userRepo : UserRepository σ
  kafkaProducer : Option (Producer σ)

/-- The function `service.NewDocumentService`. -/
def NewDocumentService {σ : Type} (rt : Runtime σ) (enc : Encoding)
    (repo : DocumentRepository σ) (userRepo : UserRepository σ)
    (kafkaProducer : Option (Producer σ)) : DocumentService σ :=
  { rt := rt, enc := enc, repo := repo, userRepo := userRepo,
    kafkaProducer := kafkaProducer }

/-- The method `DocumentService.CreateDocument`. Each `match` is one call of the
source followed by its `if err != nil` and nil checks, in the order of the source. -/
def DocumentService.CreateDocument {σ : Type} (svc : DocumentService σ)
    (userExternalID : UUID) (documentType filename contentType fileContent : String)
    (categories : Option (List String)) (s : Sys σ) :
    Ret (Option Document × Option GoError) × Sys σ :=
  match svc.userRepo.FindByExternalID userExternalID s.world with
  | ((user, some err), w1) =>
    (.returned (none, some (.wrap "erro ao buscar usuário: " err)),
      (Sys.mk w1 s.trace).log (.UserFindByExternalID userExternalID user (some err)))
  | ((none, none), w1) =>
    (.returned (none, some ErrUserNotFoundForDocument),
      (Sys.mk w1 s.trace).log (.UserFindByExternalID userExternalID none none))
  | ((some user, none), w1) =>
    let s1 : Sys σ :=
      (Sys.mk w1 s.trace).log (.UserFindByExternalID userExternalID (some user) none)
    match NewDocument svc.rt user.ID documentType filename contentType fileContent
        categories w1 with
    | ((_, some err), w2) => (.returned (none, some err), Sys.mk w2 s1.trace)
    | ((none, none), w2) => (.panicked nilDereference, Sys.mk w2 s1.trace)
    | ((some document, none), w2) =>
      match svc.repo.Create { document with Status := DocumentStatusPending } w2 with
      | ((_, some err), w3) =>
        (.returned (none, some (.wrap "erro ao salvar documento: " err)),
          (Sys.mk w3 s1.trace).log
            (.RepoCreate { document with Status := DocumentStatusPending } (some err)))
      | ((document1, none), w3) =>
        let s3 : Sys σ := (Sys.mk w3 s1.trace).log
          (.RepoCreate { document with Status := DocumentStatusPending } none)
        match Producer.SendDocument svc.enc svc.kafkaProducer document1
            (s3.log (.SendDocument document1)) with
        | (.panicked msg, s4) => (.panicked msg, s4)
        | (.returned (some err), s4) =>
          let s5 := s4.log (.SendDocumentReturn (some err))
          match svc.repo.UpdateStatus document1.ID DocumentStatusFailed s5.world with
          | (uerr, w6) =>
            (.returned (none,
              some (.wrap "erro ao enviar documento para processamento: " err)),
              (Sys.mk w6 s5.trace).log
                (.RepoUpdateStatus document1.ID DocumentStatusFailed uerr))
        | (.returned none, s4) =>
          let s5 := s4.log (.SendDocumentReturn none)
          match document1.UpdateStatus svc.rt DocumentStatusProcessing s5.world with
          | (document2, w6) =>
            match svc.repo.UpdateStatus document2.ID DocumentStatusProcessing w6 with
            | (uerr, w7) =>
              (.returned (some document2, none),
                (Sys.mk w7 s5.trace).log
                  (.RepoUpdateStatus document2.ID DocumentStatusProcessing uerr))

/-! ### Observations on a trace -/

/-- The documents handed to the store's `Create`, in order. -/
def createCalls (tr : List Call) : List Document :=
  tr.filterMap (fun c => match c with
    | .RepoCreate d _ => some d
    | _ => none)

/-- The calls of the store's `UpdateStatus`, in order: identifier and status. -/
def updateStatusCalls (tr : List Call) : List (Int × DocumentStatus) :=
  tr.filterMap (fun c => match c with
    | .RepoUpdateStatus id st _ => some (id, st)
    | _ => none)

/-- The documents `SendDocument` was invoked on, in order. -/
def sendCalls (tr : List Call) : List Document :=
  tr.filterMap (fun c => match c with
    | .SendDocument d => some d
    | _ => none)

/-- The identifiers handed to the store's `Delete`, in order. -/
def deleteCalls (tr : List Call) : List Int :=
  tr.filterMap (fun c => match c with
    | .RepoDelete id _ => some id
    | _ => none)

/-- The messages handed to the broker client's `Produce`, in order. -/
def produceCalls (tr : List Call) : List Message :=
  tr.filterMap (fun c => match c with
    | .Produce m _ => some m
    | _ => none)

/-! ## The Postgres repositories (`internal/infrastructure/repository`)

The database is the list of rows of each table. A statement the database refuses
(connection lost, constraint violated, ...) is drawn from `dbFaults`, one entry per
statement executed: a refused statement changes nothing. The driver (`lib/pq`)
never fails `RowsAffected`, and `json.Marshal` and `json.Unmarshal` of a
`[]string` column never fail, so these branches of the source do not occur. -/

/-- A world for the whole service: the two tables with their identifier sequences,
the faults of the statements to come, a logical clock read by `time.Now()` and by
SQL `NOW()`, the counter behind `uuid.New()`, and the outcomes the broker client
will give. -/
structure PgWorld where
  users : List User
  documents : List Document
  nextUserID : Int
  nextDocumentID : Int
  dbFaults : List (Option GoError)
  clock : Time
  nextUUID : Nat
  produceError : Option GoError
  delivery : DeliveryOutcome
  deriving DecidableEq, Repr

/-- Execute one statement: take the next fault, if any. -/
def PgWorld.exec (w : PgWorld) : Option GoError × PgWorld :=
  match w.dbFaults with
  | [] => (none, w)
  | f :: rest => (f, { w with dbFaults := rest })

/-- Read the clock; it advances with every reading. -/
def PgWorld.now (w : PgWorld) : Time × PgWorld :=
  (w.clock, { w with clock := w.clock + 1 })

/-- The runtime of a `PgWorld`. -/
def pgRuntime : Runtime PgWorld where
  timeNow := PgWorld.now
  uuidNew := fun w => (⟨w.nextUUID⟩, { w with nextUUID := w.nextUUID + 1 })

/-- The rows selected by `ORDER BY created_at DESC LIMIT limit OFFSET offset`;
a Go slice built by `append`, so nil when no row is selected. -/
def pageOf {α : Type} (createdAt : α → Time) (rows : List α) (limit offset : Int) :
    Option (List α) :=
  let sorted := rows.insertionSort (fun a b => createdAt b ≤ createdAt a)
  match (sorted.drop offset.toNat).take limit.toNat with
  | [] => none
  | page => some page

namespace PostgresDocumentRepository

/-- The method `Create`: `INSERT ... RETURNING id`, scanned into `document.ID`. -/
def Create (document : Document) (w : PgWorld) : (Document × Option GoError) × PgWorld :=
  match w.exec with
  | (some err, w1) => ((document, some (.wrap "error creating document: " err)), w1)
  | (none, w1) =>
    let row : Document := { document with ID := w1.nextDocumentID }
    ((row, none), { w1 with documents := w1.documents ++ [row]
                            nextDocumentID := w1.nextDocumentID + 1 })

/-- The method `FindByID`. -/
def FindByID (id : Int) (w : PgWorld) : (Option Document × Option GoError) × PgWorld :=
  match w.exec with
  | (some err, w1) => ((none, some (.wrap "error finding document by ID: " err)), w1)
  | (none, w1) => ((w1.documents.find? (fun r => r.ID = id), none), w1)

/-- The method `FindByExternalID`. -/
def FindByExternalID (externalID : UUID) (w : PgWorld) :
    (Option Document × Option GoError) × PgWorld :=
  match w.exec with
  | (some err, w1) =>
    ((none, some (.wrap "error finding document by external ID: " err)), w1)
  | (none, w1) => ((w1.documents.find? (fun r => r.ExternalID = externalID), none), w1)

/-- The method `FindByUserID`. Postgres refuses a negative LIMIT or OFFSET. -/
def FindByUserID (userID limit offset : Int) (w : PgWorld) :
    (Option (List Document) × Option GoError) × PgWorld :=
  match w.exec with
  | (some err, w1) =>
    ((none, some (.wrap "error finding documents by user ID: " err)), w1)
  | (none, w1) =>
    if limit < 0 then
      ((none, some (.wrap "error finding documents by user ID: "
        (.new "pq: LIMIT must not be negative"))), w1)
    else if offset < 0 then
      ((none, some (.wrap "error finding documents by user ID: "
        (.new "pq: OFFSET must not be negative"))), w1)
    else
      ((pageOf Document.CreatedAt (w1.documents.filter (fun r => r.UserID = userID))
        limit offset, none), w1)

/-- The method `Update`. -/
def Update (document : Document) (w : PgWorld) : (Document × Option GoError) × PgWorld :=
  match w.exec with
  | (some err, w1) => ((document, some (.wrap "error updating document: " err)), w1)
  | (none, w1) =>
    if (w1.documents.filter (fun r => r.ID = document.ID)).length = 0 then
      ((document, some (.new ("no document found with ID: " ++ sprintfD document.ID))), w1)
    else
      ((document, none),
        { w1 with documents := w1.documents.map (fun r =>
            if r.ID = document.ID then
              { r with DocumentType := document.DocumentType
                       Filename := document.Filename
                       ContentType := document.ContentType
                       FileContent := document.FileContent
                       Categories := document.Categories
                       Status := document.Status
                       UpdatedAt := document.UpdatedAt }
            else r) })

/-- The method `UpdateStatus`: `SET status = $1, updated_at = NOW() WHERE id = $2`. -/
def UpdateStatus (id : Int) (status : DocumentStatus) (w : PgWorld) :
    Option GoError × PgWorld :=
  match w.exec with
  | (some err, w1) => (some (.wrap "error updating document status: " err), w1)
  | (none, w1) =>
    if (w1.documents.filter (fun r => r.ID = id)).length = 0 then
      (some (.new ("no document found with ID: " ++ sprintfD id)), w1)
    else
      let (now, w2) := w1.now
      (none, { w2 with documents := w2.documents.map (fun r =>
          if r.ID = id then { r with Status := status, UpdatedAt := now } else r) })

/-- The method `Delete`. -/
def Delete (id : Int) (w : PgWorld) : Option GoError × PgWorld :=
  match w.exec with
  | (some err, w1) => (some (.wrap "error deleting document: " err), w1)
  | (none, w1) =>
    if (w1.documents.filter (fun r => r.ID = id)).length = 0 then
      (some (.new ("no document found with ID: " ++ sprintfD id)), w1)
    else
      (none, { w1 with documents := w1.documents.filter (fun r => r.ID ≠ id) })

/-- The method `List`. -/
def List (limit offset : Int) (w : PgWorld) :
    (Option (List Document) × Option GoError) × PgWorld :=
  match w.exec with
  | (some err, w1) => ((none, some (.wrap "error listing documents: " err)), w1)
  | (none, w1) =>
    if limit < 0 then
      ((none, some (.wrap "error listing documents: "
        (.new "pq: LIMIT must not be negative"))), w1)
    else if offset < 0 then
      ((none, some (.wrap "error listing documents: "
        (.new "pq: OFFSET must not be negative"))), w1)
    else
      ((pageOf Document.CreatedAt w1.documents limit offset, none), w1)

/-- The method `CountByUserID`. -/
def CountByUserID (userID : Int) (w : PgWorld) : (Int × Option GoError) × PgWorld :=
  match w.exec with
  | (some err, w1) => ((0, some (.wrap "error counting documents by user ID: " err)), w1)
  | (none, w1) => (((w1.documents.filter (fun r => r.UserID = userID)).length, none), w1)

end PostgresDocumentRepository

/-- The function `NewPostgresDocumentRepository`, as a `DocumentRepository`. -/
def NewPostgresDocumentRepository : DocumentRepository PgWorld where
  Create := PostgresDocumentRepository.Create
  FindByID := PostgresDocumentRepository.FindByID
  FindByExternalID := PostgresDocumentRepository.FindByExternalID
  FindByUserID := PostgresDocumentRepository.FindByUserID
  Update := PostgresDocumentRepository.Update
  UpdateStatus := PostgresDocumentRepository.UpdateStatus
  Delete := PostgresDocumentRepository.Delete
  List := PostgresDocumentRepository.List
  CountByUserID := PostgresDocumentRepository.CountByUserID

namespace PostgresUserRepository

/-- The method `Create`: `INSERT ... RETURNING id`, scanned into `user.ID`. -/
def Create (user : User) (w : PgWorld) : (User × Option GoError) × PgWorld :=
  match w.exec with
  | (some err, w1) => ((user, some (.wrap "error creating user: " err)), w1)
  | (none, w1) =>
    let row : User := { user with ID := w1.nextUserID }
    ((row, none), { w1 with users := w1.users ++ [row], nextUserID := w1.nextUserID + 1 })

/-- The method `FindByID`. -/
def FindByID (id : Int) (w : PgWorld) : (Option User × Option GoError) × PgWorld :=
  match w.exec with
  | (some err, w1) => ((none, some (.wrap "error finding user by ID: " err)), w1)
  | (none, w1) => ((w1.users.find? (fun r => r.ID = id), none), w1)

/-- The method `FindByExternalID`. -/
def FindByExternalID (externalID : UUID) (w : PgWorld) :
    (Option User × Option GoError) × PgWorld :=
  match w.exec with
  | (some err, w1) => ((none, some (.wrap "error finding user by external ID: " err)), w1)
  | (none, w1) => ((w1.users.find? (fun r => r.ExternalID = externalID), none), w1)

/-- The method `FindByEmail`. -/
def FindByEmail (email : String) (w : PgWorld) : (Option User × Option GoError) × PgWorld :=
  match w.exec with
  | (some err, w1) => ((none, some (.wrap "error finding user by email: " err)), w1)
  | (none, w1) => ((w1.users.find? (fun r => r.Email = email), none), w1)

/-- The method `Update`. -/
def Update (user : User) (w : PgWorld) : (User × Option GoError) × PgWorld :=
  match w.exec with
  | (some err, w1) => ((user, some (.wrap "error updating user: " err)), w1)
  | (none, w1) =>
    if (w1.users.filter (fun r => r.ID = user.ID)).length = 0 then
      ((user, some (.new ("no user found with ID: " ++ sprintfD user.ID))), w1)
    else
      ((user, none),
        { w1 with users := w1.users.map (fun r =>
            if r.ID = user.ID then
              { r with Name := user.Name, Email := user.Email, Phone := user.Phone
                       UpdatedAt := user.UpdatedAt }
            else r) })

/-- The method `Delete`. -/
def Delete (id : Int) (w : PgWorld) : Option GoError × PgWorld :=
  match w.exec with
  | (some err, w1) => (some (.wrap "error deleting user: " err), w1)
  | (none, w1) =>
    if (w1.users.filter (fun r => r.ID = id)).length = 0 then
      (some (.new ("no user found with ID: " ++ sprintfD id)), w1)
    else
      (none, { w1 with users := w1.users.filter (fun r => r.ID ≠ id) })

/-- The method `List`; `SelectContext` leaves the nil slice when no row is selected. -/
def List (limit offset : Int) (w : PgWorld) :
    (Option (List User) × Option GoError) × PgWorld :=
  match w.exec with
  | (some err, w1) => ((none, some (.wrap "error listing users: " err)), w1)
  | (none, w1) =>
    if limit < 0 then
      ((none, some (.wrap "error listing users: "
        (.new "pq: LIMIT must not be negative"))), w1)
    else if offset < 0 then
      ((none, some (.wrap "error listing users: "
        (.new "pq: OFFSET must not be negative"))), w1)
    else
      ((pageOf User.CreatedAt w1.users limit offset, none), w1)

end PostgresUserRepository

/-- The function `NewPostgresUserRepository`, as a `UserRepository`. -/
def NewPostgresUserRepository : UserRepository PgWorld where
  Create := PostgresUserRepository.Create
  FindByID := PostgresUserRepository.FindByID
  FindByExternalID := PostgresUserRepository.FindByExternalID
  FindByEmail := PostgresUserRepository.FindByEmail
  Update := PostgresUserRepository.Update
  Delete := PostgresUserRepository.Delete
  List := PostgresUserRepository.List

/-- A broker client whose answers are read from the world; it touches no table. -/
def pgKafkaClient : KafkaClient PgWorld where
  Produce := fun _ w => (w.produceError, w)
  Delivery := fun _ w => (w.delivery, w)

/-- A producer as `NewProducer` builds it, on topic `topic`. -/
def pgProducer (topic : String) : Producer PgWorld :=
  { producer := pgKafkaClient, topic := topic }

/-- The service as `main` wires it: both Postgres repositories and the producer
`main` obtained, which is nil when the broker could not be reached at start-up. -/
def mainService (enc : Encoding) (kafkaProducer : Option (Producer PgWorld)) :
    DocumentService PgWorld :=
  NewDocumentService pgRuntime enc NewPostgresDocumentRepository
    NewPostgresUserRepository kafkaProducer

/-! ## Concrete data for evaluation -/

/-- An encoder that succeeds on every message (as `json.Marshal` does on a message
with timestamps in the years 0 to 9999); the body lists the fields in order. -/
def okEncoding : Encoding where
  jsonMarshal := fun m => .ok (String.intercalate "," [m.ID, m.ExternalID, m.UserID,
    m.DocumentType, m.Filename, m.ContentType, m.FileContent])

/-- An encoder that fails on every message. -/
def failingEncoding : Encoding where
  jsonMarshal := fun _ => .error (.new "json: error calling MarshalJSON for type time.Time")

def alice : User :=
  { ID := 1, ExternalID := ⟨1001⟩, Name := "Alice", Email := "alice@example.com"
    Phone := "555", CreatedAt := 10, UpdatedAt := 10 }

/-- A database with one user and no document; the broker acknowledges. -/
def world0 : PgWorld :=
  { users := [alice], documents := [], nextUserID := 2, nextDocumentID := 1
    dbFaults := [], clock := 100, nextUUID := 5000
    produceError := none, delivery := .report none }

/-- The calls `CreateDocument` has made when `SendDocument` is running or has run:
the lookup, the `Create`, the invocation of `SendDocument`, and the `Produce` calls
`ps` (none or one) of `SendDocument`. -/
def sendTrace (userExternalID : UUID) (user : User) (d d1 : Document) (ps : List Call) :
    List Call :=
  [Call.UserFindByExternalID userExternalID (some user) none,
   Call.RepoCreate { d with Status := DocumentStatusPending } none,
   Call.SendDocument d1] ++ ps

/-- The service with a reachable broker. -/
def svcUp : DocumentService PgWorld := mainService okEncoding (some (pgProducer "documents"))

/-- The service as `main` builds it when the broker was unreachable at start-up. -/
def svcNoProducer : DocumentService PgWorld := mainService okEncoding none

/-- World `world0` with a broker that does not acknowledge in time. -/
def worldTimeout : PgWorld := { world0 with delivery := .timeout }

/-- World `world0` with a database that refuses the first statement. -/
def worldDbDown : PgWorld :=
  { world0 with dbFaults := [some (.new "dial tcp: connection refused")] }

/-- The error the Postgres user lookup returns in `worldDbDown`. -/
def lookupError : GoError :=
  .wrap "error finding user by external ID: " (.new "dial tcp: connection refused")

/-- World `world0` with a database that refuses the second statement, the INSERT. -/
def worldInsertFails : PgWorld :=
  { world0 with dbFaults := [none, some (.new "pq: disk full")] }

/-- World `world0` where the broker acknowledges and the database then refuses the
third statement, the status UPDATE. -/
def worldUpdateFails : PgWorld :=
  { world0 with dbFaults := [none, none, some (.new "pq: connection reset")] }

/-- The document `CreateDocument` hands to `Create` on the sample upload. -/
def sampleDocument : Document :=
  { ID := 0, ExternalID := ⟨5000⟩, UserID := 1, DocumentType := "invoice"
    Filename := "a.pdf", ContentType := "application/pdf", FileContent := "QUJD"
    Categories := some [], Status := DocumentStatusPending, CreatedAt := 100
    UpdatedAt := 100 }

/-- A row stored by an earlier upload. -/
def oldRow : Document :=
  { ID := 1, ExternalID := ⟨4999⟩, UserID := 1, DocumentType := "receipt"
    Filename := "r.png", ContentType := "image/png", FileContent := "AAEC"
    Categories := some ["food"], Status := DocumentStatusProcessed, CreatedAt := 50
    UpdatedAt := 60 }

/-- A database holding `oldRow`, with a broker that rejects the hand-off. -/
def worldRejected : PgWorld :=
  { world0 with documents := [oldRow], nextDocumentID := 2
                produceError := some (.new "Local: Queue full") }

/-! ## The other operations of the document service -/

/-- The sentinel `service.ErrUserNotFound` (declared in `user_service.go`). -/
def ErrUserNotFound : GoError := .new "usuário não encontrado"

/-- A Go `int` (64 bits) after an arithmetic operation: the value wrapped into
the range from `-2^63` to `2^63 - 1`. -/
def wrapInt64 (x : Int) : Int := (x + 2 ^ 63) % 2 ^ 64 - 2 ^ 63

/-- The method `DocumentService.GetDocumentByExternalID`. -/
def DocumentService.GetDocumentByExternalID {σ : Type} (svc : DocumentService σ)
    (externalID : UUID) (s : Sys σ) : (Option Document × Option GoError) × Sys σ :=
  match svc.repo.FindByExternalID externalID s.world with
  | ((document, some err), w1) =>
    ((none, some err),
      (Sys.mk w1 s.trace).log (.RepoFindByExternalID externalID document (some err)))
  | ((none, none), w1) =>
    ((none, some ErrDocumentNotFound),
      (Sys.mk w1 s.trace).log (.RepoFindByExternalID externalID none none))
  | ((some document, none), w1) =>
    ((some document, none),
      (Sys.mk w1 s.trace).log (.RepoFindByExternalID externalID (some document) none))

/-- The method `DocumentService.GetDocumentsByUserExternalID`: documents, total
and error. -/
def DocumentService.GetDocumentsByUserExternalID {σ : Type} (svc : DocumentService σ)
    (userExternalID : UUID) (page perPage : Int) (s : Sys σ) :
    (Option (List Document) × Int × Option GoError) × Sys σ :=
  match svc.userRepo.FindByExternalID userExternalID s.world with
  | ((user, some err), w1) =>
    ((none, 0, some err),
      (Sys.mk w1 s.trace).log (.UserFindByExternalID userExternalID user (some err)))
  | ((none, none), w1) =>
    ((none, 0, some ErrUserNotFound),
      (Sys.mk w1 s.trace).log (.UserFindByExternalID userExternalID none none))
  | ((some user, none), w1) =>
    let s1 : Sys σ :=
      (Sys.mk w1 s.trace).log (.UserFindByExternalID userExternalID (some user) none)
    let page := if page < 1 then 1 else page
    let perPage := if perPage < 1 then 10 else perPage
    let offset := wrapInt64 (wrapInt64 (page - 1) * perPage)
    match svc.repo.CountByUserID user.ID w1 with
    | ((_, some err), w2) =>
      ((none, 0, some err), (Sys.mk w2 s1.trace).log (.RepoCountByUserID user.ID (some err)))
    | ((total, none), w2) =>
      let s2 : Sys σ := (Sys.mk w2 s1.trace).log (.RepoCountByUserID user.ID none)
      match svc.repo.FindByUserID user.ID perPage offset w2 with
      | ((_, some err), w3) =>
        ((none, 0, some err),
          (Sys.mk w3 s2.trace).log (.RepoFindByUserID user.ID perPage offset (some err)))
      | ((none, none), w3) =>
        ((some [], total, none),
          (Sys.mk w3 s2.trace).log (.RepoFindByUserID user.ID perPage offset none))
      | ((some documents, none), w3) =>
        ((some documents, total, none),
          (Sys.mk w3 s2.trace).log (.RepoFindByUserID user.ID perPage offset none))

/-- The method `DocumentService.UpdateDocumentStatus`. -/
def DocumentService.UpdateDocumentStatus {σ : Type} (svc : DocumentService σ)
    (externalID : UUID) (status : DocumentStatus) (s : Sys σ) :
    (Option Document × Option GoError) × Sys σ :=
  match svc.repo.FindByExternalID externalID s.world with
  | ((document, some err), w1) =>
    ((none, some err),
      (Sys.mk w1 s.trace).log (.RepoFindByExternalID externalID document (some err)))
  | ((none, none), w1) =>
    ((none, some ErrDocumentNotFound),
      (Sys.mk w1 s.trace).log (.RepoFindByExternalID externalID none none))
  | ((some document, none), w1) =>
    let s1 : Sys σ :=
      (Sys.mk w1 s.trace).log (.RepoFindByExternalID externalID (some document) none)
    match document.UpdateStatus svc.rt status w1 with
    | (document1, w2) =>
      match svc.repo.Update document1 w2 with
      | ((_, some err), w3) =>
        ((none, some err), (Sys.mk w3 s1.trace).log (.RepoUpdate document1 (some err)))
      | ((document2, none), w3) =>
        ((some document2, none), (Sys.mk w3 s1.trace).log (.RepoUpdate document1 none))

/-- The method `DocumentService.DeleteDocument`. -/
def DocumentService.DeleteDocument {σ : Type} (svc : DocumentService σ)
    (externalID : UUID) (s : Sys σ) : Option GoError × Sys σ :=
  match svc.repo.FindByExternalID externalID s.world with
  | ((document, some err), w1) =>
    (some err,
      (Sys.mk w1 s.trace).log (.RepoFindByExternalID externalID document (some err)))
  | ((none, none), w1) =>
    (some ErrDocumentNotFound,
      (Sys.mk w1 s.trace).log (.RepoFindByExternalID externalID none none))
  | ((some document, none), w1) =>
    let s1 : Sys σ :=
      (Sys.mk w1 s.trace).log (.RepoFindByExternalID externalID (some document) none)
    match svc.repo.Delete document.ID w1 with
    | (err, w2) => (err, (Sys.mk w2 s1.trace).log (.RepoDelete document.ID err))

/-- The method `DocumentService.ListDocuments`: documents, total and error. The
total is `len(documents)`, the length of the page the store returned. -/
def DocumentService.ListDocuments {σ : Type} (svc : DocumentService σ)
    (page perPage : Int) (s : Sys σ) :
    (Option (List Document) × Int × Option GoError) × Sys σ :=
  let page := if page < 1 then 1 else page
  let perPage := if perPage < 1 then 10 else perPage
  let offset := wrapInt64 (wrapInt64 (page - 1) * perPage)
  match svc.repo.List perPage offset s.world with
  | ((_, some err), w1) =>
    ((none, 0, some err), (Sys.mk w1 s.trace).log (.RepoList perPage offset (some err)))
  | ((none, none), w1) =>
    ((some [], 0, none), (Sys.mk w1 s.trace).log (.RepoList perPage offset none))
  | ((some documents, none), w1) =>
    ((some documents, documents.length, none),
      (Sys.mk w1 s.trace).log (.RepoList perPage offset none))

/-- The documents handed to the store's `Update`, in order. -/
def updateCalls (tr : List Call) : List Document :=
  tr.filterMap (fun c => match c with
    | .RepoUpdate d _ => some d
    | _ => none)

/-- The status switch of the handler `DocumentHandler.UpdateStatus` (lines 320 to
333): the status for a request value, `none` where the handler answers 400. -/
def statusFromRequest (reqStatus : String) : Option DocumentStatus :=
  if reqStatus = "pending" then some DocumentStatusPending
  else if reqStatus = "processing" then some DocumentStatusProcessing
  else if reqStatus = "processed" then some DocumentStatusProcessed
  else if reqStatus = "failed" then some DocumentStatusFailed
  else none

/-! ## The service as a step relation -/

/-- A request to the document service: one of its operations with the arguments. -/
inductive Request where
  | create (userExternalID : UUID)
      (documentType filename contentType fileContent : String)
      (categories : Option (List String))
  | updateStatus (externalID : UUID) (status : DocumentStatus)
  | delete (externalID : UUID)
  | get (externalID : UUID)
  | listByUser (userExternalID : UUID) (page perPage : Int)
  | list (page perPage : Int)
  deriving DecidableEq, Repr

/-- One step: the world after the service has served the request. -/
def DocumentService.serve {σ : Type} (svc : DocumentService σ) (r : Request) (w : σ) : σ :=
  match r with
  | .create u dt fn ct fc cats => (svc.CreateDocument u dt fn ct fc cats ⟨w, []⟩).2.world
  | .updateStatus ext st => (svc.UpdateDocumentStatus ext st ⟨w, []⟩).2.world
  | .delete ext => (svc.DeleteDocument ext ⟨w, []⟩).2.world
  | .get ext => (svc.GetDocumentByExternalID ext ⟨w, []⟩).2.world
  | .listByUser u page perPage =>
    (svc.GetDocumentsByUserExternalID u page perPage ⟨w, []⟩).2.world
  | .list page perPage => (svc.ListDocuments page perPage ⟨w, []⟩).2.world

/-- The place of a status on the path pending, processing, then processed or failed. -/
def statusRank (s : DocumentStatus) : Nat :=
  if s = DocumentStatusPending then 0
  else if s = DocumentStatusProcessing then 1
  else 2

/-- A status change that is no change or a move forward on the path; nothing moves
out of processed or failed. -/
def movesForward (before after : DocumentStatus) : Bool :=
  decide (before = after) || decide (statusRank before < statusRank after)

/-- The statuses stored under an identifier. -/
def storedStatus (w : PgWorld) (id : Int) : List DocumentStatus :=
  (w.documents.filter (fun r => r.ID = id)).map (fun r => r.Status)

/-- A second and a third stored row, for listings. -/
def rowB : Document :=
  { ID := 2, ExternalID := ⟨4998⟩, UserID := 1, DocumentType := "invoice"
    Filename := "b.pdf", ContentType := "application/pdf", FileContent := "QkJC"
    Categories := some [], Status := DocumentStatusPending, CreatedAt := 70
    UpdatedAt := 70 }

def rowC : Document :=
  { ID := 3, ExternalID := ⟨4997⟩, UserID := 1, DocumentType := "statement"
    Filename := "c.pdf", ContentType := "application/pdf", FileContent := "Q0ND"
    Categories := none, Status := DocumentStatusFailed, CreatedAt := 80
    UpdatedAt := 85 }

/-- A database holding three documents. -/
def worldThree : PgWorld :=
  { world0 with documents := [oldRow, rowB, rowC], nextDocumentID := 4 }

/-! ## The wire format: `encoding/json` on a `DocumentMessage`

The body of the broker message is what `json.Marshal` writes for the struct
`DocumentMessage`. The library is modelled at the level of JSON values: the object
it writes is determined by the struct tags and field types of `DocumentMessage`;
the bytes written for an object are left to the text layer (`JsonText`). Strings are
Unicode strings, so the replacement of invalid UTF-8 by the library does not occur. -/

/-- A JSON value of the kinds that occur in the body: `null`, a string, the string
`time.Time` writes for an instant (RFC 3339), an array of strings. -/
inductive JsonValue where
  | null
  | string (s : String)
  | timestamp (t : Time)
  | strings (items : List String)
  deriving DecidableEq, Repr

/-- The JSON object `json.Marshal` writes for a `DocumentMessage`: one member for
each field, named by its `json` tag, in the order of the declaration (producer.go,
lines 21 to 32); a nil slice is written as `null`. -/
def DocumentMessage.jsonObject (m : DocumentMessage) : List (String × JsonValue) :=
  [("id", .string m.ID),
   ("external_id", .string m.ExternalID),
   ("user_id", .string m.UserID),
   ("document_type", .string m.DocumentType),
   ("filename", .string m.Filename),
   ("content_type", .string m.ContentType),
   ("file_content", .string m.FileContent),
   ("categories", match m.Categories with
      | none => .null
      | some items => .strings items),
   ("created_at", .timestamp m.CreatedAt),
   ("updated_at", .timestamp m.UpdatedAt)]

/-- The text layer of `encoding/json`: the bytes written for an object, and the
error of `time.Time.MarshalJSON` on an instant it cannot write (a year outside 0
to 9999), which is the one way `json.Marshal` fails on a `DocumentMessage`. -/
structure JsonText where
  text : List (String × JsonValue) → String
  timeError : Time → Option GoError

/-- The function `json.Marshal` on a `DocumentMessage`, over a text layer. -/
def jsonEncoding (lib : JsonText) : Encoding where
  jsonMarshal := fun m =>
    match lib.timeError m.CreatedAt with
    | some e => .error e
    | none =>
      match lib.timeError m.UpdatedAt with
      | some e => .error e
      | none => .ok (lib.text m.jsonObject)

/-- The zero value of `DocumentMessage`, which `json.Unmarshal` fills in. -/
def DocumentMessage.zero : DocumentMessage :=
  { ID := "", ExternalID := "", UserID := "", DocumentType := "", Filename := ""
    ContentType := "", FileContent := "", Categories := none, CreatedAt := 0
    UpdatedAt := 0 }

/-- A JSON value stored into a string field by `json.Unmarshal`: `null` leaves the
field, a string sets it, any other value is an error (`none`). -/
def decodeString (v : JsonValue) (old : String) : Option String :=
  match v with
  | .null => some old
  | .string s => some s
  | _ => none

/-- A JSON value stored into a `time.Time` field: `null` leaves the field, a
timestamp sets it, any other value is an error here. -/
def decodeTime (v : JsonValue) (old : Time) : Option Time :=
  match v with
  | .null => some old
  | .timestamp t => some t
  | _ => none

/-- A JSON value stored into a `[]string` field: `null` makes it nil, an array of
strings sets it, any other value is an error. -/
def decodeStrings (v : JsonValue) : Option (Option (List String)) :=
  match v with
  | .null => some none
  | .strings items => some (some items)
  | _ => none

/-- One member of the object stored into the struct by `json.Unmarshal`: the field
with that `json` tag is set; a member with another name is skipped. -/
def DocumentMessage.setMember (m : DocumentMessage) (key : String) (v : JsonValue) :
    Option DocumentMessage :=
  if key = "id" then (decodeString v m.ID).map (fun s => { m with ID := s })
  else if key = "external_id" then
    (decodeString v m.ExternalID).map (fun s => { m with ExternalID := s })
  else if key = "user_id" then
    (decodeString v m.UserID).map (fun s => { m with UserID := s })
  else if key = "document_type" then
    (decodeString v m.DocumentType).map (fun s => { m with DocumentType := s })
  else if key = "filename" then
    (decodeString v m.Filename).map (fun s => { m with Filename := s })
  else if key = "content_type" then
    (decodeString v m.ContentType).map (fun s => { m with ContentType := s })
  else if key = "file_content" then
    (decodeString v m.FileContent).map (fun s => { m with FileContent := s })
  else if key = "categories" then
    (decodeStrings v).map (fun c => { m with Categories := c })
  else if key = "created_at" then
    (decodeTime v m.CreatedAt).map (fun t => { m with CreatedAt := t })
  else if key = "updated_at" then
    (decodeTime v m.UpdatedAt).map (fun t => { m with UpdatedAt := t })
  else some m

/-- The members of an object stored one after the other, from `m` on. -/
def DocumentMessage.setMembers (m : DocumentMessage) :
    List (String × JsonValue) → Option DocumentMessage
  | [] => some m
  | (key, v) :: rest =>
    match m.setMember key v with
    | none => none
    | some m1 => m1.setMembers rest

/-- The function `json.Unmarshal` into a `DocumentMessage`, on the JSON object the
body denotes: the members are stored in order into the zero value. -/
def DocumentMessage.fromJsonObject (obj : List (String × JsonValue)) :
    Option DocumentMessage :=
  DocumentMessage.zero.setMembers obj

/-- The digits of a decimal numeral read from the left, `acc` being the value read
so far; `none` at a character that is not a digit. -/
def parseDigitsAux : List Char → Nat → Option Nat
  | [], acc => some acc
  | c :: cs, acc =>
    if c.isDigit then parseDigitsAux cs (acc * 10 + (c.toNat - 48)) else none

/-- A non-empty sequence of decimal digits, as a number. -/
def parseDigits (cs : List Char) : Option Nat :=
  match cs with
  | [] => none
  | c :: cs => parseDigitsAux (c :: cs) 0

/-- The function `strconv.ParseInt(s, 10, 64)`, with which a consumer reads the
decimal strings of the message back: an optional sign and decimal digits, an error
(`none`) for anything else and for a value outside the 64-bit range. -/
def parseDecimal (s : String) : Option Int :=
  match s.data with
  | [] => none
  | c :: ds =>
    if c = '-' then
      (parseDigits ds).bind (fun n => if n ≤ 2 ^ 63 then some (-(n : Int)) else none)
    else if c = '+' then
      (parseDigits ds).bind (fun n => if n < 2 ^ 63 then some (n : Int) else none)
    else
      (parseDigits (c :: ds)).bind (fun n => if n < 2 ^ 63 then some (n : Int) else none)

/-- A JSON string literal for evaluation: quotes, and `"` and `\` escaped. -/
def quoteJson (s : String) : String :=
  "\"" ++ String.join (s.data.map (fun c =>
    if c = '"' then "\\\"" else if c = '\\' then "\\\\" else String.singleton c)) ++ "\""

/-- A text layer for evaluation: compact JSON text, an instant written as its
number in quotes; every instant can be written. -/
def plainJson : JsonText where
  text := fun obj => "\x7b" ++ String.intercalate "," (obj.map (fun kv =>
    quoteJson kv.1 ++ ":" ++ match kv.2 with
      | .null => "null"
      | .string s => quoteJson s
      | .timestamp t => quoteJson (toString t)
      | .strings items => "[" ++ String.intercalate "," (items.map quoteJson) ++ "]"))
    ++ "\x7d"
  timeError := fun _ => none

/-- The sample document as stored: `sampleDocument` under identifier 1. -/
def storedSample : Document := { sampleDocument with ID := 1 }

/-- The broker message of `storedSample` on topic documents, over `plainJson`. -/
def sampleMessage : Message :=
  brokerMessage "documents" (plainJson.text (toDocumentMessage storedSample).jsonObject)
    storedSample

/-- World `world0` after `NewDocument` has read the clock and drawn an identifier. -/
def world0AfterNew : PgWorld := { world0 with clock := 101, nextUUID := 5001 }

/-! ## User entity and service (`entity/user.go`, `service/user_service.go`) -/

def ErrInvalidUserName : GoError := .new "nome de usuário inválido"
def ErrInvalidUserEmail : GoError := .new "email de usuário inválido"
def ErrEmailAlreadyUsed : GoError := .new "email já está em uso"

/-- The function `entity.NewUser`. The struct literal calls `uuid.New()` and then
`time.Now()` twice, in this order. -/
def NewUser {σ : Type} (rt : Runtime σ) (name email phone : String) (w : σ) :
    (Option User × Option GoError) × σ :=
  if name = "" then ((none, some ErrInvalidUserName), w)
  else if email = "" then ((none, some ErrInvalidUserEmail), w)
  else
    match rt.uuidNew w with
    | (ext, w1) =>
      match rt.timeNow w1 with
      | (created, w2) =>
        match rt.timeNow w2 with
        | (updated, w3) =>
          ((some { ID := 0, ExternalID := ext, Name := name, Email := email
                   Phone := phone, CreatedAt := created, UpdatedAt := updated }, none), w3)

/-- The method `User.Validate`. -/
def User.Validate (u : User) : Option GoError :=
  if u.Name = "" then some ErrInvalidUserName
  else if u.Email = "" then some ErrInvalidUserEmail
  else none

/-- The method `User.Update`: the user as the call leaves it, and the error. -/
def User.Update {σ : Type} (rt : Runtime σ) (u : User) (name email phone : String)
    (w : σ) : (User × Option GoError) × σ :=
  match rt.timeNow w with
  | (now, w1) =>
    let u1 : User :=
      { u with Name := if name ≠ "" then name else u.Name
               Email := if email ≠ "" then email else u.Email
               Phone := phone
               UpdatedAt := now }
    ((u1, u1.Validate), w1)

/-- The struct `service.UserService`, with the library functions it runs on. -/
structure UserService (σ : Type) where
  rt : Runtime σ
  repo : UserRepository σ

/-- The method `UserService.CreateUser`. The result of the `FindByEmail` pre-check
stops the creation only when it is a user without an error. A nil user with a nil
error from `NewUser` (which `NewUser` never returns) would be dereferenced by the
store's `Create`. -/
def UserService.CreateUser {σ : Type} (svc : UserService σ) (name email phone : String)
    (s : Sys σ) : Ret (Option User × Option GoError) × Sys σ :=
  match svc.repo.FindByEmail email s.world with
  | ((some existingUser, none), w1) =>
    (.returned (none, some ErrEmailAlreadyUsed),
      (Sys.mk w1 s.trace).log (.UserFindByEmail email (some existingUser) none))
  | ((existingUser, err), w1) =>
    let s1 : Sys σ := (Sys.mk w1 s.trace).log (.UserFindByEmail email existingUser err)
    match NewUser svc.rt name email phone w1 with
    | ((_, some err), w2) => (.returned (none, some err), Sys.mk w2 s1.trace)
    | ((none, none), w2) => (.panicked nilDereference, Sys.mk w2 s1.trace)
    | ((some user, none), w2) =>
      match svc.repo.Create user w2 with
      | ((_, some err), w3) =>
        (.returned (none, some err), (Sys.mk w3 s1.trace).log (.UserCreate user (some err)))
      | ((user1, none), w3) =>
        (.returned (some user1, none), (Sys.mk w3 s1.trace).log (.UserCreate user none))

/-- The method `UserService.UpdateUser`. -/
def UserService.UpdateUser {σ : Type} (svc : UserService σ) (externalID : UUID)
    (name email phone : String) (s : Sys σ) : (Option User × Option GoError) × Sys σ :=
  match svc.repo.FindByExternalID externalID s.world with
  | ((user, some err), w1) =>
    ((none, some err),
      (Sys.mk w1 s.trace).log (.UserFindByExternalID externalID user (some err)))
  | ((none, none), w1) =>
    ((none, some ErrUserNotFound),
      (Sys.mk w1 s.trace).log (.UserFindByExternalID externalID none none))
  | ((some user, none), w1) =>
    let s1 : Sys σ :=
      (Sys.mk w1 s.trace).log (.UserFindByExternalID externalID (some user) none)
    let afterCheck (s2 : Sys σ) : (Option User × Option GoError) × Sys σ :=
      match user.Update svc.rt name email phone s2.world with
      | ((_, some err), w3) => ((none, some err), Sys.mk w3 s2.trace)
      | ((user1, none), w3) =>
        match svc.repo.Update user1 w3 with
        | ((_, some err), w4) =>
          ((none, some err), (Sys.mk w4 s2.trace).log (.UserUpdate user1 (some err)))
        | ((user2, none), w4) =>
          ((some user2, none), (Sys.mk w4 s2.trace).log (.UserUpdate user1 none))
    if email ≠ "" ∧ email ≠ user.Email then
      match svc.repo.FindByEmail email w1 with
      | ((some existingUser, none), w2) =>
        ((none, some ErrEmailAlreadyUsed),
          (Sys.mk w2 s1.trace).log (.UserFindByEmail email (some existingUser) none))
      | ((existingUser, err), w2) =>
        afterCheck ((Sys.mk w2 s1.trace).log (.UserFindByEmail email existingUser err))
    else afterCheck s1

/-- The users handed to the user store's `Create`, in order. -/
def userCreateCalls (tr : List Call) : List User :=
  tr.filterMap (fun c => match c with
    | .UserCreate u _ => some u
    | _ => none)

/-- The function `dto.FromEntity` and the struct `dto.UserResponse`. -/
structure UserResponse where
  ID : UUID
  Name : String
  Email : String
  Phone : String
  CreatedAt : Time
  UpdatedAt : Time
  deriving DecidableEq, Repr

def FromEntity (user : User) : UserResponse :=
  { ID := user.ExternalID, Name := user.Name, Email := user.Email, Phone := user.Phone
    CreatedAt := user.CreatedAt, UpdatedAt := user.UpdatedAt }

/-! ## Base64 (`encoding/base64`, `StdEncoding`) and the document DTOs -/

/-- A byte of a file body. -/
abbrev Byte := Fin 256

/-- The alphabet of `base64.StdEncoding`. -/
def base64Alphabet : List Char :=
  "ABCDEFGHIJKLMNOPQRSTUVWXYZabcdefghijklmnopqrstuvwxyz0123456789+/".data

/-- The character for a six-bit value. -/
def encodeChar (i : Nat) : Char := base64Alphabet.getD i 'A'

/-- The six-bit value of a character of the alphabet, `none` for any other. -/
def decodeChar (c : Char) : Option Nat :=
  if base64Alphabet.indexOf c < 64 then some (base64Alphabet.indexOf c) else none

/-- The method `StdEncoding.EncodeToString`, on characters: three bytes give four
characters; one or two bytes left over give two or three characters and padding. -/
def base64EncodeChars : List Byte → List Char
  | [] => []
  | [a] => [encodeChar (a.val / 4), encodeChar (a.val % 4 * 16), '=', '=']
  | [a, b] =>
    [encodeChar (a.val / 4), encodeChar (a.val % 4 * 16 + b.val / 16),
     encodeChar (b.val % 16 * 4), '=']
  | a :: b :: c :: rest =>
    encodeChar (a.val / 4) :: encodeChar (a.val % 4 * 16 + b.val / 16) ::
      encodeChar (b.val % 16 * 4 + c.val / 64) :: encodeChar (c.val % 64) ::
      base64EncodeChars rest

/-- The method `base64.StdEncoding.EncodeToString`. -/
def base64Encode (b : List Byte) : String := String.mk (base64EncodeChars b)

/-- The byte with the low eight bits of `n`. -/
def byteOf (n : Nat) : Byte := ⟨n % 256, Nat.mod_lt n (by decide)⟩

/-- The method `StdEncoding.DecodeString`, on characters without line breaks: four
characters give three bytes; padding is accepted in the last four only; trailing
bits are not checked (the encoding is not strict). -/
def base64DecodeChars : List Char → Option (List Byte)
  | [] => some []
  | c0 :: c1 :: c2 :: c3 :: rest =>
    match decodeChar c0, decodeChar c1 with
    | some i0, some i1 =>
      if c3 = '=' then
        if rest ≠ [] then none
        else if c2 = '=' then some [byteOf (i0 * 4 + i1 / 16)]
        else
          match decodeChar c2 with
          | some i2 => some [byteOf (i0 * 4 + i1 / 16), byteOf (i1 % 16 * 16 + i2 / 4)]
          | none => none
      else
        match decodeChar c2, decodeChar c3, base64DecodeChars rest with
        | some i2, some i3, some tail =>
          some (byteOf (i0 * 4 + i1 / 16) :: byteOf (i1 % 16 * 16 + i2 / 4) ::
            byteOf (i2 % 4 * 64 + i3) :: tail)
        | _, _, _ => none
    | _, _ => none
  | _ => none

/-- The method `base64.StdEncoding.DecodeString`: carriage returns and line feeds
in the input are skipped; `none` is the error. -/
def base64Decode (s : String) : Option (List Byte) :=
  base64DecodeChars (s.data.filter (fun c => c ≠ '\r' ∧ c ≠ '\n'))

/-- The built-in `len` on a Go string: its length in bytes. -/
def goLen (s : String) : Int := s.utf8ByteSize

/-- The struct `dto.DocumentResponse`. -/
structure DocumentResponse where
  ID : UUID
  DocumentType : String
  Filename : String
  ContentType : String
  FileSize : Int
  Categories : Option (List String)
  Status : String
  CreatedAt : Time
  UpdatedAt : Time
  deriving DecidableEq, Repr

/-- The struct `dto.DocumentDetailResponse`. -/
structure DocumentDetailResponse where
  ID : UUID
  DocumentType : String
  Filename : String
  ContentType : String
  FileSize : Int
  FileContent : String
  Categories : Option (List String)
  Status : String
  CreatedAt : Time
  UpdatedAt : Time
  deriving DecidableEq, Repr

/-- The function `dto.DocumentFromEntity`. The file size is computed in Go `int`
arithmetic: the product wraps at 64 bits and the division truncates. -/
def DocumentFromEntity (document : Document) : DocumentResponse :=
  let fileSize : Int :=
    if document.FileContent ≠ "" then
      Int.tdiv (wrapInt64 (goLen document.FileContent * 3)) 4
    else 0
  { ID := document.ExternalID
    DocumentType := document.DocumentType
    Filename := document.Filename
    ContentType := document.ContentType
    FileSize := fileSize
    Categories := document.Categories
    Status := document.Status
    CreatedAt := document.CreatedAt
    UpdatedAt := document.UpdatedAt }

/-- The function `dto.DocumentDetailFromEntity`. -/
def DocumentDetailFromEntity (document : Document) : DocumentDetailResponse :=
  let fileSize : Int :=
    if document.FileContent ≠ "" then
      Int.tdiv (wrapInt64 (goLen document.FileContent * 3)) 4
    else 0
  { ID := document.ExternalID
    DocumentType := document.DocumentType
    Filename := document.Filename
    ContentType := document.ContentType
    FileSize := fileSize
    FileContent := document.FileContent
    Categories := document.Categories
    Status := document.Status
    CreatedAt := document.CreatedAt
    UpdatedAt := document.UpdatedAt }

/-! ## HTTP handlers (`internal/interface/api/handler`)

A handler is a function from what gin extracts from the request to the response it
writes. A handler that dereferences a nil pointer panics; the recovery middleware
of `gin.Default()` is outside the handlers and is not modelled. A comparison
`err == sentinel` is the equality of `GoError`: the errors the services build
themselves are wrapped, so none of them equals a sentinel. -/

def StatusOK : Nat := 200
def StatusCreated : Nat := 201
def StatusBadRequest : Nat := 400
def StatusNotFound : Nat := 404
def StatusConflict : Nat := 409
def StatusInternalServerError : Nat := 500

/-- The body of a response: the `gin.H` maps and DTOs given to `c.JSON`, or the
bytes given to `c.Data`. -/
inductive ResponseBody where
  | error (message : String)
  | errorDetails (message details : String)
  | validationErrors (details : List (String × String))
  | user (response : UserResponse)
  | document (response : DocumentResponse)
  | documents (response : List DocumentResponse) (total page limit : Int)
  | data (contentType : String) (bytes : List Byte)
  deriving DecidableEq, Repr

/-- A response: status code, the headers set with `c.Header` in order, and body. -/
structure HTTPResponse where
  status : Nat
  headers : List (String × String)
  body : ResponseBody
  deriving DecidableEq, Repr

/-- The call `c.JSON(status, body)`. -/
def JSON (status : Nat) (body : ResponseBody) : HTTPResponse :=
  { status := status, headers := [], body := body }

/-- The struct `dto.UserRequest`. -/
structure UserRequest where
  Name : String
  Email : String
  Phone : String
  deriving DecidableEq, Repr

/-- The struct `dto.UpdateUserRequest`. -/
structure UpdateUserRequest where
  Name : String
  Email : String
  Phone : String
  deriving DecidableEq, Repr

/-- An error of `c.ShouldBindJSON`: its message, whether it is a
`validator.ValidationErrors`, and what `validation.Validate(req)` then returns. -/
structure BindError where
  message : String
  isValidation : Bool
  valid : Bool
  details : List (String × String)
  deriving DecidableEq, Repr

/-- The handler `UserHandler.Create`; `bound` is the outcome of `ShouldBindJSON`. -/
def UserHandler.Create {σ : Type} (svc : UserService σ)
    (bound : Except BindError UserRequest) (s : Sys σ) : Ret HTTPResponse × Sys σ :=
  match bound with
  | .error e =>
    if e.isValidation ∧ ¬ e.valid then
      (.returned (JSON StatusBadRequest (.validationErrors e.details)), s)
    else (.returned (JSON StatusBadRequest (.error "Formato de dados inválido")), s)
  | .ok req =>
    match svc.CreateUser req.Name req.Email req.Phone s with
    | (.panicked msg, s1) => (.panicked msg, s1)
    | (.returned (_, some err), s1) =>
      if err = ErrEmailAlreadyUsed then
        (.returned (JSON StatusBadRequest (.error err.Error)), s1)
      else (.returned (JSON StatusInternalServerError (.error err.Error)), s1)
    | (.returned (none, none), s1) => (.panicked nilDereference, s1)
    | (.returned (some user, none), s1) =>
      (.returned (JSON StatusCreated (.user (FromEntity user))), s1)

/-- The handler `UserHandler.Update`; `externalID` is the outcome of `uuid.Parse`
on the path parameter (`none`: an error), `bound` that of `ShouldBindJSON`. -/
def UserHandler.Update {σ : Type} (svc : UserService σ) (externalID : Option UUID)
    (bound : Except BindError UpdateUserRequest) (s : Sys σ) : Ret HTTPResponse × Sys σ :=
  match externalID with
  | none => (.returned (JSON StatusBadRequest (.error "ID inválido")), s)
  | some externalID =>
    match bound with
    | .error e => (.returned (JSON StatusBadRequest (.error e.message)), s)
    | .ok req =>
      match svc.UpdateUser externalID req.Name req.Email req.Phone s with
      | ((_, some err), s1) =>
        if err = ErrUserNotFound then
          (.returned (JSON StatusNotFound (.error "Usuário não encontrado")), s1)
        else if err = ErrEmailAlreadyUsed then
          (.returned (JSON StatusBadRequest (.error "Email já está em uso")), s1)
        else (.returned (JSON StatusInternalServerError (.error err.Error)), s1)
      | ((none, none), s1) => (.panicked nilDereference, s1)
      | ((some user, none), s1) =>
        (.returned (JSON StatusOK (.user (FromEntity user))), s1)

/-- The struct `dto.DocumentUploadRequest`. -/
structure DocumentUploadRequest where
  DocumentType : String
  Categories : Option (List String)
  deriving DecidableEq, Repr

/-- The file of a multipart form: the `Filename` and `Size` of its header and what
`io.ReadAll` gives for it. -/
structure UploadedFile where
  Filename : String
  Size : Int
  body : Except GoError (List Byte)

/-- What `DocumentHandler.Create` reads from the request: the outcome of
`uuid.Parse` on the path parameter, of `c.ShouldBind` (the error with its message)
and of `c.Request.FormFile("file")`. -/
structure UploadForm where
  userID : Option UUID
  bound : Except String DocumentUploadRequest
  file : Option UploadedFile

/-- The loop of `filepath.Ext` (separator `/`), over the characters from the last
to the first; `acc` holds the characters already passed. -/
def extFrom : List Char → List Char → List Char
  | [], _ => []
  | c :: rest, acc =>
    if c = '/' then []
    else if c = '.' then '.' :: acc
    else extFrom rest (c :: acc)

/-- The function `filepath.Ext`: the suffix from the last dot of the last element
of the path, empty when there is no such dot. -/
def filepathExt (path : String) : String := String.mk (extFrom path.data.reverse [])

/-- The function `strings.ToLower`, given the mapping `unicode.ToLower` of a rune. -/
def stringsToLower (runeLower : Char → Char) (s : String) : String :=
  String.mk (s.data.map runeLower)

/-- The keys of the map `allowedExtensions`. -/
def allowedExtensions : List String :=
  [".pdf", ".doc", ".docx", ".xls", ".xlsx", ".png", ".jpg", ".jpeg"]

/-- The `switch fileExt` of `DocumentHandler.Create` (lines 109 to 123). -/
def contentTypeOf (fileExt : String) : String :=
  if fileExt = ".pdf" then "application/pdf"
  else if fileExt = ".doc" ∨ fileExt = ".docx" then "application/msword"
  else if fileExt = ".xls" ∨ fileExt = ".xlsx" then "application/vnd.ms-excel"
  else if fileExt = ".png" then "image/png"
  else if fileExt = ".jpg" ∨ fileExt = ".jpeg" then "image/jpeg"
  else "application/octet-stream"

/-- The arguments of the call of `CreateDocument` in `DocumentHandler.Create`. -/
structure CreateArguments where
  userID : UUID
  documentType : String
  filename : String
  contentType : String
  base64Content : String
  categories : Option (List String)
  deriving DecidableEq, Repr

/-- The handler `DocumentHandler.Create` up to the call of `CreateDocument` (lines
46 to 139): the response that ends the handler, or the arguments of the call. -/
def DocumentHandler.createArguments (runeLower : Char → Char) (form : UploadForm) :
    Except HTTPResponse CreateArguments :=
  match form.userID with
  | none => .error (JSON StatusBadRequest (.error "ID de usuário inválido"))
  | some userID =>
    match form.bound with
    | .error details =>
      .error (JSON StatusBadRequest (.errorDetails "Erro ao processar formulário" details))
    | .ok req =>
      if req.DocumentType = "" then
        .error (JSON StatusBadRequest (.error "Tipo de documento é obrigatório"))
      else
        match form.file with
        | none => .error (JSON StatusBadRequest (.error "Arquivo não encontrado ou inválido"))
        | some fileHeader =>
          if fileHeader.Size > 10 * 1024 * 1024 then
            .error (JSON StatusBadRequest
              (.error "Arquivo muito grande, tamanho máximo permitido é 10MB"))
          else if stringsToLower runeLower (filepathExt fileHeader.Filename)
              ∉ allowedExtensions then
            .error (JSON StatusBadRequest (.errorDetails "Tipo de arquivo não suportado"
              "Tipos permitidos: PDF, DOC, DOCX, XLS, XLSX, PNG, JPG, JPEG"))
          else
            match fileHeader.body with
            | .error _ => .error (JSON StatusInternalServerError (.error "Erro ao ler arquivo"))
            | .ok fileContent =>
              if fileContent.length = 0 then
                .error (JSON StatusBadRequest (.error "Arquivo vazio"))
              else
                .ok { userID := userID
                      documentType := req.DocumentType
                      filename := fileHeader.Filename
                      contentType := contentTypeOf
                        (stringsToLower runeLower (filepathExt fileHeader.Filename))
                      base64Content := base64Encode fileContent
                      categories := req.Categories }

/-- The `switch err` of `DocumentHandler.Create` (lines 155 to 179) with the
response written after it. -/
def DocumentHandler.createErrorResponse (err : GoError) : HTTPResponse :=
  if err = ErrUserNotFoundForDocument then
    JSON StatusNotFound (.error "Usuário não encontrado")
  else if err = ErrInvalidDocumentType then
    JSON StatusBadRequest (.error "Tipo de documento inválido")
  else if err = ErrInvalidDocumentContent then
    JSON StatusBadRequest (.error "Conteúdo do documento inválido")
  else if err = ErrInvalidDocumentFilename then
    JSON StatusBadRequest (.error "Nome de arquivo inválido")
  else
    JSON StatusInternalServerError (.error ("Erro ao criar documento: " ++ err.Error))

/-- The handler `DocumentHandler.Create`. -/
def DocumentHandler.Create {σ : Type} (svc : DocumentService σ) (runeLower : Char → Char)
    (form : UploadForm) (s : Sys σ) : Ret HTTPResponse × Sys σ :=
  match DocumentHandler.createArguments runeLower form with
  | .error response => (.returned response, s)
  | .ok args =>
    match svc.CreateDocument args.userID args.documentType args.filename
        args.contentType args.base64Content args.categories s with
    | (.panicked msg, s1) => (.panicked msg, s1)
    | (.returned (_, some err), s1) =>
      (.returned (DocumentHandler.createErrorResponse err), s1)
    | (.returned (none, none), s1) => (.panicked nilDereference, s1)
    | (.returned (some document, none), s1) =>
      (.returned (JSON StatusCreated (.document (DocumentFromEntity document))), s1)

/-- The page of a listing handler: the outcome of `strconv.Atoi` on the query
value, or on the default `"1"` (`none`: an error), made 1 when below 1. -/
def pageParam (parsed : Option Int) : Int :=
  match parsed with
  | none => 1
  | some page => if page < 1 then 1 else page

/-- The limit of a listing handler: 10 unless the query value is a number from 1
to 100. -/
def limitParam (parsed : Option Int) : Int :=
  match parsed with
  | none => 10
  | some limit => if limit < 1 ∨ limit > 100 then 10 else limit

/-- The handler `DocumentHandler.List`. -/
def DocumentHandler.List {σ : Type} (svc : DocumentService σ) (page limit : Option Int)
    (s : Sys σ) : HTTPResponse × Sys σ :=
  match svc.ListDocuments (pageParam page) (limitParam limit) s with
  | ((_, _, some err), s1) => (JSON StatusInternalServerError (.error err.Error), s1)
  | ((documents, total, none), s1) =>
    (JSON StatusOK (.documents ((documents.getD []).map DocumentFromEntity) total
      (pageParam page) (limitParam limit)), s1)

/-- The handler `DocumentHandler.DownloadDocument`; `documentID` is the outcome of
`uuid.Parse` on the path parameter. -/
def DocumentHandler.DownloadDocument {σ : Type} (svc : DocumentService σ)
    (documentID : Option UUID) (s : Sys σ) : Ret HTTPResponse × Sys σ :=
  match documentID with
  | none => (.returned (JSON StatusBadRequest (.error "ID de documento inválido")), s)
  | some documentID =>
    match svc.GetDocumentByExternalID documentID s with
    | ((_, some err), s1) =>
      if err = ErrDocumentNotFound then
        (.returned (JSON StatusNotFound (.error "Documento não encontrado")), s1)
      else (.returned (JSON StatusInternalServerError (.error err.Error)), s1)
    | ((none, none), s1) => (.panicked nilDereference, s1)
    | ((some document, none), s1) =>
      match base64Decode document.FileContent with
      | none =>
        (.returned (JSON StatusInternalServerError
          (.error "Erro ao processar conteúdo do arquivo")), s1)
      | some fileContent =>
        (.returned
          { status := StatusOK
            headers :=
              [("Content-Disposition", "attachment; filename=" ++ document.Filename),
               ("Content-Type", document.ContentType),
               ("Content-Length", sprintfD fileContent.length)]
            body := .data document.ContentType fileContent }, s1)

/-! ## Concrete data for the handlers -/

/-- The function `service.NewUserService`, with the library functions. -/
def NewUserService {σ : Type} (rt : Runtime σ) (repo : UserRepository σ) : UserService σ :=
  { rt := rt, repo := repo }

/-- The user service as `main` wires it. -/
def mainUserService : UserService PgWorld :=
  NewUserService pgRuntime NewPostgresUserRepository

def bob : User :=
  { ID := 2, ExternalID := ⟨1002⟩, Name := "Bob", Email := "bob@example.com"
    Phone := "556", CreatedAt := 20, UpdatedAt := 20 }

/-- A database with two users. -/
def worldTwoUsers : PgWorld := { world0 with users := [alice, bob], nextUserID := 3 }

/-- A user row whose identifier is not positive. -/
def zeroUser : User := { bob with ID := 0 }

/-- A database that also holds `zeroUser`. -/
def worldZeroUser : PgWorld := { world0 with users := [alice, zeroUser] }

/-- The lower-case mapping on ASCII letters (`unicode.ToLower` restricted to them). -/
def asciiLower : Char → Char := Char.toLower

/-- The three bytes `ABC`. -/
def bytesABC : List Byte := [65, 66, 67]

/-- An upload of the three bytes `ABC` as `Report.PDF` for the user `id`. -/
def pdfUpload (id : UUID) : UploadForm :=
  { userID := some id
    bound := .ok { DocumentType := "invoice", Categories := none }
    file := some { Filename := "Report.PDF", Size := 3, body := .ok bytesABC } }

/-- The limit and offset of the page queries made to the document store (`List`
and `FindByUserID`), in order. -/
def listQueries (tr : List Call) : List (Int × Int) :=
  tr.filterMap (fun c => match c with
    | .RepoList limit offset _ => some (limit, offset)
    | .RepoFindByUserID _ limit offset _ => some (limit, offset)
    | _ => none)

/-- The arguments `DocumentHandler.Create` builds for `pdfUpload` of user 1001. -/
def pdfArguments : CreateArguments :=
  { userID := ⟨1001⟩, documentType := "invoice", filename := "Report.PDF"
    contentType := "application/pdf", base64Content := "QUJD", categories := none }

/-- World `world0` after the upload `pdfUpload` for user 1001 has been handled. -/
def worldUploaded : PgWorld :=
  (DocumentHandler.Create svcUp asciiLower (pdfUpload ⟨1001⟩) ⟨world0, []⟩).2.world

/-! ## Paths of `CreateDocument` -/

section Paths

variable {σ : Type} (svc : DocumentService σ) (userExternalID : UUID)
  (documentType filename contentType fileContent : String)
  (categories : Option (List String))

/-- `SendDocument` adds to the trace at most one call, a `Produce`. -/
theorem SendDocument_trace (enc : Encoding) (p : Option (Producer σ)) (d : Document)
    (s : Sys σ) :
    (Producer.SendDocument enc p d s).2.trace = s.trace ∨
    ∃ m e, (Producer.SendDocument enc p d s).2.trace = s.trace ++ [Call.Produce m e] := by
  unfold Producer.SendDocument
  split
  · exact Or.inl rfl
  · split
    · exact Or.inl rfl
    · split
      · exact Or.inr ⟨_, _, rfl⟩
      · split <;> exact Or.inr ⟨_, _, rfl⟩

/-- What a successful `NewDocument` returns, and when. -/
theorem NewDocument_ok (rt : Runtime σ) (userID : Int) (w w2 : σ) (d : Document)
    (e : Option GoError)
    (h : NewDocument rt userID documentType filename contentType fileContent categories w
      = ((some d, e), w2)) :
    e = none ∧ 0 < userID ∧ documentType ≠ "" ∧ filename ≠ "" ∧ fileContent ≠ "" ∧
    d.ID = 0 ∧ d.UserID = userID ∧ d.DocumentType = documentType ∧
    d.Filename = filename ∧ d.ContentType = contentType ∧ d.FileContent = fileContent ∧
    d.Categories = some (categories.getD []) ∧ d.Status = DocumentStatusPending ∧
    d.CreatedAt = d.UpdatedAt := by
  unfold NewDocument at h
  split_ifs at h with h1 h2 h3 h4
  · simp at h
  · simp at h
  · simp at h
  · simp at h
  · simp only [Prod.mk.injEq, Option.some.injEq] at h
    obtain ⟨⟨hd, he⟩, -⟩ := h
    subst hd
    refine ⟨he.symm, by omega, h2, h3, h4, rfl, rfl, rfl, rfl, rfl, rfl, ?_, rfl, rfl⟩
    cases categories <;> rfl

/-- A `NewDocument` that returns no document returns an error. -/
theorem NewDocument_none (rt : Runtime σ) (userID : Int) (w w2 : σ) (e : Option GoError)
    (h : NewDocument rt userID documentType filename contentType fileContent categories w
      = ((none, e), w2)) :
    e ≠ none ∧ w2 = w := by
  unfold NewDocument at h
  split_ifs at h <;> simp at h <;> simp [← h.1, h.2]

/-- Path: the user lookup finds nobody. -/
theorem CreateDocument_notFound (s : Sys σ) (w1 : σ)
    (h : svc.userRepo.FindByExternalID userExternalID s.world = ((none, none), w1)) :
    svc.CreateDocument userExternalID documentType filename contentType fileContent
      categories s =
    (.returned (none, some ErrUserNotFoundForDocument),
      ⟨w1, s.trace ++ [Call.UserFindByExternalID userExternalID none none]⟩) := by
  simp [DocumentService.CreateDocument, h, Sys.log]

/-- The paths of `CreateDocument`: every run from an empty trace is one of these. -/
theorem CreateDocument_paths (w : σ) :
    (∃ user e w1,
      svc.userRepo.FindByExternalID userExternalID w = ((user, some e), w1) ∧
      svc.CreateDocument userExternalID documentType filename contentType fileContent
        categories ⟨w, []⟩ =
      (.returned (none, some (.wrap "erro ao buscar usuário: " e)),
        ⟨w1, [Call.UserFindByExternalID userExternalID user (some e)]⟩)) ∨
    (∃ w1,
      svc.userRepo.FindByExternalID userExternalID w = ((none, none), w1) ∧
      svc.CreateDocument userExternalID documentType filename contentType fileContent
        categories ⟨w, []⟩ =
      (.returned (none, some ErrUserNotFoundForDocument),
        ⟨w1, [Call.UserFindByExternalID userExternalID none none]⟩)) ∨
    (∃ user w1 e,
      svc.userRepo.FindByExternalID userExternalID w = ((some user, none), w1) ∧
      NewDocument svc.rt user.ID documentType filename contentType fileContent
        categories w1 = ((none, some e), w1) ∧
      svc.CreateDocument userExternalID documentType filename contentType fileContent
        categories ⟨w, []⟩ =
      (.returned (none, some e),
        ⟨w1, [Call.UserFindByExternalID userExternalID (some user) none]⟩)) ∨
    (∃ user w1 d w2 d1 e w3,
      svc.userRepo.FindByExternalID userExternalID w = ((some user, none), w1) ∧
      NewDocument svc.rt user.ID documentType filename contentType fileContent
        categories w1 = ((some d, none), w2) ∧
      svc.repo.Create { d with Status := DocumentStatusPending } w2 = ((d1, some e), w3) ∧
      svc.CreateDocument userExternalID documentType filename contentType fileContent
        categories ⟨w, []⟩ =
      (.returned (none, some (.wrap "erro ao salvar documento: " e)),
        ⟨w3, [Call.UserFindByExternalID userExternalID (some user) none,
              Call.RepoCreate { d with Status := DocumentStatusPending } (some e)]⟩)) ∨
    (∃ user w1 d w2 d1 w3 ps msg w4,
      svc.userRepo.FindByExternalID userExternalID w = ((some user, none), w1) ∧
      NewDocument svc.rt user.ID documentType filename contentType fileContent
        categories w1 = ((some d, none), w2) ∧
      svc.repo.Create { d with Status := DocumentStatusPending } w2 = ((d1, none), w3) ∧
      (ps = [] ∨ ∃ m pe, ps = [Call.Produce m pe]) ∧
      Producer.SendDocument svc.enc svc.kafkaProducer d1
        ⟨w3, sendTrace userExternalID user d d1 []⟩ =
        (.panicked msg, ⟨w4, sendTrace userExternalID user d d1 ps⟩) ∧
      svc.CreateDocument userExternalID documentType filename contentType fileContent
        categories ⟨w, []⟩ =
      (.panicked msg, ⟨w4, sendTrace userExternalID user d d1 ps⟩)) ∨
    (∃ user w1 d w2 d1 w3 ps e w4 uerr w5,
      svc.userRepo.FindByExternalID userExternalID w = ((some user, none), w1) ∧
      NewDocument svc.rt user.ID documentType filename contentType fileContent
        categories w1 = ((some d, none), w2) ∧
      svc.repo.Create { d with Status := DocumentStatusPending } w2 = ((d1, none), w3) ∧
      (ps = [] ∨ ∃ m pe, ps = [Call.Produce m pe]) ∧
      Producer.SendDocument svc.enc svc.kafkaProducer d1
        ⟨w3, sendTrace userExternalID user d d1 []⟩ =
        (.returned (some e), ⟨w4, sendTrace userExternalID user d d1 ps⟩) ∧
      svc.repo.UpdateStatus d1.ID DocumentStatusFailed w4 = (uerr, w5) ∧
      svc.CreateDocument userExternalID documentType filename contentType fileContent
        categories ⟨w, []⟩ =
      (.returned (none,
          some (.wrap "erro ao enviar documento para processamento: " e)),
        ⟨w5, sendTrace userExternalID user d d1 ps ++
          [Call.SendDocumentReturn (some e),
           Call.RepoUpdateStatus d1.ID DocumentStatusFailed uerr]⟩)) ∨
    (∃ user w1 d w2 d1 w3 ps w4 d2 w5 uerr w6,
      svc.userRepo.FindByExternalID userExternalID w = ((some user, none), w1) ∧
      NewDocument svc.rt user.ID documentType filename contentType fileContent
        categories w1 = ((some d, none), w2) ∧
      svc.repo.Create { d with Status := DocumentStatusPending } w2 = ((d1, none), w3) ∧
      (ps = [] ∨ ∃ m pe, ps = [Call.Produce m pe]) ∧
      Producer.SendDocument svc.enc svc.kafkaProducer d1
        ⟨w3, sendTrace userExternalID user d d1 []⟩ =
        (.returned none, ⟨w4, sendTrace userExternalID user d d1 ps⟩) ∧
      d1.UpdateStatus svc.rt DocumentStatusProcessing w4 = (d2, w5) ∧
      svc.repo.UpdateStatus d2.ID DocumentStatusProcessing w5 = (uerr, w6) ∧
      svc.CreateDocument userExternalID documentType filename contentType fileContent
        categories ⟨w, []⟩ =
      (.returned (some d2, none),
        ⟨w6, sendTrace userExternalID user d d1 ps ++
          [Call.SendDocumentReturn none,
           Call.RepoUpdateStatus d2.ID DocumentStatusProcessing uerr]⟩)) := by
  unfold DocumentService.CreateDocument
  split
  next user err w1 h1 => exact Or.inl ⟨user, err, w1, h1, rfl⟩
  next w1 h1 => exact Or.inr (Or.inl ⟨w1, h1, rfl⟩)
  next user w1 h1 =>
    refine Or.inr (Or.inr ?_)
    simp only [Sys.log, List.nil_append]
    split
    next dopt err w2 h2 =>
      cases dopt with
      | none =>
        have hw := (NewDocument_none _ _ _ _ _ _ _ _ _ _ h2).2
        subst hw
        exact Or.inl ⟨user, _, err, h1, h2, rfl⟩
      | some d => exact absurd (NewDocument_ok _ _ _ _ _ _ _ _ _ _ _ h2).1 (by simp)
    next w2 h2 => exact absurd rfl (NewDocument_none _ _ _ _ _ _ _ _ _ _ h2).1
    next d w2 h2 =>
      refine Or.inr ?_
      split
      next d1 err w3 h3 => exact Or.inl ⟨user, w1, d, w2, d1, err, w3, h1, h2, h3, rfl⟩
      next d1 w3 h3 =>
        refine Or.inr ?_
        have htr := SendDocument_trace svc.enc svc.kafkaProducer d1
          ⟨w3, sendTrace userExternalID user d d1 []⟩
        simp only [sendTrace, List.append_nil, List.cons_append, List.nil_append] at htr ⊢
        split
        next msg s4 h4 =>
          refine Or.inl ⟨user, w1, d, w2, d1, w3, ?_⟩
          rw [h4] at htr
          rcases s4 with ⟨w4, tr4⟩
          rcases htr with htr | ⟨m, pe, htr⟩
          · simp only at htr
            subst htr
            exact ⟨[], msg, w4, h1, h2, h3, Or.inl rfl, h4, rfl⟩
          · simp only at htr
            subst htr
            exact ⟨[Call.Produce m pe], msg, w4, h1, h2, h3, Or.inr ⟨_, _, rfl⟩, h4, rfl⟩
        next e s4 h4 =>
          refine Or.inr (Or.inl ⟨user, w1, d, w2, d1, w3, ?_⟩)
          rw [h4] at htr
          rcases s4 with ⟨w4, tr4⟩
          rcases htr with htr | ⟨m, pe, htr⟩
          · simp only at htr
            subst htr
            exact ⟨[], e, w4, _, _, h1, h2, h3, Or.inl rfl, h4, rfl, rfl⟩
          · simp only at htr
            subst htr
            exact ⟨[Call.Produce m pe], e, w4, _, _, h1, h2, h3, Or.inr ⟨_, _, rfl⟩, h4,
              rfl, rfl⟩
        next s4 h4 =>
          refine Or.inr (Or.inr ⟨user, w1, d, w2, d1, w3, ?_⟩)
          rw [h4] at htr
          rcases s4 with ⟨w4, tr4⟩
          rcases htr with htr | ⟨m, pe, htr⟩
          · simp only at htr
            subst htr
            exact ⟨[], w4, _, _, _, _, h1, h2, h3, Or.inl rfl, h4, rfl, rfl, rfl⟩
          · simp only at htr
            subst htr
            exact ⟨[Call.Produce m pe], w4, _, _, _, _, h1, h2, h3, Or.inr ⟨_, _, rfl⟩, h4,
              rfl, rfl, rfl⟩

/-- In a trace that starts with two calls which are not `y`, the second of them
comes before every occurrence of `y`. -/
theorem second_mem_of_split {a b y : Call} {rest pre post : List Call}
    (h : a :: b :: rest = pre ++ y :: post) (ha : a ≠ y) (hb : b ≠ y) : b ∈ pre := by
  rcases pre with _ | ⟨p1, _ | ⟨p2, pre⟩⟩
  · simp only [List.nil_append, List.cons.injEq] at h
    exact absurd h.1 ha
  · simp only [List.cons_append, List.nil_append, List.cons.injEq] at h
    exact absurd h.2.1 hb
  · simp only [List.cons_append, List.cons.injEq] at h
    simp [h.2.1]

end Paths

/-! ## Claims on `CreateDocument` -/

section Claims

variable {σ : Type} (svc : DocumentService σ) (userExternalID : UUID)
  (documentType filename contentType fileContent : String)
  (categories : Option (List String))

/-- C1: when the owner resolves and document construction succeeds, `CreateDocument`
calls the store's `Create` exactly once, with a document in status pending owned by
the resolved user's internal ID, and every invocation of `SendDocument` in the trace
comes after the record of that `Create` returning no error. -/
theorem C1_create_once_before_send (w : σ) (user : User)
    (hUser : (svc.userRepo.FindByExternalID userExternalID w).1 = (some user, none))
    (hNew : (NewDocument svc.rt user.ID documentType filename contentType fileContent
      categories (svc.userRepo.FindByExternalID userExternalID w).2).1.2 = none) :
    ∃ d0 : Document,
      createCalls (svc.CreateDocument userExternalID documentType filename contentType
        fileContent categories ⟨w, []⟩).2.trace = [d0] ∧
      d0.Status = DocumentStatusPending ∧ d0.UserID = user.ID ∧
      ∀ pre sd post,
        (svc.CreateDocument userExternalID documentType filename contentType
          fileContent categories ⟨w, []⟩).2.trace = pre ++ Call.SendDocument sd :: post →
        Call.RepoCreate d0 none ∈ pre := by
  rcases CreateDocument_paths svc userExternalID documentType filename contentType
      fileContent categories w with
    ⟨u, e, w1, h1, -⟩ | ⟨w1, h1, -⟩ | ⟨u, w1, e, h1, h2, -⟩ |
    ⟨u, w1, d, w2, d1, e, w3, h1, h2, h3, hrun⟩ |
    ⟨u, w1, d, w2, d1, w3, ps, msg, w4, h1, h2, h3, hps, h4, hrun⟩ |
    ⟨u, w1, d, w2, d1, w3, ps, e, w4, uerr, w5, h1, h2, h3, hps, h4, h5, hrun⟩ |
    ⟨u, w1, d, w2, d1, w3, ps, w4, d2, w5, uerr, w6, h1, h2, h3, hps, h4, h5, h6, hrun⟩
  · simp [h1] at hUser
  · simp [h1] at hUser
  · simp only [h1, Prod.mk.injEq, Option.some.injEq, and_true] at hUser
    subst hUser
    simp [h1, h2] at hNew
  all_goals
    simp only [h1, Prod.mk.injEq, Option.some.injEq, and_true] at hUser
    subst hUser
    have hd := NewDocument_ok _ _ _ _ _ _ _ _ _ _ _ h2
    refine ⟨{ d with Status := DocumentStatusPending }, ?_, rfl, hd.2.2.2.2.2.2.1, ?_⟩
  · simp [hrun, createCalls]
  · intro pre sd post hsplit
    rw [hrun] at hsplit
    rcases pre with _ | ⟨p1, _ | ⟨p2, pre⟩⟩ <;> simp at hsplit
  · rcases hps with rfl | ⟨m, pe, rfl⟩ <;> simp [hrun, createCalls, sendTrace]
  · intro pre sd post hsplit
    rw [hrun] at hsplit
    exact second_mem_of_split hsplit (by simp) (by simp)
  · rcases hps with rfl | ⟨m, pe, rfl⟩ <;> simp [hrun, createCalls, sendTrace]
  · intro pre sd post hsplit
    rw [hrun] at hsplit
    exact second_mem_of_split hsplit (by simp) (by simp)
  · rcases hps with rfl | ⟨m, pe, rfl⟩ <;> simp [hrun, createCalls, sendTrace]
  · intro pre sd post hsplit
    rw [hrun] at hsplit
    exact second_mem_of_split hsplit (by simp) (by simp)

/-- C2: if `SendDocument` returns an error `e`, `CreateDocument` returns no document
and the error that wraps `e`, and it calls the store's `UpdateStatus` exactly once,
with the ID of the document it sent and status failed, whatever that call returns
(`uerr`); the returned error does not depend on `uerr`. -/
theorem C2_dispatch_failure (w : σ) (e : GoError)
    (hSend : Call.SendDocumentReturn (some e) ∈
      (svc.CreateDocument userExternalID documentType filename contentType fileContent
        categories ⟨w, []⟩).2.trace) :
    ∃ (sd : Document) (uerr : Option GoError) (err : GoError),
      (svc.CreateDocument userExternalID documentType filename contentType fileContent
        categories ⟨w, []⟩).1 = .returned (none, some err) ∧
      err = .wrap "erro ao enviar documento para processamento: " e ∧
      err.Unwrap = some e ∧
      sendCalls (svc.CreateDocument userExternalID documentType filename contentType
        fileContent categories ⟨w, []⟩).2.trace = [sd] ∧
      updateStatusCalls (svc.CreateDocument userExternalID documentType filename
        contentType fileContent categories ⟨w, []⟩).2.trace
        = [(sd.ID, DocumentStatusFailed)] ∧
      Call.RepoUpdateStatus sd.ID DocumentStatusFailed uerr ∈
        (svc.CreateDocument userExternalID documentType filename contentType fileContent
          categories ⟨w, []⟩).2.trace := by
  rcases CreateDocument_paths svc userExternalID documentType filename contentType
      fileContent categories w with
    ⟨u, e1, w1, h1, hrun⟩ | ⟨w1, h1, hrun⟩ | ⟨u, w1, e1, h1, h2, hrun⟩ |
    ⟨u, w1, d, w2, d1, e1, w3, h1, h2, h3, hrun⟩ |
    ⟨u, w1, d, w2, d1, w3, ps, msg, w4, h1, h2, h3, hps, h4, hrun⟩ |
    ⟨u, w1, d, w2, d1, w3, ps, e1, w4, uerr, w5, h1, h2, h3, hps, h4, h5, hrun⟩ |
    ⟨u, w1, d, w2, d1, w3, ps, w4, d2, w5, uerr, w6, h1, h2, h3, hps, h4, h5, h6, hrun⟩
  · simp [hrun] at hSend
  · simp [hrun] at hSend
  · simp [hrun] at hSend
  · simp [hrun] at hSend
  · rcases hps with rfl | ⟨m, pe, rfl⟩ <;> simp [hrun, sendTrace] at hSend
  · have he : e = e1 := by
      rcases hps with rfl | ⟨m, pe, rfl⟩ <;> simpa [hrun, sendTrace] using hSend
    subst he
    refine ⟨d1, uerr, _, by rw [hrun], rfl, rfl, ?_, ?_, ?_⟩
    · rcases hps with rfl | ⟨m, pe, rfl⟩ <;> simp [hrun, sendTrace, sendCalls]
    · rcases hps with rfl | ⟨m, pe, rfl⟩ <;> simp [hrun, sendTrace, updateStatusCalls]
    · simp [hrun]
  · rcases hps with rfl | ⟨m, pe, rfl⟩ <;> simp [hrun, sendTrace] at hSend

/-- C3: if `SendDocument` succeeds, `CreateDocument` returns a document and no error,
the returned document has status processing, and this holds whatever the follow-up
`UpdateStatus(document.ID, processing)` returns (`uerr`, recorded in the trace). -/
theorem C3_dispatch_success (w : σ)
    (hSend : Call.SendDocumentReturn none ∈
      (svc.CreateDocument userExternalID documentType filename contentType fileContent
        categories ⟨w, []⟩).2.trace) :
    ∃ (doc : Document) (uerr : Option GoError),
      (svc.CreateDocument userExternalID documentType filename contentType fileContent
        categories ⟨w, []⟩).1 = .returned (some doc, none) ∧
      doc.Status = DocumentStatusProcessing ∧
      updateStatusCalls (svc.CreateDocument userExternalID documentType filename
        contentType fileContent categories ⟨w, []⟩).2.trace
        = [(doc.ID, DocumentStatusProcessing)] ∧
      Call.RepoUpdateStatus doc.ID DocumentStatusProcessing uerr ∈
        (svc.CreateDocument userExternalID documentType filename contentType fileContent
          categories ⟨w, []⟩).2.trace := by
  rcases CreateDocument_paths svc userExternalID documentType filename contentType
      fileContent categories w with
    ⟨u, e1, w1, h1, hrun⟩ | ⟨w1, h1, hrun⟩ | ⟨u, w1, e1, h1, h2, hrun⟩ |
    ⟨u, w1, d, w2, d1, e1, w3, h1, h2, h3, hrun⟩ |
    ⟨u, w1, d, w2, d1, w3, ps, msg, w4, h1, h2, h3, hps, h4, hrun⟩ |
    ⟨u, w1, d, w2, d1, w3, ps, e1, w4, uerr, w5, h1, h2, h3, hps, h4, h5, hrun⟩ |
    ⟨u, w1, d, w2, d1, w3, ps, w4, d2, w5, uerr, w6, h1, h2, h3, hps, h4, h5, h6, hrun⟩
  · simp [hrun] at hSend
  · simp [hrun] at hSend
  · simp [hrun] at hSend
  · simp [hrun] at hSend
  · rcases hps with rfl | ⟨m, pe, rfl⟩ <;> simp [hrun, sendTrace] at hSend
  · rcases hps with rfl | ⟨m, pe, rfl⟩ <;> simp [hrun, sendTrace] at hSend
  · refine ⟨d2, uerr, by rw [hrun], ?_, ?_, by simp [hrun]⟩
    · simp only [Document.UpdateStatus, Prod.mk.injEq] at h5
      rw [← h5.1]
    · rcases hps with rfl | ⟨m, pe, rfl⟩ <;> simp [hrun, sendTrace, updateStatusCalls]

/-- C5: if the store's `Create` returns an error `e`, `CreateDocument` returns no
document and the error that wraps `e`, and calls neither `SendDocument` nor the
store's `UpdateStatus`. -/
theorem C5_persistence_failure (w : σ) (d : Document) (e : GoError)
    (hCreate : Call.RepoCreate d (some e) ∈
      (svc.CreateDocument userExternalID documentType filename contentType fileContent
        categories ⟨w, []⟩).2.trace) :
    ∃ err : GoError,
      (svc.CreateDocument userExternalID documentType filename contentType fileContent
        categories ⟨w, []⟩).1 = .returned (none, some err) ∧
      err = .wrap "erro ao salvar documento: " e ∧
      err.Unwrap = some e ∧
      sendCalls (svc.CreateDocument userExternalID documentType filename contentType
        fileContent categories ⟨w, []⟩).2.trace = [] ∧
      updateStatusCalls (svc.CreateDocument userExternalID documentType filename
        contentType fileContent categories ⟨w, []⟩).2.trace = [] := by
  rcases CreateDocument_paths svc userExternalID documentType filename contentType
      fileContent categories w with
    ⟨u, e1, w1, h1, hrun⟩ | ⟨w1, h1, hrun⟩ | ⟨u, w1, e1, h1, h2, hrun⟩ |
    ⟨u, w1, d0, w2, d1, e1, w3, h1, h2, h3, hrun⟩ |
    ⟨u, w1, d0, w2, d1, w3, ps, msg, w4, h1, h2, h3, hps, h4, hrun⟩ |
    ⟨u, w1, d0, w2, d1, w3, ps, e1, w4, uerr, w5, h1, h2, h3, hps, h4, h5, hrun⟩ |
    ⟨u, w1, d0, w2, d1, w3, ps, w4, d2, w5, uerr, w6, h1, h2, h3, hps, h4, h5, h6, hrun⟩
  · simp [hrun] at hCreate
  · simp [hrun] at hCreate
  · simp [hrun] at hCreate
  · have he : e1 = e := by
      have := hCreate
      simp only [hrun, List.mem_cons, List.mem_singleton, Call.RepoCreate.injEq,
        Option.some.injEq, List.not_mem_nil, or_false] at this
      rcases this with h | h
      · cases h
      · exact h.2.symm
    subst he
    exact ⟨_, by rw [hrun], rfl, rfl, by simp [hrun, sendCalls],
      by simp [hrun, updateStatusCalls]⟩
  · rcases hps with rfl | ⟨m, pe, rfl⟩ <;> simp [hrun, sendTrace] at hCreate
  · rcases hps with rfl | ⟨m, pe, rfl⟩ <;> simp [hrun, sendTrace] at hCreate
  · rcases hps with rfl | ⟨m, pe, rfl⟩ <;> simp [hrun, sendTrace] at hCreate

/-- C6: if the user lookup returns no user and no error, `CreateDocument` returns
`ErrUserNotFoundForDocument` and calls neither the store's `Create` nor
`SendDocument`, whatever the other arguments are. -/
theorem C6_owner_not_found (w : σ)
    (hUser : (svc.userRepo.FindByExternalID userExternalID w).1 = (none, none)) :
    (svc.CreateDocument userExternalID documentType filename contentType fileContent
      categories ⟨w, []⟩).1 = .returned (none, some ErrUserNotFoundForDocument) ∧
    createCalls (svc.CreateDocument userExternalID documentType filename contentType
      fileContent categories ⟨w, []⟩).2.trace = [] ∧
    sendCalls (svc.CreateDocument userExternalID documentType filename contentType
      fileContent categories ⟨w, []⟩).2.trace = [] := by
  have h1 : svc.userRepo.FindByExternalID userExternalID w =
      ((none, none), (svc.userRepo.FindByExternalID userExternalID w).2) :=
    Prod.ext hUser rfl
  have hrun : svc.CreateDocument userExternalID documentType filename contentType
      fileContent categories ⟨w, []⟩ = _ :=
    CreateDocument_notFound svc userExternalID documentType filename contentType
      fileContent categories ⟨w, []⟩ _ h1
  simp [hrun, createCalls, sendCalls]

/-- C7: for a resolved owner, if the document type, the filename or the encoded
content is empty, or the user's internal ID is non-positive, `NewDocument` fails and
`CreateDocument` returns exactly the error `NewDocument` produced, and calls neither
the store's `Create` nor `SendDocument`. -/
theorem C7_construction_failure (w : σ) (user : User)
    (hUser : (svc.userRepo.FindByExternalID userExternalID w).1 = (some user, none))
    (hBad : documentType = "" ∨ filename = "" ∨ fileContent = "" ∨ user.ID ≤ 0) :
    ∃ e : GoError,
      (NewDocument svc.rt user.ID documentType filename contentType fileContent
        categories (svc.userRepo.FindByExternalID userExternalID w).2).1 = (none, some e) ∧
      (svc.CreateDocument userExternalID documentType filename contentType fileContent
        categories ⟨w, []⟩).1 = .returned (none, some e) ∧
      createCalls (svc.CreateDocument userExternalID documentType filename contentType
        fileContent categories ⟨w, []⟩).2.trace = [] ∧
      sendCalls (svc.CreateDocument userExternalID documentType filename contentType
        fileContent categories ⟨w, []⟩).2.trace = [] := by
  rcases CreateDocument_paths svc userExternalID documentType filename contentType
      fileContent categories w with
    ⟨u, e1, w1, h1, hrun⟩ | ⟨w1, h1, hrun⟩ | ⟨u, w1, e1, h1, h2, hrun⟩ |
    ⟨u, w1, d0, w2, d1, e1, w3, h1, h2, h3, hrun⟩ |
    ⟨u, w1, d0, w2, d1, w3, ps, msg, w4, h1, h2, h3, hps, h4, hrun⟩ |
    ⟨u, w1, d0, w2, d1, w3, ps, e1, w4, uerr, w5, h1, h2, h3, hps, h4, h5, hrun⟩ |
    ⟨u, w1, d0, w2, d1, w3, ps, w4, d2, w5, uerr, w6, h1, h2, h3, hps, h4, h5, h6, hrun⟩
  · simp [h1] at hUser
  · simp [h1] at hUser
  · simp only [h1, Prod.mk.injEq, Option.some.injEq, and_true] at hUser
    subst hUser
    exact ⟨e1, by rw [h1, h2], by rw [hrun], by simp [hrun, createCalls],
      by simp [hrun, sendCalls]⟩
  all_goals
    simp only [h1, Prod.mk.injEq, Option.some.injEq, and_true] at hUser
    subst hUser
    have hd := NewDocument_ok _ _ _ _ _ _ _ _ _ _ _ h2
    rcases hBad with hb | hb | hb | hb
    · exact absurd hb hd.2.2.1
    · exact absurd hb hd.2.2.2.1
    · exact absurd hb hd.2.2.2.2.1
    · omega

/-- An error is never the error that wraps it. -/
theorem GoError.wrap_ne (e : GoError) : ∀ pre : String, GoError.wrap pre e ≠ e := by
  induction e with
  | new msg => intro pre h; cases h
  | wrap p c ih =>
    intro pre h
    injection h with _ hc
    exact ih p hc

/-- C8 (amended): if the user lookup returns an error `e`, `CreateDocument` returns no
document and the error `fmt.Errorf("erro ao buscar usuário: %w", e)`: it wraps `e`
(`errors.Unwrap` gives `e` back, and its message is the message of `e` after
"erro ao buscar usuário: "), it is not `e` itself, and neither the store's `Create`
nor `SendDocument` is called. -/
theorem C8_lookup_error_wrapped (w : σ) (e : GoError)
    (hUser : (svc.userRepo.FindByExternalID userExternalID w).1.2 = some e) :
    ∃ err : GoError,
      (svc.CreateDocument userExternalID documentType filename contentType fileContent
        categories ⟨w, []⟩).1 = .returned (none, some err) ∧
      err = .wrap "erro ao buscar usuário: " e ∧
      err.Unwrap = some e ∧
      err.Error = "erro ao buscar usuário: " ++ e.Error ∧
      err ≠ e ∧
      createCalls (svc.CreateDocument userExternalID documentType filename contentType
        fileContent categories ⟨w, []⟩).2.trace = [] ∧
      sendCalls (svc.CreateDocument userExternalID documentType filename contentType
        fileContent categories ⟨w, []⟩).2.trace = [] := by
  rcases CreateDocument_paths svc userExternalID documentType filename contentType
      fileContent categories w with
    ⟨u, e1, w1, h1, hrun⟩ | ⟨w1, h1, hrun⟩ | ⟨u, w1, e1, h1, h2, hrun⟩ |
    ⟨u, w1, d0, w2, d1, e1, w3, h1, h2, h3, hrun⟩ |
    ⟨u, w1, d0, w2, d1, w3, ps, msg, w4, h1, h2, h3, hps, h4, hrun⟩ |
    ⟨u, w1, d0, w2, d1, w3, ps, e1, w4, uerr, w5, h1, h2, h3, hps, h4, h5, hrun⟩ |
    ⟨u, w1, d0, w2, d1, w3, ps, w4, d2, w5, uerr, w6, h1, h2, h3, hps, h4, h5, h6, hrun⟩
  · simp only [h1, Option.some.injEq] at hUser
    subst hUser
    exact ⟨_, by rw [hrun], rfl, rfl, rfl, GoError.wrap_ne _ _, by simp [hrun, createCalls],
      by simp [hrun, sendCalls]⟩
  all_goals simp [h1] at hUser

/-- C10 (amended): `NewDocument` fails with `ErrInvalidDocumentUserID` when `userID`
is non-positive; otherwise with `ErrInvalidDocumentType` when `documentType` is
empty; otherwise with `ErrInvalidDocumentFilename` when `filename` is empty;
otherwise with `ErrInvalidDocumentContent` when `fileContent` is empty (the first
failing check, in this order, decides the error); it returns a document and no
error exactly when none of the four conditions holds, whatever `contentType` and
`categories` are. -/
theorem C10_NewDocument_errors (rt : Runtime σ) (userID : Int) (w : σ) :
    (userID ≤ 0 →
      NewDocument rt userID documentType filename contentType fileContent categories w
        = ((none, some ErrInvalidDocumentUserID), w)) ∧
    (0 < userID → documentType = "" →
      NewDocument rt userID documentType filename contentType fileContent categories w
        = ((none, some ErrInvalidDocumentType), w)) ∧
    (0 < userID → documentType ≠ "" → filename = "" →
      NewDocument rt userID documentType filename contentType fileContent categories w
        = ((none, some ErrInvalidDocumentFilename), w)) ∧
    (0 < userID → documentType ≠ "" → filename ≠ "" → fileContent = "" →
      NewDocument rt userID documentType filename contentType fileContent categories w
        = ((none, some ErrInvalidDocumentContent), w)) ∧
    ((∃ d, (NewDocument rt userID documentType filename contentType fileContent
        categories w).1 = (some d, none)) ↔
      ¬ userID ≤ 0 ∧ documentType ≠ "" ∧ filename ≠ "" ∧ fileContent ≠ "") := by
  refine ⟨?_, ?_, ?_, ?_, ?_⟩
  · intro h
    simp [NewDocument, h]
  · intro h1 h2
    simp [NewDocument, h2, Int.not_le.mpr h1]
  · intro h1 h2 h3
    simp [NewDocument, h2, h3, Int.not_le.mpr h1]
  · intro h1 h2 h3 h4
    simp [NewDocument, h2, h3, h4, Int.not_le.mpr h1]
  · constructor
    · rintro ⟨d, hd⟩
      have h := NewDocument_ok documentType filename contentType fileContent categories
        rt userID w _ d none (Prod.ext hd rfl)
      exact ⟨by omega, h.2.2.1, h.2.2.2.1, h.2.2.2.2.1⟩
    · rintro ⟨h1, h2, h3, h4⟩
      simp [NewDocument, h1, h2, h3, h4]

/-- With the nil producer and an encoder that does not fail, a `CreateDocument` that
got as far as a successful `Create` panics: it returns nothing, and the store's
`UpdateStatus` is never called. -/
theorem CreateDocument_nil_producer (w : σ) (d : Document)
    (hNil : svc.kafkaProducer = none)
    (hEnc : ∀ m, ∃ body, svc.enc.jsonMarshal m = .ok body)
    (hCreate : Call.RepoCreate d none ∈
      (svc.CreateDocument userExternalID documentType filename contentType fileContent
        categories ⟨w, []⟩).2.trace) :
    (svc.CreateDocument userExternalID documentType filename contentType fileContent
      categories ⟨w, []⟩).1 = .panicked nilDereference ∧
    updateStatusCalls (svc.CreateDocument userExternalID documentType filename
      contentType fileContent categories ⟨w, []⟩).2.trace = [] := by
  have hsend : ∀ (d1 : Document) (s : Sys σ),
      Producer.SendDocument svc.enc svc.kafkaProducer d1 s = (.panicked nilDereference, s) := by
    intro d1 s
    obtain ⟨body, hb⟩ := hEnc (toDocumentMessage d1)
    simp [Producer.SendDocument, hb, hNil]
  rcases CreateDocument_paths svc userExternalID documentType filename contentType
      fileContent categories w with
    ⟨u, e1, w1, h1, hrun⟩ | ⟨w1, h1, hrun⟩ | ⟨u, w1, e1, h1, h2, hrun⟩ |
    ⟨u, w1, d0, w2, d1, e1, w3, h1, h2, h3, hrun⟩ |
    ⟨u, w1, d0, w2, d1, w3, ps, msg, w4, h1, h2, h3, hps, h4, hrun⟩ |
    ⟨u, w1, d0, w2, d1, w3, ps, e1, w4, uerr, w5, h1, h2, h3, hps, h4, h5, hrun⟩ |
    ⟨u, w1, d0, w2, d1, w3, ps, w4, d2, w5, uerr, w6, h1, h2, h3, hps, h4, h5, h6, hrun⟩
  · simp [hrun] at hCreate
  · simp [hrun] at hCreate
  · simp [hrun] at hCreate
  · simp [hrun] at hCreate
  · rw [hsend] at h4
    simp only [Prod.mk.injEq, Ret.panicked.injEq, Sys.mk.injEq] at h4
    obtain ⟨hmsg, -, htr⟩ := h4
    rw [hrun, ← hmsg, ← htr]
    exact ⟨rfl, by simp [sendTrace, updateStatusCalls]⟩
  · rw [hsend] at h4
    simp at h4
  · rw [hsend] at h4
    simp at h4

end Claims





/-! ## The stored row after a failed dispatch -/

section Stored

/-- Taking a fault leaves the tables and their sequences as they are. -/
theorem PgWorld.exec_frame (w : PgWorld) :
    w.exec.2.documents = w.documents ∧ w.exec.2.nextDocumentID = w.nextDocumentID := by
  unfold PgWorld.exec
  split <;> exact ⟨rfl, rfl⟩

/-- The user lookup leaves the documents table as it is. -/
theorem PostgresUserRepository.FindByExternalID_frame (externalID : UUID) (w : PgWorld) :
    (PostgresUserRepository.FindByExternalID externalID w).2.documents = w.documents ∧
    (PostgresUserRepository.FindByExternalID externalID w).2.nextDocumentID
      = w.nextDocumentID := by
  have h := PgWorld.exec_frame w
  unfold PostgresUserRepository.FindByExternalID
  split
  next err w1 hw => rw [hw] at h; exact h
  next w1 hw => rw [hw] at h; exact h

/-- The function `NewDocument` leaves the documents table as it is. -/
theorem NewDocument_frame (userID : Int)
    (documentType filename contentType fileContent : String)
    (categories : Option (List String)) (w : PgWorld) :
    (NewDocument pgRuntime userID documentType filename contentType fileContent
      categories w).2.documents = w.documents ∧
    (NewDocument pgRuntime userID documentType filename contentType fileContent
      categories w).2.nextDocumentID = w.nextDocumentID := by
  unfold NewDocument
  split_ifs <;> exact ⟨rfl, rfl⟩

/-- A successful `Create` appends the document, under the next identifier. -/
theorem PostgresDocumentRepository.Create_ok (d d1 : Document) (w w3 : PgWorld)
    (h : PostgresDocumentRepository.Create d w = ((d1, none), w3)) :
    d1 = { d with ID := w.nextDocumentID } ∧
    w3.documents = w.documents ++ [d1] ∧
    w3.nextDocumentID = w.nextDocumentID + 1 := by
  have hf := PgWorld.exec_frame w
  unfold PostgresDocumentRepository.Create at h
  split at h
  next err w1 hw => simp at h
  next w1 hw =>
    rw [hw] at hf
    simp only at hf
    simp only [Prod.mk.injEq, and_true] at h
    obtain ⟨h1, h2⟩ := h
    subst h1 h2
    simp [hf.1, hf.2]

/-- A `SendDocument` through the broker client of a `PgWorld` leaves the world as it
is, whether the producer is there or nil. -/
theorem SendDocument_world (enc : Encoding) (topic : Option String) (d : Document)
    (s : Sys PgWorld) :
    (Producer.SendDocument enc (topic.map pgProducer) d s).2.world = s.world := by
  unfold Producer.SendDocument
  split
  · rfl
  · cases topic with
    | none => rfl
    | some t =>
      simp only [Option.map_some', pgProducer, pgKafkaClient, Sys.log]
      split
      · next h => simp only [Prod.mk.injEq] at h; simp [← h.2]
      · next h =>
          simp only [Prod.mk.injEq] at h
          split <;> next h2 => simp only [Prod.mk.injEq] at h2; simp [← h2.2, ← h.2]

/-- What `UpdateStatus` does to the table: on success every row with the identifier
gets the status, on failure the table is as before. -/
theorem PostgresDocumentRepository.UpdateStatus_effect (id : Int) (st : DocumentStatus)
    (w w5 : PgWorld) (uerr : Option GoError)
    (h : PostgresDocumentRepository.UpdateStatus id st w = (uerr, w5)) :
    (uerr = none → ∃ now : Time, w5.documents = w.documents.map (fun r =>
        if r.ID = id then { r with Status := st, UpdatedAt := now } else r)) ∧
    (uerr ≠ none → w5.documents = w.documents) := by
  have hf := PgWorld.exec_frame w
  unfold PostgresDocumentRepository.UpdateStatus at h
  split at h
  next err w1 hw =>
    rw [hw] at hf
    simp only at hf
    simp only [Prod.mk.injEq] at h
    obtain ⟨h1, h2⟩ := h
    subst h1 h2
    simp [hf.1]
  next w1 hw =>
    rw [hw] at hf
    simp only at hf
    split_ifs at h with hlen
    · simp only [Prod.mk.injEq] at h
      obtain ⟨h1, h2⟩ := h
      subst h1 h2
      simp [hf.1]
    · simp only [PgWorld.now, Prod.mk.injEq] at h
      obtain ⟨h1, h2⟩ := h
      subst h1 h2
      simp only [ne_eq, not_true_eq_false, false_implies, and_true, forall_const]
      exact ⟨w1.clock, by rw [hf.1]⟩

/-- Among rows with smaller identifiers, the row with identifier `n` is alone. -/
theorem filter_new_row (rows : List Document) (row : Document) (n : Int)
    (hWF : ∀ r ∈ rows, r.ID < n) (hrow : row.ID = n) :
    (rows ++ [row]).filter (fun r => r.ID = n) = [row] := by
  have h0 : rows.filter (fun r => decide (r.ID = n)) = [] := by
    rw [List.filter_eq_nil_iff]
    intro r hr
    have := hWF r hr
    simp only [decide_eq_true_eq]
    omega
  simp [List.filter_append, h0, hrow]

/-- C4: over the Postgres store (identifiers below the sequence), with the broker
client of the world and a producer that is present or nil: after a `CreateDocument`
in which `Create` succeeded on `d` and `SendDocument` returned an error, the store
holds exactly one row under the new identifier, it is the row of `d`, its status is
failed when the status write returned no error and pending when it returned one, it
is never processing, and `Delete` was not called. -/
theorem C4_row_failed_or_pending (enc : Encoding) (topic : Option String)
    (userExternalID : UUID) (documentType filename contentType fileContent : String)
    (categories : Option (List String)) (w : PgWorld)
    (hWF : ∀ r ∈ w.documents, r.ID < w.nextDocumentID)
    (d : Document) (e : GoError)
    (hCreate : Call.RepoCreate d none ∈
      ((mainService enc (topic.map pgProducer)).CreateDocument userExternalID
        documentType filename contentType fileContent categories ⟨w, []⟩).2.trace)
    (hSend : Call.SendDocumentReturn (some e) ∈
      ((mainService enc (topic.map pgProducer)).CreateDocument userExternalID
        documentType filename contentType fileContent categories ⟨w, []⟩).2.trace) :
    ∃ (row : Document) (uerr : Option GoError),
      ((mainService enc (topic.map pgProducer)).CreateDocument userExternalID
        documentType filename contentType fileContent categories
        ⟨w, []⟩).2.world.documents.filter (fun r => r.ID = w.nextDocumentID) = [row] ∧
      row.ExternalID = d.ExternalID ∧ row.UserID = d.UserID ∧
      row.Filename = d.Filename ∧ row.FileContent = d.FileContent ∧
      updateStatusCalls ((mainService enc (topic.map pgProducer)).CreateDocument
        userExternalID documentType filename contentType fileContent categories
        ⟨w, []⟩).2.trace = [(w.nextDocumentID, DocumentStatusFailed)] ∧
      Call.RepoUpdateStatus w.nextDocumentID DocumentStatusFailed uerr ∈
        ((mainService enc (topic.map pgProducer)).CreateDocument userExternalID
          documentType filename contentType fileContent categories ⟨w, []⟩).2.trace ∧
      (uerr = none → row.Status = DocumentStatusFailed) ∧
      (uerr ≠ none → row.Status = DocumentStatusPending) ∧
      row.Status ≠ DocumentStatusProcessing ∧
      deleteCalls ((mainService enc (topic.map pgProducer)).CreateDocument userExternalID
        documentType filename contentType fileContent categories ⟨w, []⟩).2.trace = [] := by
  rcases CreateDocument_paths (mainService enc (topic.map pgProducer)) userExternalID
      documentType filename contentType fileContent categories w with
    ⟨u, e1, w1, h1, hrun⟩ | ⟨w1, h1, hrun⟩ | ⟨u, w1, e1, h1, h2, hrun⟩ |
    ⟨u, w1, d0, w2, d1, e1, w3, h1, h2, h3, hrun⟩ |
    ⟨u, w1, d0, w2, d1, w3, ps, msg, w4, h1, h2, h3, hps, h4, hrun⟩ |
    ⟨u, w1, d0, w2, d1, w3, ps, e1, w4, uerr, w5, h1, h2, h3, hps, h4, h5, hrun⟩ |
    ⟨u, w1, d0, w2, d1, w3, ps, w4, d2, w5, uerr, w6, h1, h2, h3, hps, h4, h5, h6, hrun⟩
  · simp [hrun] at hSend
  · simp [hrun] at hSend
  · simp [hrun] at hSend
  · simp [hrun] at hSend
  · rcases hps with rfl | ⟨m, pe, rfl⟩ <;> simp [hrun, sendTrace] at hSend
  · -- the frame of each step
    have hd : d = { d0 with Status := DocumentStatusPending } := by
      rcases hps with rfl | ⟨m, pe, rfl⟩ <;> simpa [hrun, sendTrace] using hCreate
    have f1 := PostgresUserRepository.FindByExternalID_frame userExternalID w
    have f2 := NewDocument_frame u.ID documentType filename contentType fileContent
      categories w1
    have f3 := PostgresDocumentRepository.Create_ok _ _ _ _ h3
    have f4 := SendDocument_world enc topic d1 ⟨w3, sendTrace userExternalID u d0 d1 []⟩
    have f5 := PostgresDocumentRepository.UpdateStatus_effect _ _ _ _ _ h5
    simp only [mainService, NewDocumentService, NewPostgresUserRepository] at h1 h2 h4
    rw [h1] at f1
    rw [h2] at f2
    rw [h4] at f4
    simp only at f1 f2 f4
    have hn : w2.nextDocumentID = w.nextDocumentID := by rw [f2.2, f1.2]
    have hdocs : w2.documents = w.documents := by rw [f2.1, f1.1]
    have hid : d1.ID = w.nextDocumentID := by rw [f3.1, hn]
    have hw4 : w4.documents = w.documents ++ [d1] := by rw [f4, f3.2.1, hdocs]
    have htr : updateStatusCalls (sendTrace userExternalID u d0 d1 ps ++
        [Call.SendDocumentReturn (some e1),
         Call.RepoUpdateStatus d1.ID DocumentStatusFailed uerr])
        = [(w.nextDocumentID, DocumentStatusFailed)] := by
      rcases hps with rfl | ⟨m, pe, rfl⟩ <;> simp [sendTrace, updateStatusCalls, hid]
    have hdel : deleteCalls (sendTrace userExternalID u d0 d1 ps ++
        [Call.SendDocumentReturn (some e1),
         Call.RepoUpdateStatus d1.ID DocumentStatusFailed uerr]) = [] := by
      rcases hps with rfl | ⟨m, pe, rfl⟩ <;> simp [sendTrace, deleteCalls]
    rw [hrun]
    simp only [htr, hdel, List.mem_append, List.mem_cons, List.mem_singleton,
      List.not_mem_nil, or_false, and_true, true_and]
    cases uerr with
    | none =>
      obtain ⟨now, hw5⟩ := f5.1 rfl
      refine ⟨{ d1 with Status := DocumentStatusFailed, UpdatedAt := now }, none, ?_,
        by rw [f3.1, hd], by rw [f3.1, hd], by rw [f3.1, hd], by rw [f3.1, hd],
        Or.inr (Or.inr (by rw [hid])), fun _ => rfl,
        fun h => absurd rfl h,
        (by decide : DocumentStatusFailed ≠ DocumentStatusProcessing)⟩
      rw [hw5, hw4, List.map_append, List.map_singleton, if_pos rfl, ← hid]
      apply filter_new_row
      · intro r hr
        rw [List.mem_map] at hr
        obtain ⟨r0, hr0, rfl⟩ := hr
        have := hWF r0 hr0
        rw [hid]
        split_ifs
        · exact this
        · exact this
      · rfl
    | some ue =>
      have hw5 := f5.2 (by simp)
      refine ⟨d1, some ue, ?_,
        by rw [f3.1, hd], by rw [f3.1, hd], by rw [f3.1, hd], by rw [f3.1, hd],
        Or.inr (Or.inr (by rw [hid])), fun h => by simp at h,
        fun _ => by rw [f3.1], by
          rw [f3.1]
          exact (by decide : DocumentStatusPending ≠ DocumentStatusProcessing)⟩
      rw [hw5, hw4]
      exact filter_new_row _ _ _ hWF hid
  · rcases hps with rfl | ⟨m, pe, rfl⟩ <;> simp [hrun, sendTrace] at hSend

end Stored

/-! ## Evaluation at concrete inputs -/

section Concrete

/-- C1 (witness): a valid upload for `alice` with the broker up. -/
theorem C1_witness :
    (svcUp.userRepo.FindByExternalID ⟨1001⟩ world0).1 = (some alice, none) ∧
    (NewDocument svcUp.rt alice.ID "invoice" "a.pdf" "application/pdf" "QUJD" none
      (svcUp.userRepo.FindByExternalID ⟨1001⟩ world0).2).1.2 = none ∧
    ∃ d0 : Document,
      createCalls (svcUp.CreateDocument ⟨1001⟩ "invoice" "a.pdf" "application/pdf" "QUJD"
        none ⟨world0, []⟩).2.trace = [d0] ∧
      d0.Status = DocumentStatusPending ∧ d0.UserID = alice.ID ∧
      ∀ pre sd post,
        (svcUp.CreateDocument ⟨1001⟩ "invoice" "a.pdf" "application/pdf" "QUJD"
          none ⟨world0, []⟩).2.trace = pre ++ Call.SendDocument sd :: post →
        Call.RepoCreate d0 none ∈ pre :=
  ⟨by decide, by decide,
    C1_create_once_before_send svcUp ⟨1001⟩ "invoice" "a.pdf" "application/pdf" "QUJD"
      none world0 alice (by decide) (by decide)⟩

/-- C2 (witness): a valid upload when the broker does not acknowledge in time. -/
theorem C2_witness :
    Call.SendDocumentReturn (some (.new "timeout ao aguardar confirmação de entrega")) ∈
      (svcUp.CreateDocument ⟨1001⟩ "invoice" "a.pdf" "application/pdf" "QUJD"
        none ⟨worldTimeout, []⟩).2.trace ∧
    ∃ (sd : Document) (uerr : Option GoError) (err : GoError),
      (svcUp.CreateDocument ⟨1001⟩ "invoice" "a.pdf" "application/pdf" "QUJD"
        none ⟨worldTimeout, []⟩).1 = .returned (none, some err) ∧
      err = .wrap "erro ao enviar documento para processamento: "
        (.new "timeout ao aguardar confirmação de entrega") ∧
      err.Unwrap = some (.new "timeout ao aguardar confirmação de entrega") ∧
      sendCalls (svcUp.CreateDocument ⟨1001⟩ "invoice" "a.pdf" "application/pdf" "QUJD"
        none ⟨worldTimeout, []⟩).2.trace = [sd] ∧
      updateStatusCalls (svcUp.CreateDocument ⟨1001⟩ "invoice" "a.pdf" "application/pdf"
        "QUJD" none ⟨worldTimeout, []⟩).2.trace = [(sd.ID, DocumentStatusFailed)] ∧
      Call.RepoUpdateStatus sd.ID DocumentStatusFailed uerr ∈
        (svcUp.CreateDocument ⟨1001⟩ "invoice" "a.pdf" "application/pdf" "QUJD"
          none ⟨worldTimeout, []⟩).2.trace :=
  ⟨by decide,
    C2_dispatch_failure svcUp ⟨1001⟩ "invoice" "a.pdf" "application/pdf" "QUJD" none
      worldTimeout _ (by decide)⟩

/-- C3 (witness): a valid upload that is acknowledged, after which the database
refuses the status write. -/
theorem C3_witness :
    Call.SendDocumentReturn none ∈
      (svcUp.CreateDocument ⟨1001⟩ "invoice" "a.pdf" "application/pdf" "QUJD"
        none ⟨worldUpdateFails, []⟩).2.trace ∧
    ∃ (doc : Document) (uerr : Option GoError),
      (svcUp.CreateDocument ⟨1001⟩ "invoice" "a.pdf" "application/pdf" "QUJD"
        none ⟨worldUpdateFails, []⟩).1 = .returned (some doc, none) ∧
      doc.Status = DocumentStatusProcessing ∧
      updateStatusCalls (svcUp.CreateDocument ⟨1001⟩ "invoice" "a.pdf" "application/pdf"
        "QUJD" none ⟨worldUpdateFails, []⟩).2.trace = [(doc.ID, DocumentStatusProcessing)] ∧
      Call.RepoUpdateStatus doc.ID DocumentStatusProcessing uerr ∈
        (svcUp.CreateDocument ⟨1001⟩ "invoice" "a.pdf" "application/pdf" "QUJD"
          none ⟨worldUpdateFails, []⟩).2.trace :=
  ⟨by decide,
    C3_dispatch_success svcUp ⟨1001⟩ "invoice" "a.pdf" "application/pdf" "QUJD" none
      worldUpdateFails (by decide)⟩

/-- In `worldUpdateFails` the follow-up status write does fail, and the call still
returns the document in status processing. -/
theorem C3_update_fails_example :
    Call.RepoUpdateStatus 1 DocumentStatusProcessing
        (some (.wrap "error updating document status: " (.new "pq: connection reset"))) ∈
      (svcUp.CreateDocument ⟨1001⟩ "invoice" "a.pdf" "application/pdf" "QUJD"
        none ⟨worldUpdateFails, []⟩).2.trace ∧
    ((svcUp.CreateDocument ⟨1001⟩ "invoice" "a.pdf" "application/pdf" "QUJD"
        none ⟨worldUpdateFails, []⟩).2.world.documents.map (fun r => r.Status))
      = [DocumentStatusPending] := by
  decide

/-- C5 (witness): a valid upload when the database refuses the INSERT. -/
theorem C5_witness :
    Call.RepoCreate sampleDocument
        (some (.wrap "error creating document: " (.new "pq: disk full"))) ∈
      (svcUp.CreateDocument ⟨1001⟩ "invoice" "a.pdf" "application/pdf" "QUJD"
        none ⟨worldInsertFails, []⟩).2.trace ∧
    ∃ err : GoError,
      (svcUp.CreateDocument ⟨1001⟩ "invoice" "a.pdf" "application/pdf" "QUJD"
        none ⟨worldInsertFails, []⟩).1 = .returned (none, some err) ∧
      err = .wrap "erro ao salvar documento: "
        (.wrap "error creating document: " (.new "pq: disk full")) ∧
      err.Unwrap = some (.wrap "error creating document: " (.new "pq: disk full")) ∧
      sendCalls (svcUp.CreateDocument ⟨1001⟩ "invoice" "a.pdf" "application/pdf" "QUJD"
        none ⟨worldInsertFails, []⟩).2.trace = [] ∧
      updateStatusCalls (svcUp.CreateDocument ⟨1001⟩ "invoice" "a.pdf" "application/pdf"
        "QUJD" none ⟨worldInsertFails, []⟩).2.trace = [] :=
  ⟨by decide,
    C5_persistence_failure svcUp ⟨1001⟩ "invoice" "a.pdf" "application/pdf" "QUJD" none
      worldInsertFails sampleDocument _ (by decide)⟩

/-- C6 (witness): an upload for a handle no user has. -/
theorem C6_witness :
    (svcUp.userRepo.FindByExternalID ⟨4242⟩ world0).1 = (none, none) ∧
    (svcUp.CreateDocument ⟨4242⟩ "invoice" "a.pdf" "application/pdf" "QUJD"
      none ⟨world0, []⟩).1 = .returned (none, some ErrUserNotFoundForDocument) ∧
    createCalls (svcUp.CreateDocument ⟨4242⟩ "invoice" "a.pdf" "application/pdf" "QUJD"
      none ⟨world0, []⟩).2.trace = [] ∧
    sendCalls (svcUp.CreateDocument ⟨4242⟩ "invoice" "a.pdf" "application/pdf" "QUJD"
      none ⟨world0, []⟩).2.trace = [] :=
  ⟨by decide,
    C6_owner_not_found svcUp ⟨4242⟩ "invoice" "a.pdf" "application/pdf" "QUJD" none
      world0 (by decide)⟩

/-- C7 (witness): an upload for `alice` with an empty filename. -/
theorem C7_witness :
    (svcUp.userRepo.FindByExternalID ⟨1001⟩ world0).1 = (some alice, none) ∧
    (("invoice" : String) = "" ∨ ("" : String) = "" ∨ ("QUJD" : String) = "" ∨
      alice.ID ≤ 0) ∧
    ∃ e : GoError,
      (NewDocument svcUp.rt alice.ID "invoice" "" "application/pdf" "QUJD" none
        (svcUp.userRepo.FindByExternalID ⟨1001⟩ world0).2).1 = (none, some e) ∧
      (svcUp.CreateDocument ⟨1001⟩ "invoice" "" "application/pdf" "QUJD"
        none ⟨world0, []⟩).1 = .returned (none, some e) ∧
      createCalls (svcUp.CreateDocument ⟨1001⟩ "invoice" "" "application/pdf" "QUJD"
        none ⟨world0, []⟩).2.trace = [] ∧
      sendCalls (svcUp.CreateDocument ⟨1001⟩ "invoice" "" "application/pdf" "QUJD"
        none ⟨world0, []⟩).2.trace = [] :=
  ⟨by decide, by decide,
    C7_construction_failure svcUp ⟨1001⟩ "invoice" "" "application/pdf" "QUJD" none
      world0 alice (by decide) (by decide)⟩

/-- C8 (counterexample): in `worldDbDown` the user lookup returns the error
`lookupError`, and the error `CreateDocument` returns is not `lookupError` itself
but the error that wraps it. -/
theorem C8_counterexample :
    (svcUp.userRepo.FindByExternalID ⟨1001⟩ worldDbDown).1 = (none, some lookupError) ∧
    (svcUp.CreateDocument ⟨1001⟩ "invoice" "a.pdf" "application/pdf" "QUJD"
      none ⟨worldDbDown, []⟩).1
      = .returned (none, some (.wrap "erro ao buscar usuário: " lookupError)) ∧
    (svcUp.CreateDocument ⟨1001⟩ "invoice" "a.pdf" "application/pdf" "QUJD"
      none ⟨worldDbDown, []⟩).1 ≠ .returned (none, some lookupError) := by
  decide

/-- C8 (witness): an upload when the database refuses the user lookup. -/
theorem C8_witness :
    (svcUp.userRepo.FindByExternalID ⟨1001⟩ worldDbDown).1.2 = some lookupError ∧
    ∃ err : GoError,
      (svcUp.CreateDocument ⟨1001⟩ "invoice" "a.pdf" "application/pdf" "QUJD"
        none ⟨worldDbDown, []⟩).1 = .returned (none, some err) ∧
      err = .wrap "erro ao buscar usuário: " lookupError ∧
      err.Unwrap = some lookupError ∧
      err.Error = "erro ao buscar usuário: " ++ lookupError.Error ∧
      err ≠ lookupError ∧
      createCalls (svcUp.CreateDocument ⟨1001⟩ "invoice" "a.pdf" "application/pdf" "QUJD"
        none ⟨worldDbDown, []⟩).2.trace = [] ∧
      sendCalls (svcUp.CreateDocument ⟨1001⟩ "invoice" "a.pdf" "application/pdf" "QUJD"
        none ⟨worldDbDown, []⟩).2.trace = [] :=
  ⟨by decide,
    C8_lookup_error_wrapped svcUp ⟨1001⟩ "invoice" "a.pdf" "application/pdf" "QUJD" none
      worldDbDown lookupError (by decide)⟩

/-- C9 (failing input): the service built with the nil producer, on a valid upload
for an existing user with the database up. `CreateDocument` panics on the nil
pointer inside `SendDocument`: no error is returned, `UpdateStatus` is never called,
and the one row created is left in status pending. -/
theorem C9_nil_producer_panics :
    (svcNoProducer.CreateDocument ⟨1001⟩ "invoice" "a.pdf" "application/pdf" "QUJD"
      none ⟨world0, []⟩).1 = .panicked nilDereference ∧
    updateStatusCalls (svcNoProducer.CreateDocument ⟨1001⟩ "invoice" "a.pdf"
      "application/pdf" "QUJD" none ⟨world0, []⟩).2.trace = [] ∧
    ((svcNoProducer.CreateDocument ⟨1001⟩ "invoice" "a.pdf" "application/pdf" "QUJD"
      none ⟨world0, []⟩).2.world.documents.map (fun r => (r.ID, r.Status)))
      = [(1, DocumentStatusPending)] := by
  decide

/-- C10 (counterexample): with `userID = 0` and an empty `documentType`,
`NewDocument` fails with `ErrInvalidDocumentUserID`, not with
`ErrInvalidDocumentType`. -/
theorem C10_counterexample :
    (NewDocument pgRuntime 0 "" "a.pdf" "application/pdf" "QUJD" none world0).1
      = (none, some ErrInvalidDocumentUserID) ∧
    (NewDocument pgRuntime 0 "" "a.pdf" "application/pdf" "QUJD" none world0).1
      ≠ (none, some ErrInvalidDocumentType) := by
  decide

/-- C4 (witness): the broker rejects the hand-off and the status write succeeds. -/
theorem C4_witness :
    (∀ r ∈ worldRejected.documents, r.ID < worldRejected.nextDocumentID) ∧
    Call.RepoCreate sampleDocument none ∈
      ((mainService okEncoding ((some "documents").map pgProducer)).CreateDocument ⟨1001⟩
        "invoice" "a.pdf" "application/pdf" "QUJD" none ⟨worldRejected, []⟩).2.trace ∧
    Call.SendDocumentReturn
        (some (.wrap "erro ao produzir mensagem: " (.new "Local: Queue full"))) ∈
      ((mainService okEncoding ((some "documents").map pgProducer)).CreateDocument ⟨1001⟩
        "invoice" "a.pdf" "application/pdf" "QUJD" none ⟨worldRejected, []⟩).2.trace ∧
    ∃ (row : Document) (uerr : Option GoError),
      ((mainService okEncoding ((some "documents").map pgProducer)).CreateDocument ⟨1001⟩
        "invoice" "a.pdf" "application/pdf" "QUJD" none
        ⟨worldRejected, []⟩).2.world.documents.filter
          (fun r => r.ID = worldRejected.nextDocumentID) = [row] ∧
      row.ExternalID = sampleDocument.ExternalID ∧ row.UserID = sampleDocument.UserID ∧
      row.Filename = sampleDocument.Filename ∧
      row.FileContent = sampleDocument.FileContent ∧
      updateStatusCalls ((mainService okEncoding
        ((some "documents").map pgProducer)).CreateDocument ⟨1001⟩
        "invoice" "a.pdf" "application/pdf" "QUJD" none ⟨worldRejected, []⟩).2.trace
        = [(worldRejected.nextDocumentID, DocumentStatusFailed)] ∧
      Call.RepoUpdateStatus worldRejected.nextDocumentID DocumentStatusFailed uerr ∈
        ((mainService okEncoding ((some "documents").map pgProducer)).CreateDocument
          ⟨1001⟩ "invoice" "a.pdf" "application/pdf" "QUJD" none
          ⟨worldRejected, []⟩).2.trace ∧
      (uerr = none → row.Status = DocumentStatusFailed) ∧
      (uerr ≠ none → row.Status = DocumentStatusPending) ∧
      row.Status ≠ DocumentStatusProcessing ∧
      deleteCalls ((mainService okEncoding
        ((some "documents").map pgProducer)).CreateDocument ⟨1001⟩
        "invoice" "a.pdf" "application/pdf" "QUJD" none ⟨worldRejected, []⟩).2.trace = [] :=
  ⟨by decide, by decide, by decide,
    C4_row_failed_or_pending okEncoding (some "documents") ⟨1001⟩ "invoice" "a.pdf"
      "application/pdf" "QUJD" none worldRejected (by decide) sampleDocument
      (.wrap "erro ao produzir mensagem: " (.new "Local: Queue full"))
      (by decide) (by decide)⟩

/-- The two outcomes of the status write after a rejected hand-off: with the
database up the new row ends failed; when the database refuses the UPDATE it stays
pending. The older row is untouched in both. -/
theorem C4_both_outcomes_example :
    ((svcUp.CreateDocument ⟨1001⟩ "invoice" "a.pdf" "application/pdf" "QUJD" none
      ⟨worldRejected, []⟩).2.world.documents.map (fun r => (r.ID, r.Status)))
      = [(1, DocumentStatusProcessed), (2, DocumentStatusFailed)] ∧
    ((svcUp.CreateDocument ⟨1001⟩ "invoice" "a.pdf" "application/pdf" "QUJD" none
      ⟨{ worldRejected with dbFaults := [none, none, some (.new "pq: connection reset")] },
        []⟩).2.world.documents.map (fun r => (r.ID, r.Status)))
      = [(1, DocumentStatusProcessed), (2, DocumentStatusPending)] := by
  decide

end Concrete

/-! ## Claims on the entity -/

section Entity

variable {σ : Type}

/-- C11: for every valid input, `NewDocument` returns a document and no error; the
document has status pending, `CreatedAt` equal to `UpdatedAt` (the one reading of
the clock), `UserID`, `DocumentType`, `Filename`, `ContentType` and `FileContent`
equal to the arguments, and `Categories` equal to the argument list, the empty
list when the argument is nil. -/
theorem C11_NewDocument_fields (rt : Runtime σ) (userID : Int)
    (documentType filename contentType fileContent : String)
    (categories : Option (List String)) (w : σ)
    (hID : 0 < userID) (hType : documentType ≠ "") (hName : filename ≠ "")
    (hContent : fileContent ≠ "") :
    ∃ d : Document,
      (NewDocument rt userID documentType filename contentType fileContent
        categories w).1 = (some d, none) ∧
      d.Status = DocumentStatusPending ∧
      d.CreatedAt = d.UpdatedAt ∧ d.CreatedAt = (rt.timeNow w).1 ∧
      d.UserID = userID ∧ d.DocumentType = documentType ∧ d.Filename = filename ∧
      d.ContentType = contentType ∧ d.FileContent = fileContent ∧
      (∀ c, categories = some c → d.Categories = some c) ∧
      (categories = none → d.Categories = some []) := by
  have hID' : ¬ userID ≤ 0 := by omega
  refine ⟨{ ID := 0
            ExternalID := (rt.uuidNew (rt.timeNow w).2).1
            UserID := userID
            DocumentType := documentType
            Filename := filename
            ContentType := contentType
            FileContent := fileContent
            Categories := some (categories.getD [])
            Status := DocumentStatusPending
            CreatedAt := (rt.timeNow w).1
            UpdatedAt := (rt.timeNow w).1 }, ?_, ?_⟩
  · simp only [NewDocument, hID', hType, hName, hContent, if_false]
    cases categories <;> rfl
  · refine ⟨rfl, rfl, rfl, rfl, rfl, rfl, rfl, rfl, ?_, ?_⟩
    · intro c hc
      subst hc
      rfl
    · intro hc
      subst hc
      rfl

/-- C15: `UpdateStatus s` sets `Status` to `s` and `UpdatedAt` to the reading of the
clock and leaves the nine other fields as they are; `UpdateCategories c` sets
`Categories` to `c` and `UpdatedAt` to the reading of the clock and leaves the nine
other fields, `Status` among them, as they are. -/
theorem C15_mutation_frame (rt : Runtime σ) (d : Document) (s : DocumentStatus)
    (c : Option (List String)) (w : σ) :
    ((d.UpdateStatus rt s w).1.Status = s ∧
      (d.UpdateStatus rt s w).1.UpdatedAt = (rt.timeNow w).1 ∧
      (d.UpdateStatus rt s w).1.ID = d.ID ∧
      (d.UpdateStatus rt s w).1.ExternalID = d.ExternalID ∧
      (d.UpdateStatus rt s w).1.UserID = d.UserID ∧
      (d.UpdateStatus rt s w).1.DocumentType = d.DocumentType ∧
      (d.UpdateStatus rt s w).1.Filename = d.Filename ∧
      (d.UpdateStatus rt s w).1.ContentType = d.ContentType ∧
      (d.UpdateStatus rt s w).1.FileContent = d.FileContent ∧
      (d.UpdateStatus rt s w).1.Categories = d.Categories ∧
      (d.UpdateStatus rt s w).1.CreatedAt = d.CreatedAt) ∧
    ((d.UpdateCategories rt c w).1.Categories = c ∧
      (d.UpdateCategories rt c w).1.UpdatedAt = (rt.timeNow w).1 ∧
      (d.UpdateCategories rt c w).1.ID = d.ID ∧
      (d.UpdateCategories rt c w).1.ExternalID = d.ExternalID ∧
      (d.UpdateCategories rt c w).1.UserID = d.UserID ∧
      (d.UpdateCategories rt c w).1.DocumentType = d.DocumentType ∧
      (d.UpdateCategories rt c w).1.Filename = d.Filename ∧
      (d.UpdateCategories rt c w).1.ContentType = d.ContentType ∧
      (d.UpdateCategories rt c w).1.FileContent = d.FileContent ∧
      (d.UpdateCategories rt c w).1.Status = d.Status ∧
      (d.UpdateCategories rt c w).1.CreatedAt = d.CreatedAt) :=
  ⟨⟨rfl, rfl, rfl, rfl, rfl, rfl, rfl, rfl, rfl, rfl, rfl⟩,
   ⟨rfl, rfl, rfl, rfl, rfl, rfl, rfl, rfl, rfl, rfl, rfl⟩⟩

/-- C18 (amended): `Document.Validate` does not look at `Status`: it returns no error
exactly when `UserID` is positive and `DocumentType`, `Filename` and `FileContent`
are non-empty, and its result is the same for every status value. A status outside
the four values is turned away earlier, by the status switch of the update handler,
which lets exactly pending, processing, processed and failed through, unchanged. -/
theorem C18_Validate_ignores_status (d : Document) (s : DocumentStatus) :
    (d.Validate = none ↔
      0 < d.UserID ∧ d.DocumentType ≠ "" ∧ d.Filename ≠ "" ∧ d.FileContent ≠ "") ∧
    ({ d with Status := s } : Document).Validate = d.Validate ∧
    (statusFromRequest s = none ↔
      s ≠ DocumentStatusPending ∧ s ≠ DocumentStatusProcessing ∧
      s ≠ DocumentStatusProcessed ∧ s ≠ DocumentStatusFailed) ∧
    (∀ st, statusFromRequest s = some st → st = s) := by
  refine ⟨?_, rfl, ?_, ?_⟩
  · unfold Document.Validate
    split_ifs with h1 h2 h3 h4
    · simp; intro h; omega
    · simp [h2]
    · simp [h3]
    · simp [h4]
    · simp only [true_iff]
      exact ⟨by omega, h2, h3, h4⟩
  · unfold statusFromRequest DocumentStatusPending DocumentStatusProcessing
      DocumentStatusProcessed DocumentStatusFailed
    split_ifs with h1 h2 h3 h4 <;> simp [*]
  · intro st
    unfold statusFromRequest DocumentStatusPending DocumentStatusProcessing
      DocumentStatusProcessed DocumentStatusFailed
    split_ifs with h1 h2 h3 h4
    · intro h; rw [h1]; exact (Option.some.inj h).symm
    · intro h; rw [h2]; exact (Option.some.inj h).symm
    · intro h; rw [h3]; exact (Option.some.inj h).symm
    · intro h; rw [h4]; exact (Option.some.inj h).symm
    · intro h; cases h

end Entity

/-! ## Claims on the pass-through operations -/

section PassThrough

variable {σ : Type} (svc : DocumentService σ)

/-- C16: for every stored document `doc`, whatever its status, and every requested
status, when the store's `Update` returns no error (and, like the Postgres one,
leaves the document behind the pointer as it is), `UpdateDocumentStatus` returns
the document with `Status` equal to the requested status and hands exactly that
document to `Update`, once; the current status plays no part. -/
theorem C16_any_transition_accepted (externalID : UUID) (status : DocumentStatus)
    (w : σ) (doc : Document)
    (hFind : (svc.repo.FindByExternalID externalID w).1 = (some doc, none))
    (hUpdate : (svc.repo.Update
        (doc.UpdateStatus svc.rt status (svc.repo.FindByExternalID externalID w).2).1
        (doc.UpdateStatus svc.rt status (svc.repo.FindByExternalID externalID w).2).2).1
      = ((doc.UpdateStatus svc.rt status (svc.repo.FindByExternalID externalID w).2).1,
          none)) :
    ∃ d1 : Document,
      (svc.UpdateDocumentStatus externalID status ⟨w, []⟩).1 = (some d1, none) ∧
      d1.Status = status ∧
      d1 = { doc with Status := status, UpdatedAt := d1.UpdatedAt } ∧
      updateCalls (svc.UpdateDocumentStatus externalID status ⟨w, []⟩).2.trace = [d1] := by
  have h1 : svc.repo.FindByExternalID externalID w
      = ((some doc, none), (svc.repo.FindByExternalID externalID w).2) :=
    Prod.ext hFind rfl
  have h2 : svc.repo.Update
        (doc.UpdateStatus svc.rt status (svc.repo.FindByExternalID externalID w).2).1
        (doc.UpdateStatus svc.rt status (svc.repo.FindByExternalID externalID w).2).2
      = (((doc.UpdateStatus svc.rt status (svc.repo.FindByExternalID externalID w).2).1,
          none), (svc.repo.Update
        (doc.UpdateStatus svc.rt status (svc.repo.FindByExternalID externalID w).2).1
        (doc.UpdateStatus svc.rt status
          (svc.repo.FindByExternalID externalID w).2).2).2) :=
    Prod.ext hUpdate rfl
  refine ⟨(doc.UpdateStatus svc.rt status (svc.repo.FindByExternalID externalID w).2).1,
    ?_, rfl, rfl, ?_⟩
  · unfold DocumentService.UpdateDocumentStatus
    simp only
    rw [h1]
    simp only
    rw [h2]
  · unfold DocumentService.UpdateDocumentStatus
    simp only
    rw [h1]
    simp only
    rw [h2]
    simp [Sys.log, updateCalls]

/-- C19: when the store's `FindByExternalID` returns no document and no error,
`GetDocumentByExternalID`, `UpdateDocumentStatus` and `DeleteDocument` return
`ErrDocumentNotFound` and call neither `Update` nor `Delete`; when it returns an
error they return that same error; when it returns a document, `DeleteDocument`
calls the store's `Delete` once, with the document's internal ID, whatever its
status, and returns what `Delete` returns. -/
theorem C19_not_found_and_errors (externalID : UUID) (status : DocumentStatus) (w : σ) :
    ((svc.repo.FindByExternalID externalID w).1 = (none, none) →
      (svc.GetDocumentByExternalID externalID ⟨w, []⟩).1
        = (none, some ErrDocumentNotFound) ∧
      (svc.UpdateDocumentStatus externalID status ⟨w, []⟩).1
        = (none, some ErrDocumentNotFound) ∧
      (svc.DeleteDocument externalID ⟨w, []⟩).1 = some ErrDocumentNotFound ∧
      updateCalls (svc.GetDocumentByExternalID externalID ⟨w, []⟩).2.trace = [] ∧
      deleteCalls (svc.GetDocumentByExternalID externalID ⟨w, []⟩).2.trace = [] ∧
      updateCalls (svc.UpdateDocumentStatus externalID status ⟨w, []⟩).2.trace = [] ∧
      deleteCalls (svc.UpdateDocumentStatus externalID status ⟨w, []⟩).2.trace = [] ∧
      updateCalls (svc.DeleteDocument externalID ⟨w, []⟩).2.trace = [] ∧
      deleteCalls (svc.DeleteDocument externalID ⟨w, []⟩).2.trace = []) ∧
    (∀ e, (svc.repo.FindByExternalID externalID w).1.2 = some e →
      (svc.GetDocumentByExternalID externalID ⟨w, []⟩).1 = (none, some e) ∧
      (svc.UpdateDocumentStatus externalID status ⟨w, []⟩).1 = (none, some e) ∧
      (svc.DeleteDocument externalID ⟨w, []⟩).1 = some e) ∧
    (∀ doc, (svc.repo.FindByExternalID externalID w).1 = (some doc, none) →
      deleteCalls (svc.DeleteDocument externalID ⟨w, []⟩).2.trace = [doc.ID] ∧
      (svc.DeleteDocument externalID ⟨w, []⟩).1
        = (svc.repo.Delete doc.ID (svc.repo.FindByExternalID externalID w).2).1) := by
  rcases hf : svc.repo.FindByExternalID externalID w with ⟨⟨fdoc, ferr⟩, w1⟩
  refine ⟨?_, ?_, ?_⟩
  · intro h
    simp only [Prod.mk.injEq] at h
    obtain ⟨rfl, rfl⟩ := h
    simp [DocumentService.GetDocumentByExternalID, DocumentService.UpdateDocumentStatus,
      DocumentService.DeleteDocument, hf, Sys.log, updateCalls, deleteCalls]
  · intro e h
    simp only at h
    subst h
    simp [DocumentService.GetDocumentByExternalID, DocumentService.UpdateDocumentStatus,
      DocumentService.DeleteDocument, hf]
  · intro doc h
    simp only [Prod.mk.injEq] at h
    obtain ⟨rfl, rfl⟩ := h
    simp [DocumentService.DeleteDocument, hf, Sys.log, deleteCalls]

end PassThrough

/-! ## Listing and the status path -/

section Listing

/-- What `ListDocuments` returns as total is the length of the page it returns,
for every store. -/
theorem ListDocuments_total {σ : Type} (svc : DocumentService σ) (page perPage : Int)
    (w : σ) (docs : List Document) (total : Int)
    (h : (svc.ListDocuments page perPage ⟨w, []⟩).1 = (some docs, total, none)) :
    total = docs.length := by
  unfold DocumentService.ListDocuments at h
  simp only at h
  split at h
  · simp at h
  · simp only [Prod.mk.injEq, Option.some.injEq, and_true] at h
    rw [← h.1, ← h.2]
    rfl
  · simp only [Prod.mk.injEq, Option.some.injEq, and_true] at h
    rw [← h.1, ← h.2]

/-- C20 (failing input): the store holds three documents, all of user 1. Asked for
page 1 with two per page, `ListDocuments` returns total 2; asked for page 2 it
returns total 1; only with a page that holds everything does it return 3. The
listing by user, on the same store and page, returns total 3 (`CountByUserID`). -/
theorem C20_total_is_page_length :
    worldThree.documents.length = 3 ∧
    (svcUp.ListDocuments 1 2 ⟨worldThree, []⟩).1.2 = (2, none) ∧
    (svcUp.ListDocuments 2 2 ⟨worldThree, []⟩).1.2 = (1, none) ∧
    (svcUp.ListDocuments 1 10 ⟨worldThree, []⟩).1.2 = (3, none) ∧
    (svcUp.GetDocumentsByUserExternalID ⟨1001⟩ 1 2 ⟨worldThree, []⟩).1.2 = (3, none) := by
  decide

/-- C17 (counterexample): `oldRow` is stored with status processed; after the step
`UpdateDocumentStatus(oldRow.ExternalID, pending)` it is stored with status pending,
which is not a move forward. -/
theorem C17_counterexample :
    storedStatus worldThree 1 = [DocumentStatusProcessed] ∧
    storedStatus (svcUp.serve (.updateStatus ⟨4999⟩ DocumentStatusPending) worldThree) 1
      = [DocumentStatusPending] ∧
    movesForward DocumentStatusProcessed DocumentStatusPending = false := by
  decide

end Listing

/-! ## What each step does to the documents table -/

section Frames

/-- With no fault pending, a statement is executed and the world stays. -/
theorem PgWorld.exec_nil (w : PgWorld) (h : w.dbFaults = []) : w.exec = (none, w) := by
  unfold PgWorld.exec
  rw [h]

/-- The document lookup leaves the documents table as it is. -/
theorem PostgresDocumentRepository.documentLookup_frame (externalID : UUID)
    (w : PgWorld) :
    (PostgresDocumentRepository.FindByExternalID externalID w).2.documents = w.documents ∧
    (PostgresDocumentRepository.FindByExternalID externalID w).2.nextDocumentID
      = w.nextDocumentID := by
  have h := PgWorld.exec_frame w
  unfold PostgresDocumentRepository.FindByExternalID
  split
  next err w1 hw => rw [hw] at h; exact h
  next w1 hw => rw [hw] at h; exact h

/-- The listing leaves the documents table as it is. -/
theorem PostgresDocumentRepository.List_frame (limit offset : Int) (w : PgWorld) :
    (PostgresDocumentRepository.List limit offset w).2.documents = w.documents := by
  have h := (PgWorld.exec_frame w).1
  unfold PostgresDocumentRepository.List
  split
  next err w1 hw => rw [hw] at h; exact h
  next w1 hw =>
    rw [hw] at h
    split_ifs <;> exact h

/-- The listing by user leaves the documents table as it is. -/
theorem PostgresDocumentRepository.FindByUserID_frame (userID limit offset : Int)
    (w : PgWorld) :
    (PostgresDocumentRepository.FindByUserID userID limit offset w).2.documents
      = w.documents := by
  have h := (PgWorld.exec_frame w).1
  unfold PostgresDocumentRepository.FindByUserID
  split
  next err w1 hw => rw [hw] at h; exact h
  next w1 hw =>
    rw [hw] at h
    split_ifs <;> exact h

/-- The count leaves the documents table as it is. -/
theorem PostgresDocumentRepository.CountByUserID_frame (userID : Int) (w : PgWorld) :
    (PostgresDocumentRepository.CountByUserID userID w).2.documents = w.documents := by
  have h := (PgWorld.exec_frame w).1
  unfold PostgresDocumentRepository.CountByUserID
  split
  next err w1 hw => rw [hw] at h; exact h
  next w1 hw => rw [hw] at h; exact h

/-- A refused `Create` leaves the documents table as it is. -/
theorem PostgresDocumentRepository.Create_refused (d d1 : Document) (e : GoError)
    (w w3 : PgWorld)
    (h : PostgresDocumentRepository.Create d w = ((d1, some e), w3)) :
    w3.documents = w.documents := by
  have hf := (PgWorld.exec_frame w).1
  unfold PostgresDocumentRepository.Create at h
  split at h
  next err w1 hw =>
    rw [hw] at hf
    simp only [Prod.mk.injEq] at h
    rw [← h.2]
    exact hf
  next w1 hw => simp at h

/-- A `Delete` only removes rows. -/
theorem PostgresDocumentRepository.Delete_subset (id : Int) (w : PgWorld) :
    ∀ row ∈ (PostgresDocumentRepository.Delete id w).2.documents, row ∈ w.documents := by
  have hf := (PgWorld.exec_frame w).1
  unfold PostgresDocumentRepository.Delete
  split
  next err w1 hw =>
    rw [hw] at hf
    intro row hrow
    exact hf ▸ hrow
  next w1 hw =>
    rw [hw] at hf
    simp only at hf
    split_ifs
    · intro row hrow
      exact hf ▸ hrow
    · intro row hrow
      simp only [List.mem_filter] at hrow
      exact hf ▸ hrow.1

/-- A status write under the identifier of the newest row `d1` keeps the older
rows and leaves `d1` with its status or with the status written. -/
theorem UpdateStatus_new_row (rows : List Document) (d1 : Document) (n : Int)
    (st : DocumentStatus) (w w5 : PgWorld) (uerr : Option GoError)
    (hWF : ∀ r ∈ rows, r.ID < n) (hid : d1.ID = n)
    (hdocs : w.documents = rows ++ [d1])
    (h : PostgresDocumentRepository.UpdateStatus n st w = (uerr, w5)) :
    ∀ row ∈ w5.documents,
      row ∈ rows ∨ (row.ID = n ∧ (row.Status = d1.Status ∨ row.Status = st)) := by
  have hu := PostgresDocumentRepository.UpdateStatus_effect n st w w5 uerr h
  intro row hrow
  cases uerr with
  | none =>
    obtain ⟨now, hw5⟩ := hu.1 rfl
    rw [hw5, hdocs, List.mem_map] at hrow
    obtain ⟨r0, hr0, rfl⟩ := hrow
    rw [List.mem_append, List.mem_singleton] at hr0
    rcases hr0 with hr0 | rfl
    · left
      have := hWF r0 hr0
      rw [if_neg (by omega)]
      exact hr0
    · right
      rw [if_pos hid]
      exact ⟨hid, Or.inr rfl⟩
  | some e =>
    have hw5 := hu.2 (by simp)
    rw [hw5, hdocs, List.mem_append, List.mem_singleton] at hrow
    rcases hrow with hr0 | rfl
    · exact Or.inl hr0
    · exact Or.inr ⟨hid, Or.inl rfl⟩

end Frames

section Steps

/-- After `CreateDocument` every stored row is a row stored before, as it was, or
the new row, in status pending, processing or failed. -/
theorem CreateDocument_rows (enc : Encoding) (topic : Option String)
    (userExternalID : UUID) (documentType filename contentType fileContent : String)
    (categories : Option (List String)) (w : PgWorld)
    (hWF : ∀ r ∈ w.documents, r.ID < w.nextDocumentID) :
    ∀ row ∈ ((mainService enc (topic.map pgProducer)).CreateDocument userExternalID
        documentType filename contentType fileContent categories
        ⟨w, []⟩).2.world.documents,
      row ∈ w.documents ∨
      (row.ID = w.nextDocumentID ∧
        (row.Status = DocumentStatusPending ∨ row.Status = DocumentStatusProcessing ∨
          row.Status = DocumentStatusFailed)) := by
  have f1 := PostgresUserRepository.FindByExternalID_frame userExternalID w
  rcases CreateDocument_paths (mainService enc (topic.map pgProducer)) userExternalID
      documentType filename contentType fileContent categories w with
    ⟨u, e1, w1, h1, hrun⟩ | ⟨w1, h1, hrun⟩ | ⟨u, w1, e1, h1, h2, hrun⟩ |
    ⟨u, w1, d0, w2, d1, e1, w3, h1, h2, h3, hrun⟩ |
    ⟨u, w1, d0, w2, d1, w3, ps, msg, w4, h1, h2, h3, hps, h4, hrun⟩ |
    ⟨u, w1, d0, w2, d1, w3, ps, e1, w4, uerr, w5, h1, h2, h3, hps, h4, h5, hrun⟩ |
    ⟨u, w1, d0, w2, d1, w3, ps, w4, d2, w5, uerr, w6, h1, h2, h3, hps, h4, h5, h6, hrun⟩
  all_goals
    simp only [mainService, NewDocumentService, NewPostgresUserRepository] at h1
    rw [h1] at f1
    simp only at f1
    rw [hrun]
    simp only
  · intro row hrow
    exact Or.inl (f1.1 ▸ hrow)
  · intro row hrow
    exact Or.inl (f1.1 ▸ hrow)
  · intro row hrow
    exact Or.inl (f1.1 ▸ hrow)
  · have f2 := NewDocument_frame u.ID documentType filename contentType fileContent
      categories w1
    simp only [mainService, NewDocumentService] at h2
    rw [h2] at f2
    simp only at f2
    have f3 := PostgresDocumentRepository.Create_refused _ _ _ _ _ h3
    intro row hrow
    rw [f3, f2.1, f1.1] at hrow
    exact Or.inl hrow
  all_goals
    have f2 := NewDocument_frame u.ID documentType filename contentType fileContent
      categories w1
    simp only [mainService, NewDocumentService] at h2 h4
    rw [h2] at f2
    simp only at f2
    have f3 := PostgresDocumentRepository.Create_ok _ _ _ _ h3
    have f4 := SendDocument_world enc topic d1 ⟨w3, sendTrace userExternalID u d0 d1 []⟩
    rw [h4] at f4
    simp only at f4
    have hn : w2.nextDocumentID = w.nextDocumentID := by rw [f2.2, f1.2]
    have hdocs : w2.documents = w.documents := by rw [f2.1, f1.1]
    have hid : d1.ID = w.nextDocumentID := by rw [f3.1, hn]
    have hst : d1.Status = DocumentStatusPending := by rw [f3.1]
    have hw4 : w4.documents = w.documents ++ [d1] := by rw [f4, f3.2.1, hdocs]
  · intro row hrow
    rw [hw4, List.mem_append, List.mem_singleton] at hrow
    rcases hrow with hr | rfl
    · exact Or.inl hr
    · exact Or.inr ⟨hid, Or.inl hst⟩
  · intro row hrow
    have h5' : PostgresDocumentRepository.UpdateStatus w.nextDocumentID
        DocumentStatusFailed w4 = (uerr, w5) := by rw [← hid]; exact h5
    rcases UpdateStatus_new_row _ _ _ _ _ _ _ hWF hid hw4 h5' row hrow with hr | ⟨hi, hs⟩
    · exact Or.inl hr
    · rw [hst] at hs
      rcases hs with hs | hs
      · exact Or.inr ⟨hi, Or.inl hs⟩
      · exact Or.inr ⟨hi, Or.inr (Or.inr hs)⟩
  · intro row hrow
    simp only [Document.UpdateStatus, pgRuntime, PgWorld.now, Prod.mk.injEq] at h5
    obtain ⟨hd2, hw5⟩ := h5
    have hid2 : d2.ID = w.nextDocumentID := by rw [← hd2]; exact hid
    have hw5d : w5.documents = w.documents ++ [d1] := by rw [← hw5]; exact hw4
    have h6' : PostgresDocumentRepository.UpdateStatus w.nextDocumentID
        DocumentStatusProcessing w5 = (uerr, w6) := by rw [← hid2]; exact h6
    rcases UpdateStatus_new_row _ _ _ _ _ _ _ hWF hid hw5d h6' row hrow with hr | ⟨hi, hs⟩
    · exact Or.inl hr
    · rw [hst] at hs
      rcases hs with hs | hs
      · exact Or.inr ⟨hi, Or.inl hs⟩
      · exact Or.inr ⟨hi, Or.inr (Or.inl hs)⟩

end Steps

section Steps2

/-- A step other than `CreateDocument` and `UpdateDocumentStatus` stores no row
that was not stored before, as it was. -/
theorem reads_and_delete_rows (enc : Encoding) (p : Option (Producer PgWorld))
    (w : PgWorld) :
    (∀ ext, ∀ row ∈ ((mainService enc p).serve (.delete ext) w).documents,
      row ∈ w.documents) ∧
    (∀ ext, ((mainService enc p).serve (.get ext) w).documents = w.documents) ∧
    (∀ u page perPage,
      ((mainService enc p).serve (.listByUser u page perPage) w).documents
        = w.documents) ∧
    (∀ page perPage,
      ((mainService enc p).serve (.list page perPage) w).documents = w.documents) := by
  refine ⟨?_, ?_, ?_, ?_⟩
  · intro ext
    have f1 := (PostgresDocumentRepository.documentLookup_frame ext w).1
    simp only [DocumentService.serve, DocumentService.DeleteDocument, mainService,
      NewDocumentService, NewPostgresDocumentRepository]
    split
    next d e w1 h1 => rw [h1] at f1; intro row hrow; exact f1 ▸ hrow
    next w1 h1 => rw [h1] at f1; intro row hrow; exact f1 ▸ hrow
    next d w1 h1 =>
      rw [h1] at f1
      simp only at f1
      intro row hrow
      have := PostgresDocumentRepository.Delete_subset d.ID w1 row hrow
      exact f1 ▸ this
  · intro ext
    have f1 := (PostgresDocumentRepository.documentLookup_frame ext w).1
    simp only [DocumentService.serve, DocumentService.GetDocumentByExternalID,
      mainService, NewDocumentService, NewPostgresDocumentRepository]
    split
    next d e w1 h1 => rw [h1] at f1; exact f1
    next w1 h1 => rw [h1] at f1; exact f1
    next d w1 h1 => rw [h1] at f1; exact f1
  · intro u page perPage
    have f1 := (PostgresUserRepository.FindByExternalID_frame u w).1
    simp only [DocumentService.serve, DocumentService.GetDocumentsByUserExternalID,
      mainService, NewDocumentService, NewPostgresDocumentRepository,
      NewPostgresUserRepository]
    split
    next d e w1 h1 => rw [h1] at f1; exact f1
    next w1 h1 => rw [h1] at f1; exact f1
    next usr w1 h1 =>
      rw [h1] at f1
      simp only at f1
      have f2 := PostgresDocumentRepository.CountByUserID_frame usr.ID w1
      split
      next t e w2 h2 => rw [h2] at f2; exact f2.trans f1
      next t w2 h2 =>
        rw [h2] at f2
        simp only at f2
        have f3 := PostgresDocumentRepository.FindByUserID_frame usr.ID
          (if perPage < 1 then 10 else perPage)
          (wrapInt64 (wrapInt64 ((if page < 1 then 1 else page) - 1) *
            (if perPage < 1 then 10 else perPage))) w2
        split
        next ds e w3 h3 => rw [h3] at f3; exact (f3.trans f2).trans f1
        next w3 h3 => rw [h3] at f3; exact (f3.trans f2).trans f1
        next ds w3 h3 => rw [h3] at f3; exact (f3.trans f2).trans f1
  · intro page perPage
    have f1 := PostgresDocumentRepository.List_frame
      (if perPage < 1 then 10 else perPage)
      (wrapInt64 (wrapInt64 ((if page < 1 then 1 else page) - 1) *
        (if perPage < 1 then 10 else perPage))) w
    simp only [DocumentService.serve, DocumentService.ListDocuments, mainService,
      NewDocumentService, NewPostgresDocumentRepository]
    split
    next ds e w1 h1 => rw [h1] at f1; exact f1
    next w1 h1 => rw [h1] at f1; exact f1
    next ds w1 h1 => rw [h1] at f1; exact f1

/-- With the database up, `UpdateDocumentStatus` on a stored document rewrites, in
every row under the document's identifier, the status to the one requested. -/
theorem UpdateDocumentStatus_rows (enc : Encoding) (p : Option (Producer PgWorld))
    (ext : UUID) (st : DocumentStatus) (w : PgWorld) (doc : Document)
    (hUp : w.dbFaults = [])
    (hFind : w.documents.find? (fun r => r.ExternalID = ext) = some doc) :
    ∃ now : Time,
      ((mainService enc p).serve (.updateStatus ext st) w).documents =
        w.documents.map (fun r =>
          if r.ID = doc.ID then
            { r with DocumentType := doc.DocumentType
                     Filename := doc.Filename
                     ContentType := doc.ContentType
                     FileContent := doc.FileContent
                     Categories := doc.Categories
                     Status := st
                     UpdatedAt := now }
          else r) := by
  have hmem : doc ∈ w.documents := List.mem_of_find?_eq_some hFind
  have hne : ¬ (w.documents.filter (fun r => decide (r.ID = doc.ID))).length = 0 := by
    intro h0
    rw [List.length_eq_zero, List.filter_eq_nil_iff] at h0
    exact h0 doc hmem (by simp)
  refine ⟨w.clock, ?_⟩
  simp [DocumentService.serve, DocumentService.UpdateDocumentStatus, mainService,
    NewDocumentService, NewPostgresDocumentRepository,
    PostgresDocumentRepository.FindByExternalID, PgWorld.exec, hUp, hFind,
    Document.UpdateStatus, pgRuntime, PgWorld.now, PostgresDocumentRepository.Update, hne,
    Sys.log]

end Steps2

section StatusPath

/-- C17 (amended): over the Postgres store (identifiers below the sequence), a step
of `CreateDocument`, `DeleteDocument` or a read never changes a stored row: every
row stored after the step was stored before it, as it was, or is the row
`CreateDocument` has just created, which the step leaves in status pending,
processing or failed. A step of `UpdateDocumentStatus` on a stored document, with
the database up, writes the requested status over the current one, whatever the
two are; no order of statuses is enforced. -/
theorem C17_status_steps (enc : Encoding) (topic : Option String) (r : Request)
    (w : PgWorld) (hWF : ∀ row ∈ w.documents, row.ID < w.nextDocumentID) :
    ((∀ ext st, r ≠ .updateStatus ext st) →
      ∀ row ∈ ((mainService enc (topic.map pgProducer)).serve r w).documents,
        row ∈ w.documents ∨
        ((∃ u dt fn ct fc cats, r = .create u dt fn ct fc cats) ∧
          row.ID = w.nextDocumentID ∧
          (row.Status = DocumentStatusPending ∨ row.Status = DocumentStatusProcessing ∨
            row.Status = DocumentStatusFailed))) ∧
    (∀ ext st doc, r = .updateStatus ext st → w.dbFaults = [] →
      w.documents.find? (fun x => x.ExternalID = ext) = some doc →
      (∃ row ∈ ((mainService enc (topic.map pgProducer)).serve r w).documents,
        row.ID = doc.ID) ∧
      ∀ row ∈ ((mainService enc (topic.map pgProducer)).serve r w).documents,
        row.ID = doc.ID → row.Status = st) := by
  have hreads := reads_and_delete_rows enc (topic.map pgProducer) w
  constructor
  · intro hr row hrow
    cases r with
    | create u dt fn ct fc cats =>
      rcases CreateDocument_rows enc topic u dt fn ct fc cats w hWF row hrow with h | h
      · exact Or.inl h
      · exact Or.inr ⟨⟨u, dt, fn, ct, fc, cats, rfl⟩, h⟩
    | updateStatus ext st => exact absurd rfl (hr ext st)
    | delete ext => exact Or.inl (hreads.1 ext row hrow)
    | get ext => exact Or.inl (hreads.2.1 ext ▸ hrow)
    | listByUser u page perPage => exact Or.inl (hreads.2.2.1 u page perPage ▸ hrow)
    | list page perPage => exact Or.inl (hreads.2.2.2 page perPage ▸ hrow)
  · intro ext st doc hr hUp hFind
    subst hr
    obtain ⟨now, hdocs⟩ :=
      UpdateDocumentStatus_rows enc (topic.map pgProducer) ext st w doc hUp hFind
    have hmem : doc ∈ w.documents := List.mem_of_find?_eq_some hFind
    rw [hdocs]
    constructor
    · refine ⟨_, List.mem_map.mpr ⟨doc, hmem, rfl⟩, ?_⟩
      rw [if_pos rfl]
    · intro row hrow hid
      rw [List.mem_map] at hrow
      obtain ⟨r0, -, rfl⟩ := hrow
      by_cases h0 : r0.ID = doc.ID
      · rw [if_pos h0]
      · rw [if_neg h0] at hid
        exact absurd hid h0

end StatusPath

section Concrete2

/-- C11 (witness): the sample upload for user 1, with nil categories. -/
theorem C11_witness :
    (0 : Int) < 1 ∧ ("invoice" : String) ≠ "" ∧ ("a.pdf" : String) ≠ "" ∧
    ("QUJD" : String) ≠ "" ∧
    ∃ d : Document,
      (NewDocument pgRuntime 1 "invoice" "a.pdf" "application/pdf" "QUJD" none world0).1
        = (some d, none) ∧
      d.Status = DocumentStatusPending ∧
      d.CreatedAt = d.UpdatedAt ∧ d.CreatedAt = (pgRuntime.timeNow world0).1 ∧
      d.UserID = 1 ∧ d.DocumentType = "invoice" ∧ d.Filename = "a.pdf" ∧
      d.ContentType = "application/pdf" ∧ d.FileContent = "QUJD" ∧
      (∀ c, (none : Option (List String)) = some c → d.Categories = some c) ∧
      ((none : Option (List String)) = none → d.Categories = some []) :=
  ⟨by decide, by decide, by decide, by decide,
    C11_NewDocument_fields pgRuntime 1 "invoice" "a.pdf" "application/pdf" "QUJD" none
      world0 (by decide) (by decide) (by decide) (by decide)⟩

/-- C16 (witness): the stored document `oldRow`, in status processed, is asked back
to pending. -/
theorem C16_witness :
    (svcUp.repo.FindByExternalID ⟨4999⟩ worldThree).1 = (some oldRow, none) ∧
    (svcUp.repo.Update
        (oldRow.UpdateStatus svcUp.rt DocumentStatusPending
          (svcUp.repo.FindByExternalID ⟨4999⟩ worldThree).2).1
        (oldRow.UpdateStatus svcUp.rt DocumentStatusPending
          (svcUp.repo.FindByExternalID ⟨4999⟩ worldThree).2).2).1
      = ((oldRow.UpdateStatus svcUp.rt DocumentStatusPending
          (svcUp.repo.FindByExternalID ⟨4999⟩ worldThree).2).1, none) ∧
    ∃ d1 : Document,
      (svcUp.UpdateDocumentStatus ⟨4999⟩ DocumentStatusPending ⟨worldThree, []⟩).1
        = (some d1, none) ∧
      d1.Status = DocumentStatusPending ∧
      d1 = { oldRow with Status := DocumentStatusPending, UpdatedAt := d1.UpdatedAt } ∧
      updateCalls (svcUp.UpdateDocumentStatus ⟨4999⟩ DocumentStatusPending
        ⟨worldThree, []⟩).2.trace = [d1] :=
  ⟨by decide, by decide,
    C16_any_transition_accepted svcUp ⟨4999⟩ DocumentStatusPending worldThree oldRow
      (by decide) (by decide)⟩

/-- C17 (witness): a valid upload into the store of three documents. -/
theorem C17_witness :
    (∀ row ∈ worldThree.documents, row.ID < worldThree.nextDocumentID) ∧
    ((∀ ext st, Request.create ⟨1001⟩ "invoice" "a.pdf" "application/pdf" "QUJD" none
        ≠ .updateStatus ext st) →
      ∀ row ∈ ((mainService okEncoding ((some "documents").map pgProducer)).serve
          (.create ⟨1001⟩ "invoice" "a.pdf" "application/pdf" "QUJD" none)
          worldThree).documents,
        row ∈ worldThree.documents ∨
        ((∃ u dt fn ct fc cats,
            Request.create ⟨1001⟩ "invoice" "a.pdf" "application/pdf" "QUJD" none
              = .create u dt fn ct fc cats) ∧
          row.ID = worldThree.nextDocumentID ∧
          (row.Status = DocumentStatusPending ∨ row.Status = DocumentStatusProcessing ∨
            row.Status = DocumentStatusFailed))) ∧
    (∀ ext st doc,
      Request.create ⟨1001⟩ "invoice" "a.pdf" "application/pdf" "QUJD" none
        = .updateStatus ext st → worldThree.dbFaults = [] →
      worldThree.documents.find? (fun x => x.ExternalID = ext) = some doc →
      (∃ row ∈ ((mainService okEncoding ((some "documents").map pgProducer)).serve
          (.create ⟨1001⟩ "invoice" "a.pdf" "application/pdf" "QUJD" none)
          worldThree).documents, row.ID = doc.ID) ∧
      ∀ row ∈ ((mainService okEncoding ((some "documents").map pgProducer)).serve
          (.create ⟨1001⟩ "invoice" "a.pdf" "application/pdf" "QUJD" none)
          worldThree).documents, row.ID = doc.ID → row.Status = st) :=
  ⟨by decide,
    C17_status_steps okEncoding (some "documents")
      (.create ⟨1001⟩ "invoice" "a.pdf" "application/pdf" "QUJD" none) worldThree
      (by decide)⟩

/-- The steps on the store of three documents: an upload adds row 4 in status
processing and keeps the others; a delete removes row 2 only; a status update
rewrites row 3 from failed to processing. -/
theorem steps_example :
    ((svcUp.serve (.create ⟨1001⟩ "invoice" "a.pdf" "application/pdf" "QUJD" none)
      worldThree).documents.map (fun r => (r.ID, r.Status)))
      = [(1, DocumentStatusProcessed), (2, DocumentStatusPending),
         (3, DocumentStatusFailed), (4, DocumentStatusProcessing)] ∧
    ((svcUp.serve (.delete ⟨4998⟩) worldThree).documents.map (fun r => (r.ID, r.Status)))
      = [(1, DocumentStatusProcessed), (3, DocumentStatusFailed)] ∧
    ((svcUp.serve (.updateStatus ⟨4997⟩ DocumentStatusProcessing)
      worldThree).documents.map (fun r => (r.ID, r.Status)))
      = [(1, DocumentStatusProcessed), (2, DocumentStatusPending),
         (3, DocumentStatusProcessing)] := by
  decide

/-- The three pass-through operations on a handle no document has, and a delete of
the stored document `rowC`, whose status is failed. -/
theorem pass_through_example :
    (svcUp.GetDocumentByExternalID ⟨7⟩ ⟨worldThree, []⟩).1
      = (none, some ErrDocumentNotFound) ∧
    (svcUp.UpdateDocumentStatus ⟨7⟩ DocumentStatusProcessed ⟨worldThree, []⟩).1
      = (none, some ErrDocumentNotFound) ∧
    (svcUp.DeleteDocument ⟨7⟩ ⟨worldThree, []⟩).1 = some ErrDocumentNotFound ∧
    deleteCalls (svcUp.DeleteDocument ⟨4997⟩ ⟨worldThree, []⟩).2.trace = [3] ∧
    (svcUp.DeleteDocument ⟨4997⟩ ⟨worldThree, []⟩).1 = none := by
  decide

end Concrete2

/-! ## Claims on the producer -/

section ProducerClaims

/-- Two strings that differ at a position inside their first parts differ, whatever
follows the first parts. -/
theorem append_ne_of_differ (p q a b : String) (i : Nat)
    (h : p.data[i]? ≠ q.data[i]?) (hp : i < p.data.length) (hq : i < q.data.length) :
    p ++ a ≠ q ++ b := by
  intro heq
  have h2 := congrArg String.data heq
  rw [String.data_append, String.data_append] at h2
  have h3 := congrArg (fun l => l[i]?) h2
  simp only [List.getElem?_append_left hp, List.getElem?_append_left hq] at h3
  exact h h3

/-- C12: with the producer present and the broker given by its outcomes,
`SendDocument` returns no error exactly when `json.Marshal` succeeds, `Produce`
returns no error and the delivery report arrives in time without error. Each of
the four failure modes returns its own error: serialization, `Produce` rejected
and delivery error wrap the cause after three different openings, the timeout is
a fixed message; the four messages are pairwise different whatever the causes are.
`Produce` is called at most once in a call. -/
theorem C12_SendDocument_outcomes {σ : Type} (enc : Encoding) (p : Producer σ)
    (d : Document) (w : σ) :
    ((Producer.SendDocument enc (some p) d ⟨w, []⟩).1 = .returned none ↔
      ∃ body w1 w2,
        enc.jsonMarshal (toDocumentMessage d) = .ok body ∧
        p.producer.Produce (brokerMessage p.topic body d) w = (none, w1) ∧
        p.producer.Delivery (brokerMessage p.topic body d) w1 = (.report none, w2)) ∧
    (∀ e, enc.jsonMarshal (toDocumentMessage d) = .error e →
      (Producer.SendDocument enc (some p) d ⟨w, []⟩).1
        = .returned (some (.wrap "erro ao serializar mensagem: " e))) ∧
    (∀ body e w1, enc.jsonMarshal (toDocumentMessage d) = .ok body →
      p.producer.Produce (brokerMessage p.topic body d) w = (some e, w1) →
      (Producer.SendDocument enc (some p) d ⟨w, []⟩).1
        = .returned (some (.wrap "erro ao produzir mensagem: " e))) ∧
    (∀ body w1 e w2, enc.jsonMarshal (toDocumentMessage d) = .ok body →
      p.producer.Produce (brokerMessage p.topic body d) w = (none, w1) →
      p.producer.Delivery (brokerMessage p.topic body d) w1 = (.report (some e), w2) →
      (Producer.SendDocument enc (some p) d ⟨w, []⟩).1
        = .returned (some (.wrap "erro ao entregar mensagem: " e))) ∧
    (∀ body w1 w2, enc.jsonMarshal (toDocumentMessage d) = .ok body →
      p.producer.Produce (brokerMessage p.topic body d) w = (none, w1) →
      p.producer.Delivery (brokerMessage p.topic body d) w1 = (.timeout, w2) →
      (Producer.SendDocument enc (some p) d ⟨w, []⟩).1
        = .returned (some (.new "timeout ao aguardar confirmação de entrega"))) ∧
    (∀ e1 e2 e3 : GoError,
      [(GoError.wrap "erro ao serializar mensagem: " e1).Error,
       (GoError.wrap "erro ao produzir mensagem: " e2).Error,
       (GoError.wrap "erro ao entregar mensagem: " e3).Error,
       (GoError.new "timeout ao aguardar confirmação de entrega").Error].Nodup) ∧
    (produceCalls (Producer.SendDocument enc (some p) d ⟨w, []⟩).2.trace).length ≤ 1 := by
  refine ⟨?_, ?_, ?_, ?_, ?_, ?_, ?_⟩
  · constructor
    · intro h
      unfold Producer.SendDocument at h
      split at h
      · simp at h
      · next body hm =>
        simp only at h
        split at h
        · simp at h
        · next w1 hp =>
          split at h
          · simp at h
          · next w2 hd => exact ⟨body, w1, w2, hm, hp, hd⟩
          · simp at h
    · rintro ⟨body, w1, w2, hm, hp, hd⟩
      simp [Producer.SendDocument, hm, hp, hd]
  · intro e hm
    simp [Producer.SendDocument, hm]
  · intro body e w1 hm hp
    simp [Producer.SendDocument, hm, hp]
  · intro body w1 e w2 hm hp hd
    simp [Producer.SendDocument, hm, hp, hd]
  · intro body w1 w2 hm hp hd
    simp [Producer.SendDocument, hm, hp, hd]
  · intro e1 e2 e3
    have h12 := append_ne_of_differ "erro ao serializar mensagem: "
      "erro ao produzir mensagem: " e1.Error e2.Error 8 (by decide) (by decide) (by decide)
    have h13 := append_ne_of_differ "erro ao serializar mensagem: "
      "erro ao entregar mensagem: " e1.Error e3.Error 8 (by decide) (by decide) (by decide)
    have h23 := append_ne_of_differ "erro ao produzir mensagem: "
      "erro ao entregar mensagem: " e2.Error e3.Error 8 (by decide) (by decide) (by decide)
    have h14 := append_ne_of_differ "erro ao serializar mensagem: "
      "timeout ao aguardar confirmação de entrega" e1.Error "" 0
      (by decide) (by decide) (by decide)
    have h24 := append_ne_of_differ "erro ao produzir mensagem: "
      "timeout ao aguardar confirmação de entrega" e2.Error "" 0
      (by decide) (by decide) (by decide)
    have h34 := append_ne_of_differ "erro ao entregar mensagem: "
      "timeout ao aguardar confirmação de entrega" e3.Error "" 0
      (by decide) (by decide) (by decide)
    simp only [String.append_empty] at h14 h24 h34
    simp only [GoError.Error, List.nodup_cons, List.mem_cons, List.mem_singleton,
      List.not_mem_nil, not_or, not_false_eq_true, List.nodup_nil, and_true]
    exact ⟨⟨h12, h13, h14⟩, ⟨h23, h24⟩, h34⟩
  · rcases SendDocument_trace enc (some p) d ⟨w, []⟩ with h | ⟨m, e, h⟩
    · rw [h]; simp [produceCalls]
    · rw [h]; simp [produceCalls]

end ProducerClaims

/-! ## The wire format -/

section Wire

/-- The digits written for `n` with accumulator `ds` are those written with an
empty accumulator, followed by `ds`. -/
theorem toDigitsCore_append (fuel : Nat) : ∀ (n : Nat) (ds : List Char),
    Nat.toDigitsCore 10 fuel n ds = Nat.toDigitsCore 10 fuel n [] ++ ds := by
  induction fuel with
  | zero => intro n ds; simp [Nat.toDigitsCore]
  | succ f ih =>
    intro n ds
    simp only [Nat.toDigitsCore]
    split_ifs with h
    · simp
    · rw [ih (n / 10) (Nat.digitChar (n % 10) :: ds), ih (n / 10) [Nat.digitChar (n % 10)]]
      simp

/-- The character written for a digit is a decimal digit of that value. -/
theorem digitChar_isDigit (k : Nat) (h : k < 10) :
    (Nat.digitChar k).isDigit = true ∧ (Nat.digitChar k).toNat - 48 = k := by
  interval_cases k <;> decide

/-- Reading digits followed by one more character. -/
theorem parseDigitsAux_append (l : List Char) (c : Char) : ∀ acc,
    parseDigitsAux (l ++ [c]) acc =
      (parseDigitsAux l acc).bind (fun a =>
        if c.isDigit then some (a * 10 + (c.toNat - 48)) else none) := by
  induction l with
  | nil => intro acc; simp [parseDigitsAux]
  | cons x xs ih =>
    intro acc
    simp only [List.cons_append, parseDigitsAux]
    by_cases hx : x.isDigit = true
    · simp only [hx, if_true]
      exact ih _
    · simp [hx]

/-- Reading the digits written for `n` gives `n`. -/
theorem parseDigitsAux_toDigitsCore (fuel : Nat) : ∀ n, n < fuel →
    parseDigitsAux (Nat.toDigitsCore 10 fuel n []) 0 = some n := by
  induction fuel with
  | zero => intro n h; omega
  | succ f ih =>
    intro n h
    have hd := digitChar_isDigit (n % 10) (Nat.mod_lt _ (by decide))
    simp only [Nat.toDigitsCore]
    split_ifs with h0
    · have hn : n % 10 = n := by omega
      rw [hn] at hd ⊢
      simp only [parseDigitsAux, hd.1, hd.2, if_true, Nat.zero_mul, Nat.zero_add]
    · rw [toDigitsCore_append, parseDigitsAux_append, ih (n / 10) (by omega)]
      simp only [Option.some_bind, hd.1, hd.2, if_true]
      congr 1
      omega

/-- The digits written for a number start with a digit. -/
theorem toDigitsCore_head (fuel : Nat) : ∀ (n : Nat) (ds : List Char),
    ∃ c cs, Nat.toDigitsCore 10 (fuel + 1) n ds = c :: cs ∧ c.isDigit = true := by
  induction fuel with
  | zero =>
    intro n ds
    have hd := digitChar_isDigit (n % 10) (Nat.mod_lt _ (by decide))
    simp only [Nat.toDigitsCore]
    split_ifs
    · exact ⟨_, _, rfl, hd.1⟩
    · exact ⟨_, _, rfl, hd.1⟩
  | succ f ih =>
    intro n ds
    have hd := digitChar_isDigit (n % 10) (Nat.mod_lt _ (by decide))
    rw [Nat.toDigitsCore]
    split_ifs
    · exact ⟨_, _, rfl, hd.1⟩
    · exact ih _ _

/-- Reading back the decimal string of a natural number below `2^63`. -/
theorem parseDecimal_nat (n : Nat) (h : n < 2 ^ 63) :
    parseDecimal (toString n) = some (n : Int) := by
  obtain ⟨c, cs, hcs, hc⟩ := toDigitsCore_head n n []
  have hp := parseDigitsAux_toDigitsCore (n + 1) n (by omega)
  have hdata : (toString n).data = c :: cs := hcs
  have h1 : c ≠ '-' := by rintro rfl; simp at hc
  have h2 : c ≠ '+' := by rintro rfl; simp at hc
  rw [hcs] at hp
  unfold parseDecimal
  rw [hdata]
  simp only [h1, h2, if_false, parseDigits, hp, Option.some_bind, h, if_true]

/-- Reading back the decimal string of a negative number from `-2^63` on. -/
theorem parseDecimal_negSucc (n : Nat) (h : n + 1 ≤ 2 ^ 63) :
    parseDecimal (toString (Int.negSucc n)) = some (Int.negSucc n) := by
  obtain ⟨c, cs, hcs, hc⟩ := toDigitsCore_head (n + 1) (n + 1) []
  have hp := parseDigitsAux_toDigitsCore (n + 1 + 1) (n + 1) (by omega)
  have hdata : (toString (Int.negSucc n)).data = '-' :: c :: cs := by
    show ("-" ++ toString (n + 1)).data = _
    rw [String.data_append]
    show ['-'] ++ Nat.toDigits 10 (n + 1) = _
    rw [show Nat.toDigits 10 (n + 1) = c :: cs from hcs]
    rfl
  rw [hcs] at hp
  unfold parseDecimal
  rw [hdata]
  simp only [if_true, parseDigits, hp, Option.some_bind, h]
  rfl

/-- The decimal string of a 64-bit integer (`%d`) reads back as that integer. -/
theorem parseDecimal_sprintfD (i : Int) (hlo : -(2 ^ 63) ≤ i) (hhi : i < 2 ^ 63) :
    parseDecimal (sprintfD i) = some i := by
  unfold sprintfD
  cases i with
  | ofNat n =>
    have h3 : (n : Int) < 2 ^ 63 := hhi
    exact parseDecimal_nat n (by exact_mod_cast h3)
  | negSucc n =>
    apply parseDecimal_negSucc
    have : (Int.negSucc n) = -((n : Int) + 1) := Int.negSucc_eq n
    rw [this] at hlo
    have h3 : ((n : Int) + 1) ≤ 2 ^ 63 := by linarith
    exact_mod_cast h3

/-- Decoding the object written for a message gives the message back. -/
theorem fromJsonObject_jsonObject (m : DocumentMessage) :
    DocumentMessage.fromJsonObject m.jsonObject = some m := by
  rcases m with ⟨id, ext, uid, dt, fn, ct, fc, cats, ca, ua⟩
  cases cats <;>
  simp [DocumentMessage.fromJsonObject, DocumentMessage.jsonObject,
    DocumentMessage.setMembers, DocumentMessage.setMember, DocumentMessage.zero,
    decodeString, decodeTime, decodeStrings]

/-- C13: the message `SendDocument` hands to `Produce` has as key the string form
of the document's `ExternalID`, as body the text of the JSON object with exactly
the members id, external_id, user_id, document_type, filename, content_type,
file_content, categories, created_at, updated_at (id and user_id the decimal
strings of `ID` and `UserID`, the others copied from the document), and exactly
the two headers content_type = application/json and source = finance-assistant;
it goes to the producer's topic, any partition, and is the only message produced. -/
theorem C13_broker_message {σ : Type} (lib : JsonText) (p : Producer σ) (d : Document)
    (w : σ) (m : Message) (e : Option GoError)
    (hProduce : Call.Produce m e ∈
      (Producer.SendDocument (jsonEncoding lib) (some p) d ⟨w, []⟩).2.trace) :
    m.Key = d.ExternalID.String ∧
    m.Value = lib.text
      [("id", .string (sprintfD d.ID)),
       ("external_id", .string d.ExternalID.String),
       ("user_id", .string (sprintfD d.UserID)),
       ("document_type", .string d.DocumentType),
       ("filename", .string d.Filename),
       ("content_type", .string d.ContentType),
       ("file_content", .string d.FileContent),
       ("categories", match d.Categories with
          | none => .null
          | some items => .strings items),
       ("created_at", .timestamp d.CreatedAt),
       ("updated_at", .timestamp d.UpdatedAt)] ∧
    m.Headers = [⟨"content_type", "application/json"⟩, ⟨"source", "finance-assistant"⟩] ∧
    m.Topic = p.topic ∧ m.Partition = PartitionAny ∧
    produceCalls (Producer.SendDocument (jsonEncoding lib) (some p) d ⟨w, []⟩).2.trace
      = [m] := by
  unfold Producer.SendDocument at hProduce ⊢
  split at hProduce
  · simp at hProduce
  · next body hm =>
    have hbody : body = lib.text (toDocumentMessage d).jsonObject := by
      simp only [jsonEncoding] at hm
      split at hm
      · cases hm
      · split at hm
        · cases hm
        · exact (Except.ok.inj hm).symm
    simp only at hProduce ⊢
    split at hProduce
    · simp only [Sys.log, List.nil_append, List.mem_singleton, Call.Produce.injEq]
        at hProduce
      rw [hProduce.1, hbody]
      exact ⟨rfl, rfl, rfl, rfl, rfl, by simp [Sys.log, produceCalls]⟩
    · split at hProduce <;>
        simp only [Sys.log, List.nil_append, List.mem_singleton, Call.Produce.injEq]
          at hProduce <;>
        rw [hProduce.1, hbody] <;>
        exact ⟨rfl, rfl, rfl, rfl, rfl, by simp [Sys.log, produceCalls]⟩

/-- C14: for a document `NewDocument` returns from valid fields (the owner id a
64-bit integer), the JSON body `SendDocument` produces is the text of the object of
`toDocumentMessage d`, and decoding that object as a `DocumentMessage` gives a
message whose `UserID` reads back as the owner id and whose `DocumentType`,
`Filename`, `FileContent` and `Categories` are those of the document, which are the
arguments (the empty list for nil categories). -/
theorem C14_wire_round_trip {σ : Type} (rt : Runtime σ) (lib : JsonText) (userID : Int)
    (documentType filename contentType fileContent : String)
    (categories : Option (List String)) (w w2 : σ) (d : Document)
    (hNew : NewDocument rt userID documentType filename contentType fileContent
      categories w = ((some d, none), w2))
    (hRange : userID < 2 ^ 63) :
    (lib.timeError d.CreatedAt = none →
      (jsonEncoding lib).jsonMarshal (toDocumentMessage d)
        = .ok (lib.text (toDocumentMessage d).jsonObject)) ∧
    ∃ m : DocumentMessage,
      DocumentMessage.fromJsonObject (toDocumentMessage d).jsonObject = some m ∧
      parseDecimal m.UserID = some userID ∧
      m.DocumentType = documentType ∧ m.Filename = filename ∧
      m.FileContent = fileContent ∧
      m.Categories = d.Categories ∧ m.Categories = some (categories.getD []) := by
  have hd := NewDocument_ok documentType filename contentType fileContent categories
    rt userID w w2 d none hNew
  obtain ⟨-, hpos, -, -, -, -, hUser, hType, hName, -, hContent, hCats, -, hTime⟩ := hd
  constructor
  · intro hT
    have hT2 : lib.timeError d.UpdatedAt = none := by rw [← hTime]; exact hT
    simp [jsonEncoding, toDocumentMessage, hT, hT2]
  · refine ⟨toDocumentMessage d, fromJsonObject_jsonObject _, ?_, hType, hName, hContent,
      rfl, hCats⟩
    show parseDecimal (sprintfD d.UserID) = some userID
    rw [hUser]
    exact parseDecimal_sprintfD userID (by omega) hRange

end Wire

section Concrete3

/-- C13 (witness): the stored sample document sent on topic documents. -/
theorem C13_witness :
    Call.Produce sampleMessage none ∈
      (Producer.SendDocument (jsonEncoding plainJson) (some (pgProducer "documents"))
        storedSample ⟨world0, []⟩).2.trace ∧
    (sampleMessage.Key = storedSample.ExternalID.String ∧
    sampleMessage.Value = plainJson.text
      [("id", .string (sprintfD storedSample.ID)),
       ("external_id", .string storedSample.ExternalID.String),
       ("user_id", .string (sprintfD storedSample.UserID)),
       ("document_type", .string storedSample.DocumentType),
       ("filename", .string storedSample.Filename),
       ("content_type", .string storedSample.ContentType),
       ("file_content", .string storedSample.FileContent),
       ("categories", match storedSample.Categories with
          | none => .null
          | some items => .strings items),
       ("created_at", .timestamp storedSample.CreatedAt),
       ("updated_at", .timestamp storedSample.UpdatedAt)] ∧
    sampleMessage.Headers
      = [⟨"content_type", "application/json"⟩, ⟨"source", "finance-assistant"⟩] ∧
    sampleMessage.Topic = (pgProducer "documents").topic ∧
    sampleMessage.Partition = PartitionAny ∧
    produceCalls (Producer.SendDocument (jsonEncoding plainJson)
      (some (pgProducer "documents")) storedSample ⟨world0, []⟩).2.trace
      = [sampleMessage]) :=
  ⟨List.mem_singleton.mpr rfl,
    C13_broker_message plainJson (pgProducer "documents") storedSample world0
      sampleMessage none (List.mem_singleton.mpr rfl)⟩

/-- C14 (witness): the sample upload for user 1, with nil categories. -/
theorem C14_witness :
    NewDocument pgRuntime 1 "invoice" "a.pdf" "application/pdf" "QUJD" none world0
      = ((some sampleDocument, none), world0AfterNew) ∧
    (1 : Int) < 2 ^ 63 ∧
    ((plainJson.timeError sampleDocument.CreatedAt = none →
      (jsonEncoding plainJson).jsonMarshal (toDocumentMessage sampleDocument)
        = .ok (plainJson.text (toDocumentMessage sampleDocument).jsonObject)) ∧
    ∃ m : DocumentMessage,
      DocumentMessage.fromJsonObject (toDocumentMessage sampleDocument).jsonObject
        = some m ∧
      parseDecimal m.UserID = some 1 ∧
      m.DocumentType = "invoice" ∧ m.Filename = "a.pdf" ∧
      m.FileContent = "QUJD" ∧
      m.Categories = sampleDocument.Categories ∧
      m.Categories = some ((none : Option (List String)).getD [])) :=
  ⟨by decide, by decide,
    C14_wire_round_trip pgRuntime plainJson 1 "invoice" "a.pdf" "application/pdf" "QUJD"
      none world0 world0AfterNew sampleDocument (by decide) (by decide)⟩

/-- The four failure modes and the success of `SendDocument` on the sample
document, one world each. -/
theorem SendDocument_example :
    (Producer.SendDocument failingEncoding (some (pgProducer "documents")) storedSample
      ⟨world0, []⟩).1 = .returned (some (.wrap "erro ao serializar mensagem: "
        (.new "json: error calling MarshalJSON for type time.Time"))) ∧
    (Producer.SendDocument okEncoding (some (pgProducer "documents")) storedSample
      ⟨worldRejected, []⟩).1 = .returned (some (.wrap "erro ao produzir mensagem: "
        (.new "Local: Queue full"))) ∧
    (Producer.SendDocument okEncoding (some (pgProducer "documents")) storedSample
      ⟨{ world0 with delivery := .report (some (.new "Broker: Message size too large")) },
        []⟩).1 = .returned (some (.wrap "erro ao entregar mensagem: "
        (.new "Broker: Message size too large"))) ∧
    (Producer.SendDocument okEncoding (some (pgProducer "documents")) storedSample
      ⟨worldTimeout, []⟩).1
      = .returned (some (.new "timeout ao aguardar confirmação de entrega")) ∧
    (Producer.SendDocument okEncoding (some (pgProducer "documents")) storedSample
      ⟨world0, []⟩).1 = .returned none := by
  decide

set_option maxRecDepth 100000 in
set_option maxHeartbeats 4000000 in
/-- The key and the body of `sampleMessage`, written out. -/
theorem sampleMessage_text :
    sampleMessage.Key = "00000000-0000-0000-0000-000000001388" ∧
    sampleMessage.Value =
      "\x7b\"id\":\"1\",\"external_id\":\"00000000-0000-0000-0000-000000001388\"," ++
      "\"user_id\":\"1\",\"document_type\":\"invoice\",\"filename\":\"a.pdf\"," ++
      "\"content_type\":\"application/pdf\",\"file_content\":\"QUJD\"," ++
      "\"categories\":[],\"created_at\":\"100\",\"updated_at\":\"100\"\x7d" := by
  decide

end Concrete3

section Concrete4

/-- C18 (counterexample): the stored sample document with the status "archived",
which is none of the four status values, passes `Validate`. -/
theorem C18_counterexample :
    ({ storedSample with Status := "archived" } : Document).Validate = none ∧
    ("archived" : DocumentStatus) ≠ DocumentStatusPending ∧
    ("archived" : DocumentStatus) ≠ DocumentStatusProcessing ∧
    ("archived" : DocumentStatus) ≠ DocumentStatusProcessed ∧
    ("archived" : DocumentStatus) ≠ DocumentStatusFailed := by
  decide

end Concrete4

/-! ## Construction, validation and the response DTOs -/

section Dto

/-- C27: `NewDocument` and `Document.Validate` agree. For all arguments, the error
of `NewDocument` is the error `Validate` returns on any document carrying the same
owner id, type, filename and content (whatever its other fields); that error is
decided by the first failing check in the order owner id, type, filename, content;
`NewDocument` returns no document exactly when it returns an error; and a document
it returns passes `Validate`. -/
theorem C27_NewDocument_agrees_with_Validate {σ : Type} (rt : Runtime σ) (userID : Int)
    (documentType filename contentType fileContent : String)
    (categories : Option (List String)) (w : σ) :
    (∀ (id : Int) (ext : UUID) (ct : String) (cats : Option (List String))
        (status : DocumentStatus) (created updated : Time),
      (NewDocument rt userID documentType filename contentType fileContent
        categories w).1.2 =
      Document.Validate
        { ID := id, ExternalID := ext, UserID := userID, DocumentType := documentType
          Filename := filename, ContentType := ct, FileContent := fileContent
          Categories := cats, Status := status, CreatedAt := created
          UpdatedAt := updated }) ∧
    (NewDocument rt userID documentType filename contentType fileContent
        categories w).1.2 =
      (if userID ≤ 0 then some ErrInvalidDocumentUserID
       else if documentType = "" then some ErrInvalidDocumentType
       else if filename = "" then some ErrInvalidDocumentFilename
       else if fileContent = "" then some ErrInvalidDocumentContent
       else none) ∧
    ((NewDocument rt userID documentType filename contentType fileContent
        categories w).1.1 = none ↔
      (NewDocument rt userID documentType filename contentType fileContent
        categories w).1.2 ≠ none) ∧
    (∀ d, (NewDocument rt userID documentType filename contentType fileContent
        categories w).1.1 = some d → d.Validate = none) := by
  unfold NewDocument Document.Validate
  refine ⟨?_, ?_, ?_, ?_⟩
  · intro id ext ct cats status created updated
    split_ifs <;> rfl
  · split_ifs <;> rfl
  · split_ifs <;> simp
  · intro d hd
    split_ifs at hd with h1 h2 h3 h4
    all_goals first
      | (simp at hd; done)
      | (simp only [Option.some.injEq] at hd; rw [← hd]; simp [h1, h2, h3, h4])

/-- C22: both response mappings put the external identifier in the field `id`, and
their output is the same for two documents that differ only in the internal `ID`
and the owner's internal `UserID`. -/
theorem C22_only_external_id_exposed (d : Document) (id userID : Int) :
    (DocumentFromEntity d).ID = d.ExternalID ∧
    (DocumentDetailFromEntity d).ID = d.ExternalID ∧
    DocumentFromEntity { d with ID := id, UserID := userID } = DocumentFromEntity d ∧
    DocumentDetailFromEntity { d with ID := id, UserID := userID }
      = DocumentDetailFromEntity d :=
  ⟨rfl, rfl, rfl, rfl⟩

end Dto

/-! ## The user service and its handlers -/

section UserClaims

/-- With a non-empty name and email `NewUser` returns a user carrying them. -/
theorem NewUser_ok {σ : Type} (rt : Runtime σ) (name email phone : String) (w : σ)
    (hName : name ≠ "") (hEmail : email ≠ "") :
    ∃ user w2, NewUser rt name email phone w = ((some user, none), w2) ∧
      user.Name = name ∧ user.Email = email ∧ user.Phone = phone := by
  unfold NewUser
  rw [if_neg hName, if_neg hEmail]
  exact ⟨_, _, rfl, rfl, rfl, rfl⟩

/-- C24: when the `FindByEmail` pre-check of `CreateUser` returns an error, the
creation proceeds exactly as it does from a state `s0` in which the lookup finds
no user (and leaves the same world): same result, same final world. With a
non-empty name and email the user `NewUser` builds is handed to the store's
`Create`, once, and the result is that of `Create`: its error if it fails, the
user otherwise. The lookup error is dropped. -/
theorem C24_lookup_error_ignored {σ : Type} (svc : UserService σ)
    (name email phone : String) (s s0 : Sys σ) (found : Option User) (e : GoError)
    (w1 : σ)
    (hErr : svc.repo.FindByEmail email s.world = ((found, some e), w1))
    (hNone : svc.repo.FindByEmail email s0.world = ((none, none), w1)) :
    (svc.CreateUser name email phone s).1 = (svc.CreateUser name email phone s0).1 ∧
    (svc.CreateUser name email phone s).2.world
      = (svc.CreateUser name email phone s0).2.world ∧
    (name ≠ "" → email ≠ "" →
      ∃ user w2, NewUser svc.rt name email phone w1 = ((some user, none), w2) ∧
        user.Name = name ∧ user.Email = email ∧ user.Phone = phone ∧
        userCreateCalls (svc.CreateUser name email phone s).2.trace
          = userCreateCalls s.trace ++ [user] ∧
        (svc.CreateUser name email phone s).1 =
          .returned (match (svc.repo.Create user w2).1 with
            | (_, some err) => (none, some err)
            | (user1, none) => (some user1, none))) := by
  have hrun : ∀ t : Sys σ, ∀ f : Option User, ∀ err : Option GoError,
      svc.repo.FindByEmail email t.world = ((f, err), w1) →
      (f = none ∨ err ≠ none) →
      svc.CreateUser name email phone t =
        (match NewUser svc.rt name email phone w1 with
          | ((_, some err1), w2) =>
            (.returned (none, some err1),
              Sys.mk w2 (t.trace ++ [Call.UserFindByEmail email f err]))
          | ((none, none), w2) =>
            (.panicked nilDereference,
              Sys.mk w2 (t.trace ++ [Call.UserFindByEmail email f err]))
          | ((some user, none), w2) =>
            match svc.repo.Create user w2 with
            | ((_, some err1), w3) =>
              (.returned (none, some err1),
                Sys.mk w3 (t.trace ++ [Call.UserFindByEmail email f err,
                  Call.UserCreate user (some err1)]))
            | ((user1, none), w3) =>
              (.returned (some user1, none),
                Sys.mk w3 (t.trace ++ [Call.UserFindByEmail email f err,
                  Call.UserCreate user none]))) := by
    intro t f err h hf
    unfold UserService.CreateUser
    rw [h]
    rcases f with _ | u <;> rcases err with _ | e1
    · simp only [Sys.log]
      split <;> (try split) <;> simp_all
    · simp only [Sys.log]
      split <;> (try split) <;> simp_all
    · simp at hf
    · simp only [Sys.log]
      split <;> (try split) <;> simp_all
  have h1 := hrun s found (some e) hErr (Or.inr (by simp))
  have h0 := hrun s0 none none hNone (Or.inl rfl)
  refine ⟨?_, ?_, ?_⟩
  · rw [h1, h0]
    split <;> (try split) <;> rfl
  · rw [h1, h0]
    split <;> (try split) <;> rfl
  · intro hName hEmail
    obtain ⟨user, w2, hNew, hn, he, hp⟩ := NewUser_ok svc.rt name email phone w1 hName hEmail
    refine ⟨user, w2, hNew, hn, he, hp, ?_, ?_⟩
    · rw [h1, hNew]
      simp only
      split <;> simp [userCreateCalls, List.filterMap_append]
    · rw [h1, hNew]
      simp only
      split <;> simp_all

/-- C24 (witness): the database refuses the lookup statement of `CreateUser` for a
new email; from `world0` the same lookup finds nobody. -/
theorem C24_witness :
    mainUserService.repo.FindByEmail "bob@example.com" worldDbDown
      = ((none, some (.wrap "error finding user by email: "
          (.new "dial tcp: connection refused"))), world0) ∧
    mainUserService.repo.FindByEmail "bob@example.com" world0 = ((none, none), world0) ∧
    (mainUserService.CreateUser "Bob" "bob@example.com" "556" ⟨worldDbDown, []⟩).1
      = (mainUserService.CreateUser "Bob" "bob@example.com" "556" ⟨world0, []⟩).1 ∧
    (mainUserService.CreateUser "Bob" "bob@example.com" "556" ⟨worldDbDown, []⟩).2.world
      = (mainUserService.CreateUser "Bob" "bob@example.com" "556" ⟨world0, []⟩).2.world ∧
    ("Bob" ≠ "" → "bob@example.com" ≠ "" →
      ∃ user w2, NewUser mainUserService.rt "Bob" "bob@example.com" "556" world0
          = ((some user, none), w2) ∧
        user.Name = "Bob" ∧ user.Email = "bob@example.com" ∧ user.Phone = "556" ∧
        userCreateCalls
          (mainUserService.CreateUser "Bob" "bob@example.com" "556"
            ⟨worldDbDown, []⟩).2.trace
          = userCreateCalls (Sys.mk worldDbDown []).trace ++ [user] ∧
        (mainUserService.CreateUser "Bob" "bob@example.com" "556" ⟨worldDbDown, []⟩).1 =
          .returned (match (mainUserService.repo.Create user w2).1 with
            | (_, some err) => (none, some err)
            | (user1, none) => (some user1, none))) :=
  ⟨by decide, by decide,
    C24_lookup_error_ignored mainUserService "Bob" "bob@example.com" "556"
      ⟨worldDbDown, []⟩ ⟨world0, []⟩ none
      (.wrap "error finding user by email: " (.new "dial tcp: connection refused")) world0
      (by decide) (by decide)⟩

/-- The run of C24 on the database that refuses the lookup: the lookup error is
recorded in the trace, the user is created with the next identifier and returned
without an error. -/
theorem lookup_error_example :
    (mainUserService.CreateUser "Bob" "bob@example.com" "556" ⟨worldDbDown, []⟩).1
      = .returned (some { ID := 2, ExternalID := ⟨5000⟩, Name := "Bob"
                          Email := "bob@example.com", Phone := "556"
                          CreatedAt := 100, UpdatedAt := 101 }, none) ∧
    (mainUserService.CreateUser "Bob" "bob@example.com" "556"
        ⟨worldDbDown, []⟩).2.trace.head?
      = some (Call.UserFindByEmail "bob@example.com" none
          (some (.wrap "error finding user by email: "
            (.new "dial tcp: connection refused")))) := by
  decide

end UserClaims

/-! ## Status codes of the handlers -/

section HandlerClaims

/-- When `CreateUser` returns `ErrEmailAlreadyUsed`, the handler `UserHandler.Create`
answers with `http.StatusBadRequest`. -/
theorem UserHandler.Create_email_in_use {σ : Type} (svc : UserService σ) (req : UserRequest)
    (s s1 : Sys σ) (user : Option User)
    (h : svc.CreateUser req.Name req.Email req.Phone s
      = (.returned (user, some ErrEmailAlreadyUsed), s1)) :
    UserHandler.Create svc (.ok req) s
      = (.returned (JSON StatusBadRequest (.error ErrEmailAlreadyUsed.Error)), s1) := by
  unfold UserHandler.Create
  simp only [h]
  rfl

/-- When `UpdateUser` returns `ErrEmailAlreadyUsed`, the handler `UserHandler.Update`
answers with `http.StatusBadRequest`. -/
theorem UserHandler.Update_email_in_use {σ : Type} (svc : UserService σ) (externalID : UUID)
    (req : UpdateUserRequest) (s s1 : Sys σ) (user : Option User)
    (h : svc.UpdateUser externalID req.Name req.Email req.Phone s
      = ((user, some ErrEmailAlreadyUsed), s1)) :
    UserHandler.Update svc (some externalID) (.ok req) s
      = (.returned (JSON StatusBadRequest (.error "Email já está em uso")), s1) := by
  unfold UserHandler.Update
  simp only [h]
  rfl

/-- C21 (failing input): a creation with the email of the stored user `alice`, and an
update of `bob` to that email. In both the service returns `ErrEmailAlreadyUsed`
and the handler answers 400 (`http.StatusBadRequest`), not the 409 declared in the
API documentation of both handlers. -/
theorem C21_email_in_use_answers_400 :
    (mainUserService.CreateUser "Bob" "alice@example.com" "556" ⟨world0, []⟩).1
      = .returned (none, some ErrEmailAlreadyUsed) ∧
    (UserHandler.Create mainUserService
        (.ok { Name := "Bob", Email := "alice@example.com", Phone := "556" })
        ⟨world0, []⟩).1
      = .returned (JSON 400 (.error "email já está em uso")) ∧
    (mainUserService.UpdateUser ⟨1002⟩ "" "alice@example.com" "556"
        ⟨worldTwoUsers, []⟩).1
      = (none, some ErrEmailAlreadyUsed) ∧
    (UserHandler.Update mainUserService (some ⟨1002⟩)
        (.ok { Name := "", Email := "alice@example.com", Phone := "556" })
        ⟨worldTwoUsers, []⟩).1
      = .returned (JSON 400 (.error "Email já está em uso")) ∧
    StatusBadRequest = 400 ∧ StatusConflict = 409 := by
  decide

/-- The status of the response `DocumentHandler.Create` writes for an error of
`CreateDocument`: 404 for the owner not found, 400 for an invalid type, content or
filename, and 500 for every other error, `ErrInvalidDocumentUserID` included. -/
theorem DocumentHandler.createErrorResponse_status (err : GoError) :
    (DocumentHandler.createErrorResponse err).status =
      (if err = ErrUserNotFoundForDocument then 404
       else if err = ErrInvalidDocumentType ∨ err = ErrInvalidDocumentContent ∨
          err = ErrInvalidDocumentFilename then 400
       else 500) := by
  unfold DocumentHandler.createErrorResponse
  split_ifs <;> first | rfl | simp_all

/-- Every error `CreateDocument` returns is the owner-not-found sentinel, one of the
four validation sentinels of `NewDocument`, or an error that wraps a cause (lookup,
persistence and dispatch failures). -/
theorem CreateDocument_error_kinds {σ : Type} (svc : DocumentService σ)
    (userExternalID : UUID) (documentType filename contentType fileContent : String)
    (categories : Option (List String)) (w : σ) (document : Option Document)
    (err : GoError) (s1 : Sys σ)
    (h : svc.CreateDocument userExternalID documentType filename contentType fileContent
      categories ⟨w, []⟩ = (.returned (document, some err), s1)) :
    err = ErrUserNotFoundForDocument ∨
    err = ErrInvalidDocumentUserID ∨ err = ErrInvalidDocumentType ∨
    err = ErrInvalidDocumentFilename ∨ err = ErrInvalidDocumentContent ∨
    ∃ pre cause, err = .wrap pre cause := by
  rcases CreateDocument_paths svc userExternalID documentType filename contentType
      fileContent categories w with
    ⟨u, e, w1, h1, hrun⟩ | ⟨w1, h1, hrun⟩ | ⟨u, w1, e, h1, h2, hrun⟩ |
    ⟨u, w1, d, w2, d1, e, w3, h1, h2, h3, hrun⟩ |
    ⟨u, w1, d, w2, d1, w3, ps, msg, w4, h1, h2, h3, hps, h4, hrun⟩ |
    ⟨u, w1, d, w2, d1, w3, ps, e, w4, uerr, w5, h1, h2, h3, hps, h4, h5, hrun⟩ |
    ⟨u, w1, d, w2, d1, w3, ps, w4, d2, w5, uerr, w6, h1, h2, h3, hps, h4, h5, h6, hrun⟩
  · rw [hrun] at h
    simp only [Prod.mk.injEq, Ret.returned.injEq, Option.some.injEq] at h
    exact Or.inr (Or.inr (Or.inr (Or.inr (Or.inr ⟨_, _, h.1.2.symm⟩))))
  · rw [hrun] at h
    simp only [Prod.mk.injEq, Ret.returned.injEq, Option.some.injEq] at h
    exact Or.inl h.1.2.symm
  · rw [hrun] at h
    simp only [Prod.mk.injEq, Ret.returned.injEq, Option.some.injEq] at h
    rw [← h.1.2]
    unfold NewDocument at h2
    split_ifs at h2 <;> simp at h2 <;> (subst h2; simp)
  · rw [hrun] at h
    simp only [Prod.mk.injEq, Ret.returned.injEq, Option.some.injEq] at h
    exact Or.inr (Or.inr (Or.inr (Or.inr (Or.inr ⟨_, _, h.1.2.symm⟩))))
  · rw [hrun] at h
    simp at h
  · rw [hrun] at h
    simp only [Prod.mk.injEq, Ret.returned.injEq, Option.some.injEq] at h
    exact Or.inr (Or.inr (Or.inr (Or.inr (Or.inr ⟨_, _, h.1.2.symm⟩))))
  · rw [hrun] at h
    simp at h

/-- C25 (failing input): an upload for the stored user `zeroUser`, whose internal
identifier is 0. `CreateDocument` returns `ErrInvalidDocumentUserID` and the handler
answers 500, not 400. The other kinds map as stated: an unknown owner to 404, an
invalid type, filename or content to 400, and a failed lookup to 500. -/
theorem C25_invalid_owner_id_answers_500 :
    (svcUp.CreateDocument ⟨1002⟩ "invoice" "Report.PDF" "application/pdf" "QUJD" none
        ⟨worldZeroUser, []⟩).1
      = .returned (none, some ErrInvalidDocumentUserID) ∧
    (DocumentHandler.Create svcUp asciiLower (pdfUpload ⟨1002⟩) ⟨worldZeroUser, []⟩).1
      = .returned (JSON 500 (.error "Erro ao criar documento: ID de usuário inválido")) ∧
    (DocumentHandler.Create svcUp asciiLower (pdfUpload ⟨7777⟩) ⟨worldZeroUser, []⟩).1
      = .returned (JSON 404 (.error "Usuário não encontrado")) ∧
    (DocumentHandler.Create svcUp asciiLower (pdfUpload ⟨1001⟩) ⟨worldDbDown, []⟩).1
      = .returned (JSON 500 (.error ("Erro ao criar documento: erro ao buscar usuário: "
          ++ "error finding user by external ID: dial tcp: connection refused"))) ∧
    (DocumentHandler.createErrorResponse ErrInvalidDocumentType).status = 400 ∧
    (DocumentHandler.createErrorResponse ErrInvalidDocumentFilename).status = 400 ∧
    (DocumentHandler.createErrorResponse ErrInvalidDocumentContent).status = 400 ∧
    (DocumentHandler.createErrorResponse ErrInvalidDocumentUserID).status = 500 := by
  decide

end HandlerClaims

/-! ## Limit and offset of the page queries -/

section Paging

/-- Wrapping does nothing to a value in the range of a Go `int`. -/
theorem wrapInt64_of_fits (x : Int) (h0 : -(2 ^ 63) ≤ x) (h1 : x < 2 ^ 63) :
    wrapInt64 x = x := by
  unfold wrapInt64
  omega

/-- The page query of `ListDocuments`: limit `P` and the offset `(p - 1) * P` as Go
computes it, wrapped at 64 bits. -/
theorem ListDocuments_query {σ : Type} (svc : DocumentService σ) (page perPage : Int)
    (s : Sys σ) :
    listQueries (svc.ListDocuments page perPage s).2.trace =
      listQueries s.trace ++
        [(if perPage < 1 then 10 else perPage,
          wrapInt64 (wrapInt64 ((if page < 1 then 1 else page) - 1)
            * (if perPage < 1 then 10 else perPage)))] := by
  unfold DocumentService.ListDocuments
  simp only
  split <;> simp [Sys.log, listQueries, List.filterMap_append]

/-- The page query of `GetDocumentsByUserExternalID`, made when the user is found and
counting succeeds: limit `P` and the wrapped offset. No other page query is made. -/
theorem GetDocumentsByUserExternalID_query {σ : Type} (svc : DocumentService σ)
    (userExternalID : UUID) (page perPage : Int) (s : Sys σ) :
    (listQueries (svc.GetDocumentsByUserExternalID userExternalID page perPage s).2.trace
        = listQueries s.trace ∧
      (svc.GetDocumentsByUserExternalID userExternalID page perPage s).1.2.2 ≠ none) ∨
    listQueries (svc.GetDocumentsByUserExternalID userExternalID page perPage s).2.trace =
      listQueries s.trace ++
        [(if perPage < 1 then 10 else perPage,
          wrapInt64 (wrapInt64 ((if page < 1 then 1 else page) - 1)
            * (if perPage < 1 then 10 else perPage)))] := by
  unfold DocumentService.GetDocumentsByUserExternalID
  split
  · left
    simp [Sys.log, listQueries, List.filterMap_append]
  · left
    simp [Sys.log, listQueries, List.filterMap_append, ErrUserNotFound]
  · simp only
    split
    · left
      simp [Sys.log, listQueries, List.filterMap_append]
    · right
      split <;> simp [Sys.log, listQueries, List.filterMap_append]

/-- C26 (amended): with `p` the page (1 when below 1) and `P` the page size (10 when
below 1), and the product `(p - 1) * P` within the range of a Go `int`:
`ListDocuments` makes one page query, with limit `P` and offset `(p - 1) * P`;
`GetDocumentsByUserExternalID` makes no other page query than this one, and makes
it whenever it returns without an error; the offset is not negative. -/
theorem C26_limit_and_offset {σ : Type} (svc : DocumentService σ) (userExternalID : UUID)
    (page perPage p P : Int) (w : σ)
    (hp : p = if page < 1 then 1 else page)
    (hP : P = if perPage < 1 then 10 else perPage)
    (hFit : (p - 1) * P < 2 ^ 63) :
    listQueries (svc.ListDocuments page perPage ⟨w, []⟩).2.trace = [(P, (p - 1) * P)] ∧
    (∀ q ∈ listQueries
        (svc.GetDocumentsByUserExternalID userExternalID page perPage ⟨w, []⟩).2.trace,
      q = (P, (p - 1) * P)) ∧
    ((svc.GetDocumentsByUserExternalID userExternalID page perPage ⟨w, []⟩).1.2.2 = none →
      listQueries
        (svc.GetDocumentsByUserExternalID userExternalID page perPage ⟨w, []⟩).2.trace
        = [(P, (p - 1) * P)]) ∧
    0 ≤ (p - 1) * P := by
  have hp1 : 1 ≤ p := by rw [hp]; split_ifs <;> omega
  have hP1 : 1 ≤ P := by rw [hP]; split_ifs <;> omega
  have hp0 : 0 ≤ p - 1 := by omega
  have hnn : 0 ≤ (p - 1) * P := Int.mul_nonneg hp0 (by omega)
  have hle : p - 1 ≤ (p - 1) * P := by
    have := Int.mul_le_mul_of_nonneg_left hP1 hp0
    simpa using this
  have hw1 : wrapInt64 (p - 1) = p - 1 := wrapInt64_of_fits _ (by omega) (by omega)
  have hw2 : wrapInt64 (wrapInt64 (p - 1) * P) = (p - 1) * P := by
    rw [hw1]
    exact wrapInt64_of_fits _ (by omega) hFit
  have hList := ListDocuments_query svc page perPage ⟨w, []⟩
  have hUser := GetDocumentsByUserExternalID_query svc userExternalID page perPage ⟨w, []⟩
  rw [← hp, ← hP, hw2] at hList hUser
  refine ⟨?_, ?_, ?_, hnn⟩
  · simpa [listQueries] using hList
  · intro q hq
    rcases hUser with ⟨h, -⟩ | h
    · rw [h] at hq
      simp [listQueries] at hq
    · rw [h] at hq
      simpa [listQueries] using hq
  · intro hnone
    rcases hUser with ⟨-, h⟩ | h
    · exact absurd hnone h
    · simpa [listQueries] using h

/-- C26 (witness): page 3 with 20 per page over the store of three documents. -/
theorem C26_witness :
    (3 : Int) = (if (3 : Int) < 1 then 1 else 3) ∧
    (20 : Int) = (if (20 : Int) < 1 then 10 else 20) ∧
    ((3 : Int) - 1) * 20 < 2 ^ 63 ∧
    listQueries (svcUp.ListDocuments 3 20 ⟨worldThree, []⟩).2.trace
      = [(20, (3 - 1) * 20)] ∧
    (∀ q ∈ listQueries
        (svcUp.GetDocumentsByUserExternalID ⟨1001⟩ 3 20 ⟨worldThree, []⟩).2.trace,
      q = (20, (3 - 1) * 20)) ∧
    ((svcUp.GetDocumentsByUserExternalID ⟨1001⟩ 3 20 ⟨worldThree, []⟩).1.2.2 = none →
      listQueries
        (svcUp.GetDocumentsByUserExternalID ⟨1001⟩ 3 20 ⟨worldThree, []⟩).2.trace
        = [(20, (3 - 1) * 20)]) ∧
    (0 : Int) ≤ (3 - 1) * 20 :=
  ⟨by decide, by decide, by decide,
    C26_limit_and_offset svcUp ⟨1001⟩ 3 20 3 20 worldThree (by decide) (by decide)
      (by decide)⟩

/-- C26 (counterexample): page `2^61 + 1` with 6 per page, both in the range of a Go
`int` and both let through by the handlers. The product `2^61 * 6` wraps to
`-2^62`: both operations query the store with a negative offset, which is not
`(p - 1) * P`; the database refuses it and the listing handler answers 500. -/
theorem C26_counterexample :
    (2305843009213693953 : Int) < 2 ^ 63 ∧
    pageParam (some 2305843009213693953) = 2305843009213693953 ∧
    limitParam (some 6) = 6 ∧
    listQueries (svcUp.ListDocuments 2305843009213693953 6 ⟨world0, []⟩).2.trace
      = [(6, -4611686018427387904)] ∧
    listQueries (svcUp.GetDocumentsByUserExternalID ⟨1001⟩ 2305843009213693953 6
        ⟨world0, []⟩).2.trace
      = [(6, -4611686018427387904)] ∧
    ((2305843009213693953 : Int) - 1) * 6 ≠ -4611686018427387904 ∧
    (DocumentHandler.List svcUp (some 2305843009213693953) (some 6) ⟨world0, []⟩).1
      = JSON 500 (.error "error listing documents: pq: OFFSET must not be negative") := by
  decide

end Paging

/-! ## The upload handler -/

section Upload

/-- The encoding of a non-empty body is not empty. -/
theorem base64Encode_ne_empty (b : List Byte) (h : b ≠ []) : base64Encode b ≠ "" := by
  intro he
  have hd : base64EncodeChars b = [] := by
    have := congrArg String.data he
    simpa [base64Encode] using this
  match b, h, hd with
  | [_], _, hd => simp [base64EncodeChars] at hd
  | [_, _], _, hd => simp [base64EncodeChars] at hd
  | _ :: _ :: _ :: _, _, hd => simp [base64EncodeChars] at hd

/-- The content type chosen for an allowed extension is not the default. -/
theorem contentTypeOf_allowed (fileExt : String) (h : fileExt ∈ allowedExtensions) :
    contentTypeOf fileExt ≠ "application/octet-stream" := by
  simp only [allowedExtensions, List.mem_cons, List.mem_singleton, List.not_mem_nil,
    or_false] at h
  rcases h with h | h | h | h | h | h | h | h <;> subst h <;> decide

/-- What `DocumentHandler.Create` has checked when it reaches the call of
`CreateDocument`, and the arguments it has built. -/
theorem DocumentHandler.createArguments_ok (runeLower : Char → Char) (form : UploadForm)
    (args : CreateArguments)
    (h : DocumentHandler.createArguments runeLower form = .ok args) :
    ∃ userID req fileHeader fileContent,
      form.userID = some userID ∧ form.bound = .ok req ∧ form.file = some fileHeader ∧
      fileHeader.body = .ok fileContent ∧
      req.DocumentType ≠ "" ∧ fileHeader.Size ≤ 10 * 1024 * 1024 ∧
      stringsToLower runeLower (filepathExt fileHeader.Filename) ∈ allowedExtensions ∧
      fileContent ≠ [] ∧
      args = { userID := userID
               documentType := req.DocumentType
               filename := fileHeader.Filename
               contentType := contentTypeOf
                 (stringsToLower runeLower (filepathExt fileHeader.Filename))
               base64Content := base64Encode fileContent
               categories := req.Categories } := by
  unfold DocumentHandler.createArguments at h
  split at h
  · simp at h
  next userID hU =>
    split at h
    · simp at h
    next req hB =>
      split_ifs at h with hT
      split at h
      · simp at h
      next fileHeader hF =>
        split_ifs at h with hS hE
        split at h
        · simp at h
        next fileContent hC =>
          split_ifs at h with hL
          simp only [Except.ok.injEq] at h
          refine ⟨userID, req, fileHeader, fileContent, hU, hB, hF, hC, hT, by omega,
            by simpa using hE, ?_, h.symm⟩
          intro hnil
          exact hL (by simp [hnil])

/-- C28: for every upload that passes the checks of `DocumentHandler.Create`, the
document type, the filename and the base64 content handed to `CreateDocument` are
not empty, so `NewDocument` on these arguments can only fail on the owner id (and
does not fail for a positive owner id); the content type handed over is not
`application/octet-stream`, as for every allowed extension. -/
theorem C28_upload_arguments_valid (runeLower : Char → Char) (form : UploadForm)
    (args : CreateArguments)
    (h : DocumentHandler.createArguments runeLower form = .ok args) :
    args.documentType ≠ "" ∧ args.filename ≠ "" ∧ args.base64Content ≠ "" ∧
    args.contentType ≠ "application/octet-stream" ∧
    (∀ fileExt ∈ allowedExtensions, contentTypeOf fileExt ≠ "application/octet-stream") ∧
    (∀ {σ : Type} (rt : Runtime σ) (userID : Int) (w : σ),
      (NewDocument rt userID args.documentType args.filename args.contentType
        args.base64Content args.categories w).1.2 =
      if userID ≤ 0 then some ErrInvalidDocumentUserID else none) := by
  obtain ⟨userID, req, fileHeader, fileContent, -, -, -, -, hT, -, hE, hC, rfl⟩ :=
    DocumentHandler.createArguments_ok runeLower form args h
  have hName : fileHeader.Filename ≠ "" := by
    intro hn
    rw [hn] at hE
    have hEmpty : stringsToLower runeLower (filepathExt "") = "" := rfl
    rw [hEmpty] at hE
    exact absurd hE (by decide)
  have hContent := base64Encode_ne_empty fileContent hC
  refine ⟨hT, hName, hContent, contentTypeOf_allowed _ hE, contentTypeOf_allowed, ?_⟩
  intro σ rt userID w
  unfold NewDocument
  simp only
  split_ifs <;> rfl

/-- C28 (witness): the upload of `Report.PDF` with the ASCII lower-case mapping. -/
theorem C28_witness :
    DocumentHandler.createArguments asciiLower (pdfUpload ⟨1001⟩) =
      .ok { userID := ⟨1001⟩, documentType := "invoice", filename := "Report.PDF"
            contentType := "application/pdf", base64Content := "QUJD"
            categories := none } ∧
    (("invoice" : String) ≠ "" ∧ ("Report.PDF" : String) ≠ "" ∧ ("QUJD" : String) ≠ "" ∧
    ("application/pdf" : String) ≠ "application/octet-stream" ∧
    (∀ fileExt ∈ allowedExtensions, contentTypeOf fileExt ≠ "application/octet-stream") ∧
    (∀ {σ : Type} (rt : Runtime σ) (userID : Int) (w : σ),
      (NewDocument rt userID "invoice" "Report.PDF" "application/pdf" "QUJD" none w).1.2 =
      if userID ≤ 0 then some ErrInvalidDocumentUserID else none)) :=
  ⟨by rfl,
    C28_upload_arguments_valid asciiLower (pdfUpload ⟨1001⟩)
      { userID := ⟨1001⟩, documentType := "invoice", filename := "Report.PDF"
        contentType := "application/pdf", base64Content := "QUJD"
        categories := none } (by rfl)⟩

end Upload

/-! ## Base64 -/

section Base64

/-- The characters of the alphabet: each decodes to its index, none is the padding
character or a line break, and each is one byte of UTF-8. -/
theorem encodeChar_facts (i : Nat) (h : i < 64) :
    decodeChar (encodeChar i) = some i ∧ encodeChar i ≠ '=' ∧
    encodeChar i ≠ '\r' ∧ encodeChar i ≠ '\n' ∧ (encodeChar i).utf8Size = 1 := by
  interval_cases i <;> decide

/-- The padding character is one byte of UTF-8. -/
theorem pad_utf8Size : ('=' : Char).utf8Size = 1 := by decide

/-- Every character of an encoding is one byte and is not a line break. -/
theorem base64EncodeChars_chars (b : List Byte) :
    ∀ c ∈ base64EncodeChars b, c.utf8Size = 1 ∧ c ≠ '\r' ∧ c ≠ '\n' := by
  induction b using base64EncodeChars.induct with
  | case1 => simp [base64EncodeChars]
  | case2 a =>
    have h1 := encodeChar_facts (a.val / 4) (by omega)
    have h2 := encodeChar_facts (a.val % 4 * 16) (by omega)
    intro c hc
    simp only [base64EncodeChars, List.mem_cons, List.mem_singleton, List.not_mem_nil,
      or_false, or_self] at hc
    rcases hc with rfl | rfl | rfl
    · exact ⟨h1.2.2.2.2, h1.2.2.1, h1.2.2.2.1⟩
    · exact ⟨h2.2.2.2.2, h2.2.2.1, h2.2.2.2.1⟩
    · decide
  | case3 a b =>
    have h1 := encodeChar_facts (a.val / 4) (by omega)
    have h2 := encodeChar_facts (a.val % 4 * 16 + b.val / 16) (by omega)
    have h3 := encodeChar_facts (b.val % 16 * 4) (by omega)
    intro c hc
    simp only [base64EncodeChars, List.mem_cons, List.mem_singleton, List.not_mem_nil,
      or_false] at hc
    rcases hc with rfl | rfl | rfl | rfl
    · exact ⟨h1.2.2.2.2, h1.2.2.1, h1.2.2.2.1⟩
    · exact ⟨h2.2.2.2.2, h2.2.2.1, h2.2.2.2.1⟩
    · exact ⟨h3.2.2.2.2, h3.2.2.1, h3.2.2.2.1⟩
    · decide
  | case4 a b c rest ih =>
    have h1 := encodeChar_facts (a.val / 4) (by omega)
    have h2 := encodeChar_facts (a.val % 4 * 16 + b.val / 16) (by omega)
    have h3 := encodeChar_facts (b.val % 16 * 4 + c.val / 64) (by omega)
    have h4 := encodeChar_facts (c.val % 64) (by omega)
    intro x hx
    simp only [base64EncodeChars, List.mem_cons] at hx
    rcases hx with rfl | rfl | rfl | rfl | hx
    · exact ⟨h1.2.2.2.2, h1.2.2.1, h1.2.2.2.1⟩
    · exact ⟨h2.2.2.2.2, h2.2.2.1, h2.2.2.2.1⟩
    · exact ⟨h3.2.2.2.2, h3.2.2.1, h3.2.2.2.1⟩
    · exact ⟨h4.2.2.2.2, h4.2.2.1, h4.2.2.2.1⟩
    · exact ih x hx

/-- The length of an encoding: four characters for every three bytes begun. -/
theorem base64EncodeChars_length (b : List Byte) :
    (base64EncodeChars b).length = 4 * ((b.length + 2) / 3) := by
  induction b using base64EncodeChars.induct with
  | case1 => rfl
  | case2 a => simp [base64EncodeChars]
  | case3 a b => simp [base64EncodeChars]
  | case4 a b c rest ih =>
    simp only [base64EncodeChars, List.length_cons, ih]
    omega

/-- The byte length of a string of one-byte characters is its number of characters. -/
theorem utf8ByteSize_of_one_byte (cs : List Char) (h : ∀ c ∈ cs, c.utf8Size = 1) :
    (String.mk cs).utf8ByteSize = cs.length := by
  show String.utf8ByteSize.go cs = cs.length
  induction cs with
  | nil => rfl
  | cons c cs ih =>
    simp only [String.utf8ByteSize.go, List.length_cons]
    rw [ih (fun x hx => h x (List.mem_cons_of_mem _ hx)), h c (List.mem_cons_self _ _)]

/-- The Go length of an encoding. -/
theorem goLen_base64Encode (b : List Byte) :
    goLen (base64Encode b) = ((4 * ((b.length + 2) / 3) : Nat) : Int) := by
  unfold goLen base64Encode
  rw [utf8ByteSize_of_one_byte _ (fun c hc => (base64EncodeChars_chars b c hc).1),
    base64EncodeChars_length]

/-- A byte rebuilt from its value. -/
theorem byteOf_val (a : Byte) (n : Nat) (h : n = a.val) : byteOf n = a := by
  apply Fin.ext
  simp only [byteOf, h]
  exact Nat.mod_eq_of_lt a.isLt

/-- Decoding the characters of an encoding gives the bytes back. -/
theorem base64DecodeChars_encode (b : List Byte) :
    base64DecodeChars (base64EncodeChars b) = some b := by
  induction b using base64EncodeChars.induct with
  | case1 => rfl
  | case2 a =>
    have h1 := encodeChar_facts (a.val / 4) (by omega)
    have h2 := encodeChar_facts (a.val % 4 * 16) (by omega)
    simp only [base64EncodeChars, base64DecodeChars, h1.1, h2.1]
    simp only [ne_eq, not_true_eq_false, if_true, if_false, Option.some.injEq,
      List.cons.injEq, and_true]
    exact byteOf_val a _ (by omega)
  | case3 a b =>
    have h1 := encodeChar_facts (a.val / 4) (by omega)
    have h2 := encodeChar_facts (a.val % 4 * 16 + b.val / 16) (by omega)
    have h3 := encodeChar_facts (b.val % 16 * 4) (by omega)
    simp only [base64EncodeChars, base64DecodeChars, h1.1, h2.1, h3.1]
    simp only [ne_eq, not_true_eq_false, if_true, if_false, h3.2.1, Option.some.injEq,
      List.cons.injEq, and_true]
    exact ⟨byteOf_val a _ (by omega), byteOf_val b _ (by omega)⟩
  | case4 a b c rest ih =>
    have h1 := encodeChar_facts (a.val / 4) (by omega)
    have h2 := encodeChar_facts (a.val % 4 * 16 + b.val / 16) (by omega)
    have h3 := encodeChar_facts (b.val % 16 * 4 + c.val / 64) (by omega)
    have h4 := encodeChar_facts (c.val % 64) (by omega)
    simp only [base64EncodeChars, base64DecodeChars, h1.1, h2.1, h3.1, h4.1, ih]
    simp only [h4.2.1, if_false, Option.some.injEq, List.cons.injEq, and_true]
    exact ⟨byteOf_val a _ (by omega), byteOf_val b _ (by omega), byteOf_val c _ (by omega)⟩

/-- The function `DecodeString` gives back the bytes `EncodeToString` was given. -/
theorem base64Decode_encode (b : List Byte) : base64Decode (base64Encode b) = some b := by
  unfold base64Decode base64Encode
  have hf : (base64EncodeChars b).filter (fun c => decide (c ≠ '\r' ∧ c ≠ '\n'))
      = base64EncodeChars b := by
    rw [List.filter_eq_self]
    intro c hc
    have := base64EncodeChars_chars b c hc
    simp [this.2.1, this.2.2]
  simp only [hf]
  exact base64DecodeChars_encode b

end Base64

/-! ## File size and the upload/download round trip -/

section RoundTrip

/-- The file size both DTO mappings compute for a content of Go length `4 * k`. -/
theorem fileSize_of_goLen (content : String) (k : Nat) (hk : k < 2 ^ 59)
    (hLen : goLen content = ((4 * k : Nat) : Int)) :
    (if content ≠ "" then Int.tdiv (wrapInt64 (goLen content * 3)) 4 else 0)
      = goLen content * 3 / 4 ∧
    goLen content * 3 / 4 = ((3 * k : Nat) : Int) := by
  have hk' : ((k : Nat) : Int) < 2 ^ 59 := by exact_mod_cast hk
  have h0 : (0 : Int) ≤ (k : Int) := Int.ofNat_nonneg k
  have hw : wrapInt64 (goLen content * 3) = goLen content * 3 := by
    apply wrapInt64_of_fits
    · rw [hLen]; push_cast; omega
    · rw [hLen]; push_cast; omega
  have hdiv : goLen content * 3 / 4 = ((3 * k : Nat) : Int) := by
    rw [hLen]; push_cast; omega
  refine ⟨?_, hdiv⟩
  split_ifs with hc
  · rw [hw, Int.tdiv_eq_ediv (by rw [hLen]; push_cast; omega) (by decide)]
  · have hc' : content = "" := by simpa using hc
    rw [hc']
    rfl

/-- C29: when `FileContent` is the standard padded base64 encoding of the bytes `b`
(fewer than `2^60` of them), both DTO mappings report as `FileSize` the value
`len(FileContent) * 3 / 4` rounded down, which is at least `len(b)` and at most
`len(b) + 2`; and for every document with an empty `FileContent` they report 0. -/
theorem C29_file_size_bounds (d : Document) (b : List Byte)
    (hEnc : d.FileContent = base64Encode b) (hLen : b.length < 2 ^ 60) :
    (DocumentFromEntity d).FileSize = goLen d.FileContent * 3 / 4 ∧
    (DocumentDetailFromEntity d).FileSize = goLen d.FileContent * 3 / 4 ∧
    (b.length : Int) ≤ (DocumentFromEntity d).FileSize ∧
    (DocumentFromEntity d).FileSize ≤ (b.length : Int) + 2 ∧
    (b.length : Int) ≤ (DocumentDetailFromEntity d).FileSize ∧
    (DocumentDetailFromEntity d).FileSize ≤ (b.length : Int) + 2 ∧
    (∀ e : Document, e.FileContent = "" →
      (DocumentFromEntity e).FileSize = 0 ∧ (DocumentDetailFromEntity e).FileSize = 0) := by
  have hk : (b.length + 2) / 3 < 2 ^ 59 := by omega
  have hg : goLen d.FileContent = ((4 * ((b.length + 2) / 3) : Nat) : Int) := by
    rw [hEnc]
    exact goLen_base64Encode b
  obtain ⟨h1, h2⟩ := fileSize_of_goLen d.FileContent _ hk hg
  have hS : (DocumentFromEntity d).FileSize = goLen d.FileContent * 3 / 4 := h1
  have hD : (DocumentDetailFromEntity d).FileSize = goLen d.FileContent * 3 / 4 := h1
  have hlo : (b.length : Int) ≤ goLen d.FileContent * 3 / 4 := by
    rw [h2]
    have : b.length ≤ 3 * ((b.length + 2) / 3) := by omega
    exact_mod_cast this
  have hhi : goLen d.FileContent * 3 / 4 ≤ (b.length : Int) + 2 := by
    rw [h2]
    have : 3 * ((b.length + 2) / 3) ≤ b.length + 2 := by omega
    exact_mod_cast this
  refine ⟨hS, hD, hS ▸ hlo, hS ▸ hhi, hD ▸ hlo, hD ▸ hhi, ?_⟩
  intro e he
  simp [DocumentFromEntity, DocumentDetailFromEntity, he]

/-- C29 (witness): the stored sample document, whose content `QUJD` encodes the
three bytes `ABC`. -/
theorem C29_witness :
    storedSample.FileContent = base64Encode bytesABC ∧ bytesABC.length < 2 ^ 60 ∧
    ((DocumentFromEntity storedSample).FileSize = goLen storedSample.FileContent * 3 / 4 ∧
    (DocumentDetailFromEntity storedSample).FileSize
      = goLen storedSample.FileContent * 3 / 4 ∧
    (bytesABC.length : Int) ≤ (DocumentFromEntity storedSample).FileSize ∧
    (DocumentFromEntity storedSample).FileSize ≤ (bytesABC.length : Int) + 2 ∧
    (bytesABC.length : Int) ≤ (DocumentDetailFromEntity storedSample).FileSize ∧
    (DocumentDetailFromEntity storedSample).FileSize ≤ (bytesABC.length : Int) + 2 ∧
    (∀ e : Document, e.FileContent = "" →
      (DocumentFromEntity e).FileSize = 0 ∧ (DocumentDetailFromEntity e).FileSize = 0)) :=
  ⟨by decide, by decide, C29_file_size_bounds storedSample bytesABC (by decide) (by decide)⟩

/-- The file sizes reported for the encodings of one, two and three bytes: 3, 3
and 3, each within two of the number of bytes. -/
theorem file_size_example :
    (DocumentFromEntity { storedSample with FileContent := base64Encode [65] }).FileSize = 3 ∧
    (DocumentFromEntity { storedSample with FileContent := base64Encode [65, 66] }).FileSize
      = 3 ∧
    (DocumentFromEntity { storedSample with FileContent := base64Encode bytesABC }).FileSize
      = 3 ∧
    (DocumentFromEntity { storedSample with FileContent := "" }).FileSize = 0 := by
  decide

/-- Every document `CreateDocument` hands to the store's `Create` carries the file
content it was given. -/
theorem CreateDocument_create_content {σ : Type} (svc : DocumentService σ)
    (userExternalID : UUID) (documentType filename contentType fileContent : String)
    (categories : Option (List String)) (w : σ) :
    ∀ d ∈ createCalls (svc.CreateDocument userExternalID documentType filename
        contentType fileContent categories ⟨w, []⟩).2.trace,
      d.FileContent = fileContent := by
  rcases CreateDocument_paths svc userExternalID documentType filename contentType
      fileContent categories w with
    ⟨u, e, w1, h1, hrun⟩ | ⟨w1, h1, hrun⟩ | ⟨u, w1, e, h1, h2, hrun⟩ |
    ⟨u, w1, d, w2, d1, e, w3, h1, h2, h3, hrun⟩ |
    ⟨u, w1, d, w2, d1, w3, ps, msg, w4, h1, h2, h3, hps, h4, hrun⟩ |
    ⟨u, w1, d, w2, d1, w3, ps, e, w4, uerr, w5, h1, h2, h3, hps, h4, h5, hrun⟩ |
    ⟨u, w1, d, w2, d1, w3, ps, w4, d2, w5, uerr, w6, h1, h2, h3, hps, h4, h5, h6, hrun⟩
  · simp [hrun, createCalls]
  · simp [hrun, createCalls]
  · simp [hrun, createCalls]
  all_goals
    have hd := (NewDocument_ok _ _ _ _ _ _ _ _ _ _ _ h2).2.2.2.2.2.2.2.2.2.2.1
  · simp [hrun, createCalls, hd]
  · rcases hps with rfl | ⟨m, pe, rfl⟩ <;> simp [hrun, createCalls, sendTrace, hd]
  · rcases hps with rfl | ⟨m, pe, rfl⟩ <;> simp [hrun, createCalls, sendTrace, hd]
  · rcases hps with rfl | ⟨m, pe, rfl⟩ <;> simp [hrun, createCalls, sendTrace, hd]

/-- A status write under the identifier of the newest row `d1` keeps the older
rows and the file content of `d1`. -/
theorem UpdateStatus_new_row_content (rows : List Document) (d1 : Document) (n : Int)
    (st : DocumentStatus) (w w5 : PgWorld) (uerr : Option GoError)
    (hWF : ∀ r ∈ rows, r.ID < n) (hid : d1.ID = n)
    (hdocs : w.documents = rows ++ [d1])
    (h : PostgresDocumentRepository.UpdateStatus n st w = (uerr, w5)) :
    ∀ row ∈ w5.documents, row ∈ rows ∨ row.FileContent = d1.FileContent := by
  have hu := PostgresDocumentRepository.UpdateStatus_effect n st w w5 uerr h
  intro row hrow
  cases uerr with
  | none =>
    obtain ⟨now, hw5⟩ := hu.1 rfl
    rw [hw5, hdocs, List.mem_map] at hrow
    obtain ⟨r0, hr0, rfl⟩ := hrow
    rw [List.mem_append, List.mem_singleton] at hr0
    rcases hr0 with hr0 | rfl
    · left
      have := hWF r0 hr0
      rw [if_neg (by omega)]
      exact hr0
    · right
      rw [if_pos hid]
  | some e =>
    have hw5 := hu.2 (by simp)
    rw [hw5, hdocs, List.mem_append, List.mem_singleton] at hrow
    rcases hrow with hr0 | rfl
    · exact Or.inl hr0
    · exact Or.inr rfl

/-- After `CreateDocument` on the Postgres store every stored row is a row stored
before, as it was, or carries the file content `CreateDocument` was given. -/
theorem CreateDocument_stored_content (enc : Encoding) (topic : Option String)
    (userExternalID : UUID) (documentType filename contentType fileContent : String)
    (categories : Option (List String)) (w : PgWorld)
    (hWF : ∀ r ∈ w.documents, r.ID < w.nextDocumentID) :
    ∀ row ∈ ((mainService enc (topic.map pgProducer)).CreateDocument userExternalID
        documentType filename contentType fileContent categories
        ⟨w, []⟩).2.world.documents,
      row ∈ w.documents ∨ row.FileContent = fileContent := by
  have f1 := PostgresUserRepository.FindByExternalID_frame userExternalID w
  rcases CreateDocument_paths (mainService enc (topic.map pgProducer)) userExternalID
      documentType filename contentType fileContent categories w with
    ⟨u, e1, w1, h1, hrun⟩ | ⟨w1, h1, hrun⟩ | ⟨u, w1, e1, h1, h2, hrun⟩ |
    ⟨u, w1, d0, w2, d1, e1, w3, h1, h2, h3, hrun⟩ |
    ⟨u, w1, d0, w2, d1, w3, ps, msg, w4, h1, h2, h3, hps, h4, hrun⟩ |
    ⟨u, w1, d0, w2, d1, w3, ps, e1, w4, uerr, w5, h1, h2, h3, hps, h4, h5, hrun⟩ |
    ⟨u, w1, d0, w2, d1, w3, ps, w4, d2, w5, uerr, w6, h1, h2, h3, hps, h4, h5, h6, hrun⟩
  all_goals
    simp only [mainService, NewDocumentService, NewPostgresUserRepository] at h1
    rw [h1] at f1
    simp only at f1
    rw [hrun]
    simp only
  · intro row hrow
    exact Or.inl (f1.1 ▸ hrow)
  · intro row hrow
    exact Or.inl (f1.1 ▸ hrow)
  · intro row hrow
    exact Or.inl (f1.1 ▸ hrow)
  · have f2 := NewDocument_frame u.ID documentType filename contentType fileContent
      categories w1
    simp only [mainService, NewDocumentService] at h2
    rw [h2] at f2
    simp only at f2
    have f3 := PostgresDocumentRepository.Create_refused _ _ _ _ _ h3
    intro row hrow
    rw [f3, f2.1, f1.1] at hrow
    exact Or.inl hrow
  all_goals
    have f2 := NewDocument_frame u.ID documentType filename contentType fileContent
      categories w1
    simp only [mainService, NewDocumentService] at h2 h4
    have hc0 := (NewDocument_ok _ _ _ _ _ _ _ _ _ _ _ h2).2.2.2.2.2.2.2.2.2.2.1
    rw [h2] at f2
    simp only at f2
    have f3 := PostgresDocumentRepository.Create_ok _ _ _ _ h3
    have f4 := SendDocument_world enc topic d1 ⟨w3, sendTrace userExternalID u d0 d1 []⟩
    rw [h4] at f4
    simp only at f4
    have hn : w2.nextDocumentID = w.nextDocumentID := by rw [f2.2, f1.2]
    have hdocs : w2.documents = w.documents := by rw [f2.1, f1.1]
    have hid : d1.ID = w.nextDocumentID := by rw [f3.1, hn]
    have hc : d1.FileContent = fileContent := by rw [f3.1]; exact hc0
    have hw4 : w4.documents = w.documents ++ [d1] := by rw [f4, f3.2.1, hdocs]
  · intro row hrow
    rw [hw4, List.mem_append, List.mem_singleton] at hrow
    rcases hrow with hr | rfl
    · exact Or.inl hr
    · exact Or.inr hc
  · intro row hrow
    have h5' : PostgresDocumentRepository.UpdateStatus w.nextDocumentID
        DocumentStatusFailed w4 = (uerr, w5) := by rw [← hid]; exact h5
    rcases UpdateStatus_new_row_content _ _ _ _ _ _ _ hWF hid hw4 h5' row hrow with hr | hs
    · exact Or.inl hr
    · exact Or.inr (hs.trans hc)
  · intro row hrow
    simp only [Document.UpdateStatus, pgRuntime, PgWorld.now, Prod.mk.injEq] at h5
    obtain ⟨hd2, hw5⟩ := h5
    have hid2 : d2.ID = w.nextDocumentID := by rw [← hd2]; exact hid
    have hw5d : w5.documents = w.documents ++ [d1] := by rw [← hw5]; exact hw4
    have h6' : PostgresDocumentRepository.UpdateStatus w.nextDocumentID
        DocumentStatusProcessing w5 = (uerr, w6) := by rw [← hid2]; exact h6
    rcases UpdateStatus_new_row_content _ _ _ _ _ _ _ hWF hid hw5d h6' row hrow with hr | hs
    · exact Or.inl hr
    · exact Or.inr (hs.trans hc)

/-- The handler `DownloadDocument` on a document whose content is the encoding of
the bytes `b`: status 200, the body `b`, and `Content-Length` the number of bytes. -/
theorem DownloadDocument_encoded {σ : Type} (svc : DocumentService σ)
    (id : UUID) (s s1 : Sys σ) (document : Document) (b : List Byte)
    (hGet : svc.GetDocumentByExternalID id s = ((some document, none), s1))
    (hEnc : document.FileContent = base64Encode b) :
    DocumentHandler.DownloadDocument svc (some id) s =
      (.returned
        { status := 200
          headers :=
            [("Content-Disposition", "attachment; filename=" ++ document.Filename),
             ("Content-Type", document.ContentType),
             ("Content-Length", sprintfD b.length)]
          body := .data document.ContentType b }, s1) := by
  unfold DocumentHandler.DownloadDocument
  simp only [hGet, hEnc, base64Decode_encode]
  rfl

/-- C30: for every upload the handler `Create` accepts, with file body `b`: `b` is
not empty; the content handed to `CreateDocument` is the standard base64 encoding
of `b`; every document `CreateDocument` hands to the store's `Create` carries that
content, and on the Postgres store every row stored by the call carries it;
decoding it gives `b`; and `DownloadDocument`, on any document with that content,
answers 200 with the body `b` and `Content-Length` equal to `len(b)`. -/
theorem C30_upload_download_round_trip {σ : Type} (svc : DocumentService σ)
    (runeLower : Char → Char) (form : UploadForm) (args : CreateArguments) (w : σ)
    (h : DocumentHandler.createArguments runeLower form = .ok args) :
    ∃ fileHeader b,
      form.file = some fileHeader ∧ fileHeader.body = .ok b ∧ b ≠ [] ∧
      args.base64Content = base64Encode b ∧
      (∀ d ∈ createCalls (svc.CreateDocument args.userID args.documentType args.filename
          args.contentType args.base64Content args.categories ⟨w, []⟩).2.trace,
        d.FileContent = base64Encode b) ∧
      (∀ (enc : Encoding) (topic : Option String) (pw : PgWorld),
        (∀ r ∈ pw.documents, r.ID < pw.nextDocumentID) →
        ∀ row ∈ ((mainService enc (topic.map pgProducer)).CreateDocument args.userID
            args.documentType args.filename args.contentType args.base64Content
            args.categories ⟨pw, []⟩).2.world.documents,
          row ∈ pw.documents ∨ row.FileContent = base64Encode b) ∧
      base64Decode (base64Encode b) = some b ∧
      (∀ {τ : Type} (svc2 : DocumentService τ) (id : UUID) (s2 s3 : Sys τ)
          (document : Document),
        svc2.GetDocumentByExternalID id s2 = ((some document, none), s3) →
        document.FileContent = base64Encode b →
        DocumentHandler.DownloadDocument svc2 (some id) s2 =
          (.returned
            { status := 200
              headers :=
                [("Content-Disposition", "attachment; filename=" ++ document.Filename),
                 ("Content-Type", document.ContentType),
                 ("Content-Length", sprintfD b.length)]
              body := .data document.ContentType b }, s3)) := by
  obtain ⟨userID, req, fileHeader, b, -, -, hF, hB, -, -, -, hne, rfl⟩ :=
    DocumentHandler.createArguments_ok runeLower form args h
  refine ⟨fileHeader, b, hF, hB, hne, rfl, ?_, ?_, base64Decode_encode b, ?_⟩
  · exact CreateDocument_create_content svc _ _ _ _ _ _ w
  · intro enc topic pw hWF
    exact CreateDocument_stored_content enc topic _ _ _ _ _ _ pw hWF
  · intro τ svc2 id s2 s3 document hGet hEnc
    exact DownloadDocument_encoded svc2 id s2 s3 document b hGet hEnc

/-- C30 (witness): the upload `pdfUpload` of the three bytes `ABC` for user 1001. -/
theorem C30_witness :
    DocumentHandler.createArguments asciiLower (pdfUpload ⟨1001⟩) = .ok pdfArguments ∧
    ∃ fileHeader b,
      (pdfUpload ⟨1001⟩).file = some fileHeader ∧ fileHeader.body = .ok b ∧ b ≠ [] ∧
      pdfArguments.base64Content = base64Encode b ∧
      (∀ d ∈ createCalls (svcUp.CreateDocument pdfArguments.userID
          pdfArguments.documentType pdfArguments.filename pdfArguments.contentType
          pdfArguments.base64Content pdfArguments.categories ⟨world0, []⟩).2.trace,
        d.FileContent = base64Encode b) ∧
      (∀ (enc : Encoding) (topic : Option String) (pw : PgWorld),
        (∀ r ∈ pw.documents, r.ID < pw.nextDocumentID) →
        ∀ row ∈ ((mainService enc (topic.map pgProducer)).CreateDocument
            pdfArguments.userID pdfArguments.documentType pdfArguments.filename
            pdfArguments.contentType pdfArguments.base64Content
            pdfArguments.categories ⟨pw, []⟩).2.world.documents,
          row ∈ pw.documents ∨ row.FileContent = base64Encode b) ∧
      base64Decode (base64Encode b) = some b ∧
      (∀ {τ : Type} (svc2 : DocumentService τ) (id : UUID) (s2 s3 : Sys τ)
          (document : Document),
        svc2.GetDocumentByExternalID id s2 = ((some document, none), s3) →
        document.FileContent = base64Encode b →
        DocumentHandler.DownloadDocument svc2 (some id) s2 =
          (.returned
            { status := 200
              headers :=
                [("Content-Disposition", "attachment; filename=" ++ document.Filename),
                 ("Content-Type", document.ContentType),
                 ("Content-Length", sprintfD b.length)]
              body := .data document.ContentType b }, s3)) :=
  ⟨by rfl,
    C30_upload_download_round_trip svcUp asciiLower (pdfUpload ⟨1001⟩) pdfArguments world0
      (by rfl)⟩

/-- The round trip on the Postgres store: the upload of `ABC` as `Report.PDF` is
answered 201 and stores one row with content `QUJD`; the download of that document
is answered 200 with the body `ABC` and `Content-Length` 3. -/
theorem round_trip_example :
    (DocumentHandler.Create svcUp asciiLower (pdfUpload ⟨1001⟩) ⟨world0, []⟩).1
      = .returned (JSON 201 (.document
          { ID := ⟨5000⟩, DocumentType := "invoice", Filename := "Report.PDF"
            ContentType := "application/pdf", FileSize := 3, Categories := some []
            Status := "processing", CreatedAt := 100, UpdatedAt := 101 })) ∧
    worldUploaded.documents.map (fun r => (r.ExternalID, r.FileContent))
      = [(⟨5000⟩, "QUJD")] ∧
    (DocumentHandler.DownloadDocument svcUp (some ⟨5000⟩) ⟨worldUploaded, []⟩).1
      = .returned
          { status := 200
            headers := [("Content-Disposition", "attachment; filename=Report.PDF"),
                        ("Content-Type", "application/pdf"), ("Content-Length", "3")]
            body := .data "application/pdf" bytesABC } := by
  decide

end RoundTrip

end FinanceAssistant
